import Mathlib

/-! DDrawCompat: the D3dDdi device proxy, the primary surface, the
`IDirect3DMaterial` vtable visitor and the system palette.

A shallow embedding of `DDrawCompat/D3dDdi/Device.cpp`,
`DDraw/Surfaces/PrimarySurface.cpp`,
`Direct3d/Visitors/Direct3dMaterialVtblVisitor.h` and `Gdi/Palette.cpp`.

* Handles (`HANDLE`) are natural numbers, `0` is `nullptr`.
* `HRESULT` is a signed integer; `SUCCEEDED`/`FAILED` test its sign.
* Everything the proxy calls but does not own (the original device table
  `m_origVtable`, the members of `D3dDdi::Resource`, the kernel thunk, raw
  memory behind a locked surface) is a field of `Env W`, acting on an
  arbitrary external world `W`.
* Every call that leaves `Device` is appended to a ghost `trace`, so that
  ordering properties can be stated.
* The device table `s_devices` and the static members of `Device` act on a
  `Process W`; a `Resource*` is an `Option Resource`, which may refer to an
  object that is no longer registered anywhere.
* The palette tables are lists of 256 entries, with a ghost log of the
  indices used to access them.
-/

namespace D3dDdi

/-! ## Basic Win32 types -/

abbrev HANDLE := Nat
abbrev HRESULT := Int
abbrev UINT := Nat

def nullptr : HANDLE := 0
def S_OK : HRESULT := 0

/-- The Win32 test `SUCCEEDED(hr)`: the result code is non-negative. -/
def SUCCEEDED (hr : HRESULT) : Bool := decide (0 ≤ hr)

/-- The Win32 test `FAILED(hr)`: the result code is negative. -/
def FAILED (hr : HRESULT) : Bool := decide (hr < 0)

/-- Conversion of an `HRESULT` to `UINT32` (two's complement, 32 bits). -/
def toUINT32 (hr : HRESULT) : Nat := (hr % 2 ^ 32).toNat

/-- The flag `DDRAW_CKEYCAPS_SRCBLT` of the driver's DirectDraw caps. -/
def DDRAW_CKEYCAPS_SRCBLT : Nat := 0x200
/-- The clear flag `D3DCLEAR_TARGET`. -/
def D3DCLEAR_TARGET : Nat := 0x1
def D3DDDIFMT_R5G6B5 : Nat := 23
def D3DDDIPOOL_SYSTEMMEM : Nat := 1
def D3DDDIPOOL_VIDEOMEMORY : Nat := 2
def D3DDDI_ROTATION_IDENTITY : Nat := 1

structure RECT where
  left : Int
  top : Int
  right : Int
  bottom : Int
deriving DecidableEq, Repr

structure D3DDDIARG_BLT where
  hSrcResource : HANDLE
  SrcSubResourceIndex : UINT
  SrcRect : RECT
  hDstResource : HANDLE
  DstSubResourceIndex : UINT
  DstRect : RECT
  ColorKey : Nat
  Flags_SrcColorKey : Bool
deriving DecidableEq, Repr

structure D3DDDIARG_COLORFILL where
  hResource : HANDLE
  SubResourceIndex : UINT
  DstRect : RECT
  Color : Nat
deriving DecidableEq, Repr

structure D3DDDIARG_LOCK where
  hResource : HANDLE
  SubResourceIndex : UINT
  pSurfData : Nat
  Flags : Nat
deriving DecidableEq, Repr

structure D3DDDIARG_UNLOCK where
  hResource : HANDLE
  SubResourceIndex : UINT
deriving DecidableEq, Repr

structure D3DDDIARG_PRESENT where
  hSrcResource : HANDLE
  SrcSubResourceIndex : UINT
  hDstResource : HANDLE
  DstSubResourceIndex : UINT
deriving DecidableEq, Repr

structure D3DDDIARG_PRESENTSURFACE where
  hResource : HANDLE
  SubResourceIndex : UINT
deriving DecidableEq, Repr

/-- The argument of `pfnPresent1`. The array `phSrcResources` of `SrcResources`
entries is a list; `SrcResources` is its length. -/
structure D3DDDIARG_PRESENT1 where
  phSrcResources : List D3DDDIARG_PRESENTSURFACE
  hDstResource : HANDLE
  DstSubResourceIndex : UINT
deriving DecidableEq, Repr

def D3DDDIARG_PRESENT1.SrcResources (data : D3DDDIARG_PRESENT1) : UINT :=
  data.phSrcResources.length

structure D3DDDIARG_SETRENDERTARGET where
  RenderTargetIndex : UINT
  hRenderTarget : HANDLE
  SubResourceIndex : UINT
deriving DecidableEq, Repr

structure D3DDDIARG_OPENRESOURCE where
  hResource : HANDLE
  Flags_Fullscreen : Bool
deriving DecidableEq, Repr

structure D3DDDIARG_CLEAR where
  Flags : Nat
  FillColor : Nat
deriving DecidableEq, Repr

structure D3DDDI_SURFACEINFO where
  Width : UINT
  Height : UINT
  pSysMem : Nat
deriving DecidableEq, Repr

/-- The argument of `pfnCreateResource2`; `D3DDDIARG_CREATERESOURCE` is a
prefix of it and `createResourceImpl` reads the same members of both. -/
structure D3DDDIARG_CREATERESOURCE2 where
  Format : Nat
  Pool : Nat
  Fvf : Nat
  pSurfList : List D3DDDI_SURFACEINFO
  SurfCount : UINT
  hResource : HANDLE
  Flags_RenderTarget : Bool
  Flags_VertexBuffer : Bool
  Rotation : Nat
deriving DecidableEq, Repr

structure D3DDDIARG_DRAWPRIMITIVE where
  PrimitiveType : Nat
  VStart : UINT
  PrimitiveCount : UINT
deriving DecidableEq, Repr

structure D3DDDIARG_DRAWINDEXEDPRIMITIVE2 where
  PrimitiveType : Nat
  BaseVertexOffset : Int
  MinIndex : UINT
  NumVertices : UINT
  StartIndexOffset : UINT
  PrimitiveCount : UINT
deriving DecidableEq, Repr

structure D3DDDIARG_SETSTREAMSOURCE where
  Stream : UINT
  hVertexBuffer : HANDLE
  Offset : UINT
  Stride : UINT
deriving DecidableEq, Repr

structure D3DDDIARG_SETSTREAMSOURCEUM where
  Stream : UINT
  Stride : UINT
deriving DecidableEq, Repr

/-! ## `std::map<HANDLE, T>` -/

/-- A `std::map` keyed by handle: an association list kept in key order. -/
abbrev Map (α : Type) := List (HANDLE × α)

namespace Map

/-- The member `std::map::find`; `none` stands for `end()`. -/
def find {α : Type} : Map α → HANDLE → Option α
  | [], _ => none
  | (k', v) :: rest, k => if k' = k then some v else find rest k

/-- Insertion of a key known to be absent, at its place in key order. -/
def insertSorted {α : Type} : Map α → HANDLE → α → Map α
  | [], k, v => [(k, v)]
  | (k', v') :: rest, k, v =>
    if k < k' then (k, v) :: (k', v') :: rest else (k', v') :: insertSorted rest k v

/-- The member `std::map::emplace` (and `try_emplace`): nothing is inserted
when the key is already present. -/
def emplace {α : Type} (m : Map α) (k : HANDLE) (v : α) : Map α :=
  match m.find k with
  | some _ => m
  | none => m.insertSorted k v

/-- The member `std::map::erase(key)`. -/
def erase {α : Type} (m : Map α) (k : HANDLE) : Map α :=
  m.filter (fun p => p.1 ≠ k)

/-- The keys of the map, in iteration order. -/
def keys {α : Type} (m : Map α) : List HANDLE := m.map Prod.fst

end Map

/-! ## Resources and the draw-submission batcher -/

/-- A `D3dDdi::Resource` object as `Device` sees it: `handle` is what its
`operator HANDLE()` yields, `id` identifies the object itself, so that
`Resource*` values can be compared. Its shadow state lives in the world. -/
structure Resource where
  id : Nat
  handle : HANDLE
deriving DecidableEq, Repr

/-- A batched draw submission. -/
inductive Primitive where
  | draw (data : D3DDDIARG_DRAWPRIMITIVE) (flagBuffer : List Nat)
  | drawIndexed (data : D3DDDIARG_DRAWINDEXEDPRIMITIVE2) (indexBuffer : List Nat)
      (flagBuffer : List Nat)
deriving DecidableEq, Repr

/-- Modelled from the spec: the class `D3dDdi::DrawPrimitive` (member
`m_drawPrimitive`) is not among the sources. The spec describes it as the
draw-submission batcher: it "accumulates primitives and vertex-stream state and
flushes them as a single submission", and system-memory vertex buffers are
registered with it "for shadow-copy vertex fetch". -/
structure DrawPrimitive where
  m_sysMemVertexBuffers : Map (Nat × Nat)
  m_streamSource : Option D3DDDIARG_SETSTREAMSOURCE
  m_streamSourceUm : Option (D3DDDIARG_SETSTREAMSOURCEUM × Nat)
  m_batched : List Primitive
deriving DecidableEq, Repr

namespace DrawPrimitive

/-- Modelled from the spec: registers the memory region of a system-memory
vertex buffer under the resource handle. -/
def addSysMemVertexBuffer (dp : DrawPrimitive) (resource : HANDLE) (vertices : Nat)
    (fvf : Nat) : DrawPrimitive :=
  { dp with m_sysMemVertexBuffers :=
      (dp.m_sysMemVertexBuffers.erase resource).insertSorted resource (vertices, fvf) }

/-- Modelled from the spec: deregisters the resource handle from the batcher. -/
def removeSysMemVertexBuffer (dp : DrawPrimitive) (resource : HANDLE) : DrawPrimitive :=
  { dp with m_sysMemVertexBuffers := dp.m_sysMemVertexBuffers.erase resource }

/-- Modelled from the spec: a draw submission is accumulated in the batch. -/
def draw (dp : DrawPrimitive) (p : Primitive) : DrawPrimitive :=
  { dp with m_batched := dp.m_batched ++ [p] }

end DrawPrimitive

/-! ## The ghost trace -/

/-- The calls that leave `Device`, in the order they are made. -/
inductive Event where
  | flushPrimitives (batch : List Primitive)
  | Resource_ctor (data : D3DDDIARG_CREATERESOURCE2)
  | Resource_blt (r : Resource) (data : D3DDDIARG_BLT)
  | Resource_colorFill (r : Resource) (data : D3DDDIARG_COLORFILL)
  | Resource_lock (r : Resource) (data : D3DDDIARG_LOCK)
  | Resource_unlock (r : Resource) (data : D3DDDIARG_UNLOCK)
  | Resource_prepareForRendering (r : Resource) (subResourceIndex : UINT) (isReadOnly : Bool)
  | Resource_setAsGdiResource (r : Resource) (isGdiResource : Bool)
  | pfnBlt (data : D3DDDIARG_BLT)
  | pfnClear (data : D3DDDIARG_CLEAR) (numRect : UINT) (rect : List RECT)
  | pfnColorFill (data : D3DDDIARG_COLORFILL)
  | pfnCreateResource (data : D3DDDIARG_CREATERESOURCE2)
  | pfnCreateResource2 (data : D3DDDIARG_CREATERESOURCE2)
  | pfnDestroyResource (resource : HANDLE)
  | pfnFlush
  | pfnFlush1 (FlushFlags : UINT)
  | pfnLock (data : D3DDDIARG_LOCK)
  | pfnOpenResource (data : D3DDDIARG_OPENRESOURCE)
  | pfnPresent (data : D3DDDIARG_PRESENT)
  | pfnPresent1 (data : D3DDDIARG_PRESENT1)
  | pfnSetRenderTarget (data : D3DDDIARG_SETRENDERTARGET)
  | pfnUnlock (data : D3DDDIARG_UNLOCK)
  | D3DKMTReleaseProcessVidPnSourceOwners
  | LOG_ONCE (msg : String)
deriving DecidableEq, Repr

/-- Whether the event is a call of an entry of the original device table. -/
def Event.isOrigVtableCall : Event → Bool
  | .pfnBlt _ | .pfnClear _ _ _ | .pfnColorFill _ | .pfnCreateResource _
  | .pfnCreateResource2 _ | .pfnDestroyResource _ | .pfnFlush | .pfnFlush1 _
  | .pfnLock _ | .pfnOpenResource _ | .pfnPresent _ | .pfnPresent1 _
  | .pfnSetRenderTarget _ | .pfnUnlock _ => true
  | _ => false

/-- Whether the event is a call of a member of `D3dDdi::Resource`. -/
def Event.isResourceCall : Event → Bool
  | .Resource_ctor _ | .Resource_blt _ _ | .Resource_colorFill _ _ | .Resource_lock _ _
  | .Resource_unlock _ _ | .Resource_prepareForRendering _ _ _
  | .Resource_setAsGdiResource _ _ => true
  | _ => false

/-- Whether the event is a submission to the log sink. -/
def Event.isLog : Event → Bool
  | .LOG_ONCE _ => true
  | _ => false

/-! ## The environment of a device -/

/-- What `Device` calls but does not define, over an external world `W`:
the original device table `m_origVtable` (each entry is called with
`m_device` first), the members of `D3dDdi::Resource` (declared in
`D3dDdi/Resource.h`), the kernel thunk, the commit of a batch by the batcher,
the 32-bit word behind a locked surface pointer and `Compat::hex`. -/
structure Env (W : Type) where
  pfnBlt : W → HANDLE → D3DDDIARG_BLT → HRESULT × W
  pfnClear : W → HANDLE → D3DDDIARG_CLEAR → UINT → List RECT → HRESULT × W
  pfnColorFill : W → HANDLE → D3DDDIARG_COLORFILL → HRESULT × W
  pfnCreateResource : W → HANDLE → D3DDDIARG_CREATERESOURCE2 →
    HRESULT × D3DDDIARG_CREATERESOURCE2 × W
  pfnCreateResource2 : Option (W → HANDLE → D3DDDIARG_CREATERESOURCE2 →
    HRESULT × D3DDDIARG_CREATERESOURCE2 × W)
  pfnDestroyResource : W → HANDLE → HANDLE → HRESULT × W
  pfnFlush : W → HANDLE → HRESULT × W
  pfnFlush1 : W → HANDLE → UINT → HRESULT × W
  pfnLock : W → HANDLE → D3DDDIARG_LOCK → HRESULT × D3DDDIARG_LOCK × W
  pfnOpenResource : W → HANDLE → D3DDDIARG_OPENRESOURCE →
    HRESULT × D3DDDIARG_OPENRESOURCE × W
  pfnPresent : W → HANDLE → D3DDDIARG_PRESENT → HRESULT × W
  pfnPresent1 : W → HANDLE → D3DDDIARG_PRESENT1 → HRESULT × W
  pfnSetRenderTarget : W → HANDLE → D3DDDIARG_SETRENDERTARGET → HRESULT × W
  pfnUnlock : W → HANDLE → D3DDDIARG_UNLOCK → HRESULT × W
  /-- The constructor `Resource(Device&, Arg&)`: it throws an
  `HResultException` (left) or yields the handle of the new object (right),
  and may write to its argument. -/
  Resource_ctor : W → HANDLE → D3DDDIARG_CREATERESOURCE2 →
    (HRESULT ⊕ HANDLE) × D3DDDIARG_CREATERESOURCE2 × W
  /-- The constructor overload taking a `D3DDDIARG_CREATERESOURCE2&`. -/
  Resource_ctor2 : W → HANDLE → D3DDDIARG_CREATERESOURCE2 →
    (HRESULT ⊕ HANDLE) × D3DDDIARG_CREATERESOURCE2 × W
  Resource_blt : W → Resource → D3DDDIARG_BLT → HRESULT × W
  Resource_colorFill : W → Resource → D3DDDIARG_COLORFILL → HRESULT × W
  Resource_lock : W → Resource → D3DDDIARG_LOCK → HRESULT × D3DDDIARG_LOCK × W
  Resource_unlock : W → Resource → D3DDDIARG_UNLOCK → HRESULT × W
  Resource_prepareForRendering : W → Resource → UINT → Bool → W
  Resource_setAsGdiResource : W → Resource → Bool → W
  D3DKMTReleaseProcessVidPnSourceOwners : W → W
  commitBatch : W → HANDLE → List Primitive → W
  write32 : W → Nat → Nat → W
  read32 : W → Nat → Nat
  hex : Nat → String

/-! ## Device state -/

/-- The data members of `D3dDdi::Device`. `m_adapterCKeyCaps` is
`m_adapter.getDDrawCaps().CKeyCaps`. -/
structure Device where
  m_adapterCKeyCaps : Nat
  m_device : HANDLE
  m_isSrcColorKeySupported : Bool
  m_resources : Map Resource
  m_renderTarget : Option Resource
  m_renderTargetSubResourceIndex : UINT
  m_sharedPrimary : HANDLE
  m_drawPrimitive : DrawPrimitive
deriving DecidableEq, Repr

/-- The state a member function of `Device` runs in: the object itself
(`dev`, i.e. `*this`), the globals of `Device.cpp`, the external world, and
two ghost fields (the next fresh object identity and the trace). -/
structure State (W : Type) where
  dev : Device
  g_gdiResourceHandle : HANDLE
  g_gdiResource : Option Resource
  g_isReadOnlyGdiLockEnabled : Bool
  s_isFlushEnabled : Bool
  nextResourceId : Nat
  trace : List Event
  world : W

/-- Records a call that left `Device`: the event joins the trace and the
world becomes what the call made of it. -/
def State.call {W : Type} (s : State W) (e : Event) (w : W) : State W :=
  { s with trace := s.trace ++ [e], world := w }

/-- Replaces the device object `*this`. -/
def State.setDev {W : Type} (s : State W) (d : Device) : State W :=
  { s with dev := d }

/-! ## The member functions of `Device` -/

namespace Device

variable {W : Type}

/-- Modelled from the spec: `Device::flushPrimitives` is declared in
`D3dDdi/Device.h`, which is not among the sources; it is the "commit of all
batched draw submissions" of the batcher `m_drawPrimitive`: the batch is handed
over as a single submission and the batcher is left with nothing pending. -/
def flushPrimitives (env : Env W) (s : State W) : State W :=
  (s.setDev { s.dev with
      m_drawPrimitive := { s.dev.m_drawPrimitive with m_batched := [] } }).call
    (.flushPrimitives s.dev.m_drawPrimitive.m_batched)
    (env.commitBatch s.world s.dev.m_device s.dev.m_drawPrimitive.m_batched)

/-- The member `Device::getResource`. -/
def getResource (s : State W) (resource : HANDLE) : Option Resource :=
  s.dev.m_resources.find resource

/-- The member `Device::prepareForRendering(HANDLE, UINT, bool)`. -/
def prepareForRendering (env : Env W) (s : State W) (resource : HANDLE)
    (subResourceIndex : UINT) (isReadOnly : Bool) : State W :=
  match s.dev.m_resources.find resource with
  | some r =>
    s.call (.Resource_prepareForRendering r subResourceIndex isReadOnly)
      (env.Resource_prepareForRendering s.world r subResourceIndex isReadOnly)
  | none => s

/-- The member `Device::prepareForRendering()`, the overload without arguments. -/
def prepareForRendering0 (env : Env W) (s : State W) : State W :=
  match s.dev.m_renderTarget with
  | some r =>
    s.call (.Resource_prepareForRendering r s.dev.m_renderTargetSubResourceIndex false)
      (env.Resource_prepareForRendering s.world r s.dev.m_renderTargetSubResourceIndex false)
  | none => s

/-- The member `Device::blt`. -/
def blt (env : Env W) (s : State W) (data : D3DDDIARG_BLT) : HRESULT × State W :=
  let s := flushPrimitives env s
  match s.dev.m_resources.find data.hDstResource with
  | some r =>
    let c := env.Resource_blt s.world r data
    (c.1, s.call (.Resource_blt r data) c.2)
  | none =>
    let s := prepareForRendering env s data.hSrcResource data.SrcSubResourceIndex true
    let c := env.pfnBlt s.world s.dev.m_device data
    (c.1, s.call (.pfnBlt data) c.2)

/-- The member `Device::clear`. -/
def clear (env : Env W) (s : State W) (data : D3DDDIARG_CLEAR) (numRect : UINT)
    (rect : List RECT) : HRESULT × State W :=
  let s := flushPrimitives env s
  let s := if data.Flags &&& D3DCLEAR_TARGET ≠ 0 then prepareForRendering0 env s else s
  let c := env.pfnClear s.world s.dev.m_device data numRect rect
  (c.1, s.call (.pfnClear data numRect rect) c.2)

/-- The member `Device::colorFill`. -/
def colorFill (env : Env W) (s : State W) (data : D3DDDIARG_COLORFILL) : HRESULT × State W :=
  let s := flushPrimitives env s
  match s.dev.m_resources.find data.hResource with
  | some r =>
    let c := env.Resource_colorFill s.world r data
    (c.1, s.call (.Resource_colorFill r data) c.2)
  | none =>
    let c := env.pfnColorFill s.world s.dev.m_device data
    (c.1, s.call (.pfnColorFill data) c.2)

/-- The member `Device::createPrivateResource`. -/
def createPrivateResource (env : Env W) (s : State W) (data : D3DDDIARG_CREATERESOURCE2) :
    HRESULT × D3DDDIARG_CREATERESOURCE2 × State W :=
  match env.pfnCreateResource2 with
  | some pfnCreateResource2 =>
    let c := pfnCreateResource2 s.world s.dev.m_device data
    (c.1, c.2.1, s.call (.pfnCreateResource2 data) c.2.2)
  | none =>
    let c := env.pfnCreateResource s.world s.dev.m_device data
    (c.1, c.2.1, s.call (.pfnCreateResource data) c.2.2)

/-- The member `data.pSurfList[0].pSysMem`; a resource has at least one surface. -/
def firstSysMem (data : D3DDDIARG_CREATERESOURCE2) : Nat :=
  match data.pSurfList with
  | si :: _ => si.pSysMem
  | [] => 0

/-- The member template `Device::createResourceImpl<Arg>`; `ctor` is the
constructor of `Resource` for the argument type. The `try` block ends at the
first `HResultException`, which only the constructor raises. -/
def createResourceImpl
    (ctor : W → HANDLE → D3DDDIARG_CREATERESOURCE2 →
      (HRESULT ⊕ HANDLE) × D3DDDIARG_CREATERESOURCE2 × W)
    (s : State W) (data : D3DDDIARG_CREATERESOURCE2) :
    HRESULT × D3DDDIARG_CREATERESOURCE2 × State W :=
  let c := ctor s.world s.dev.m_device data
  let s := s.call (.Resource_ctor data) c.2.2
  let data := c.2.1
  match c.1 with
  | .inl e => (e, data, s)
  | .inr handle =>
    let resource : Resource := { id := s.nextResourceId, handle := handle }
    let s := { s with nextResourceId := s.nextResourceId + 1 }
    let s := s.setDev { s.dev with
      m_resources := s.dev.m_resources.emplace resource.handle resource }
    let s :=
      if data.Flags_VertexBuffer && D3DDDIPOOL_SYSTEMMEM == data.Pool && firstSysMem data != 0 then
        s.setDev { s.dev with
          m_drawPrimitive := s.dev.m_drawPrimitive.addSysMemVertexBuffer data.hResource
            (firstSysMem data) data.Fvf }
      else s
    (S_OK, data, s)

/-- The member `Device::createResource`. -/
def createResource (env : Env W) (s : State W) (data : D3DDDIARG_CREATERESOURCE2) :
    HRESULT × D3DDDIARG_CREATERESOURCE2 × State W :=
  createResourceImpl env.Resource_ctor s data

/-- The member `Device::createResource2`. -/
def createResource2 (env : Env W) (s : State W) (data : D3DDDIARG_CREATERESOURCE2) :
    HRESULT × D3DDDIARG_CREATERESOURCE2 × State W :=
  createResourceImpl env.Resource_ctor2 s data

/-- The lock and unlock of the GDI resource that `Device::destroyResource`
performs when `resource == *g_gdiResource`. -/
def destroyResource_syncGdi (env : Env W) (s : State W) (resource : HANDLE) : State W :=
  match s.g_gdiResource with
  | some g =>
    if resource = g.handle then
      let lock : D3DDDIARG_LOCK :=
        { hResource := g.handle, SubResourceIndex := 0, pSurfData := 0, Flags := 0 }
      let l := env.Resource_lock s.world g lock
      let s := s.call (.Resource_lock g lock) l.2.2
      let unlock : D3DDDIARG_UNLOCK := { hResource := g.handle, SubResourceIndex := 0 }
      let u := env.Resource_unlock s.world g unlock
      s.call (.Resource_unlock g unlock) u.2
    else s
  | none => s

/-- The bookkeeping of `Device::destroyResource` inside `if (SUCCEEDED(result))`. -/
def destroyResource_cleanup (s : State W) (resource : HANDLE) : State W :=
  let s := s.setDev { s.dev with m_resources := s.dev.m_resources.erase resource }
  let s :=
    if resource = s.dev.m_sharedPrimary then s.setDev { s.dev with m_sharedPrimary := nullptr }
    else s
  let s :=
    if resource = s.g_gdiResourceHandle then
      { s with g_gdiResourceHandle := nullptr, g_gdiResource := none }
    else s
  s.setDev { s.dev with
    m_drawPrimitive := s.dev.m_drawPrimitive.removeSysMemVertexBuffer resource }

/-- The state in which `Device::destroyResource` calls the original
`pfnDestroyResource`: after the flush, the GDI synchronisation and the release
of the display-source ownership. -/
def destroyResource_pre (env : Env W) (s : State W) (resource : HANDLE) : State W :=
  let s := flushPrimitives env s
  let s := destroyResource_syncGdi env s resource
  if resource = s.dev.m_sharedPrimary then
    s.call .D3DKMTReleaseProcessVidPnSourceOwners
      (env.D3DKMTReleaseProcessVidPnSourceOwners s.world)
  else s

/-- The member `Device::destroyResource`. -/
def destroyResource (env : Env W) (s : State W) (resource : HANDLE) : HRESULT × State W :=
  let s := destroyResource_pre env s resource
  let c := env.pfnDestroyResource s.world s.dev.m_device resource
  let s := s.call (.pfnDestroyResource resource) c.2
  if SUCCEEDED c.1 then (c.1, destroyResource_cleanup s resource) else (c.1, s)

/-- The member `Device::drawIndexedPrimitive2`; the batcher accumulates the
submission. -/
def drawIndexedPrimitive2 (env : Env W) (s : State W)
    (data : D3DDDIARG_DRAWINDEXEDPRIMITIVE2) (indexBuffer : List Nat)
    (flagBuffer : List Nat) : HRESULT × State W :=
  let s := prepareForRendering0 env s
  (S_OK, s.setDev { s.dev with
    m_drawPrimitive := s.dev.m_drawPrimitive.draw (.drawIndexed data indexBuffer flagBuffer) })

/-- The member `Device::drawPrimitive`; the batcher accumulates the submission. -/
def drawPrimitive (env : Env W) (s : State W) (data : D3DDDIARG_DRAWPRIMITIVE)
    (flagBuffer : List Nat) : HRESULT × State W :=
  let s := prepareForRendering0 env s
  (S_OK, s.setDev { s.dev with
    m_drawPrimitive := s.dev.m_drawPrimitive.draw (.draw data flagBuffer) })

/-- The member `Device::flush`. -/
def flush (env : Env W) (s : State W) : HRESULT × State W :=
  if !s.s_isFlushEnabled then (S_OK, s)
  else
    let s := flushPrimitives env s
    let c := env.pfnFlush s.world s.dev.m_device
    (c.1, s.call .pfnFlush c.2)

/-- The member `Device::flush1`. -/
def flush1 (env : Env W) (s : State W) (FlushFlags : UINT) : HRESULT × State W :=
  if !s.s_isFlushEnabled && 0 == FlushFlags then (S_OK, s)
  else
    let s := flushPrimitives env s
    let c := env.pfnFlush1 s.world s.dev.m_device FlushFlags
    (c.1, s.call (.pfnFlush1 FlushFlags) c.2)

/-- The member `Device::lock`. -/
def lock (env : Env W) (s : State W) (data : D3DDDIARG_LOCK) :
    HRESULT × D3DDDIARG_LOCK × State W :=
  let s := flushPrimitives env s
  match s.dev.m_resources.find data.hResource with
  | some r =>
    let c := env.Resource_lock s.world r data
    (c.1, c.2.1, s.call (.Resource_lock r data) c.2.2)
  | none =>
    let c := env.pfnLock s.world s.dev.m_device data
    (c.1, c.2.1, s.call (.pfnLock data) c.2.2)

/-- The member `Device::openResource`. -/
def openResource (env : Env W) (s : State W) (data : D3DDDIARG_OPENRESOURCE) :
    HRESULT × D3DDDIARG_OPENRESOURCE × State W :=
  let c := env.pfnOpenResource s.world s.dev.m_device data
  let s := s.call (.pfnOpenResource data) c.2.2
  let data := c.2.1
  if SUCCEEDED c.1 && data.Flags_Fullscreen then
    (c.1, data, s.setDev { s.dev with m_sharedPrimary := data.hResource })
  else (c.1, data, s)

/-- The member `Device::present`. -/
def present (env : Env W) (s : State W) (data : D3DDDIARG_PRESENT) : HRESULT × State W :=
  let s := flushPrimitives env s
  let s := prepareForRendering env s data.hSrcResource data.SrcSubResourceIndex true
  let c := env.pfnPresent s.world s.dev.m_device data
  (c.1, s.call (.pfnPresent data) c.2)

/-- The loop of `Device::present1` over `phSrcResources[0 .. SrcResources)`. -/
def present1_prepare (env : Env W) (s : State W) :
    List D3DDDIARG_PRESENTSURFACE → State W
  | [] => s
  | src :: rest =>
    present1_prepare env (prepareForRendering env s src.hResource src.SubResourceIndex true) rest

/-- The member `Device::present1`. -/
def present1 (env : Env W) (s : State W) (data : D3DDDIARG_PRESENT1) : HRESULT × State W :=
  let s := flushPrimitives env s
  let s := present1_prepare env s data.phSrcResources
  let c := env.pfnPresent1 s.world s.dev.m_device data
  (c.1, s.call (.pfnPresent1 data) c.2)

/-- The member `Device::setRenderTarget`. -/
def setRenderTarget (env : Env W) (s : State W) (data : D3DDDIARG_SETRENDERTARGET) :
    HRESULT × State W :=
  let s := flushPrimitives env s
  let c := env.pfnSetRenderTarget s.world s.dev.m_device data
  let s := s.call (.pfnSetRenderTarget data) c.2
  if SUCCEEDED c.1 && 0 == data.RenderTargetIndex then
    (c.1, s.setDev { s.dev with
      m_renderTarget := getResource s data.hRenderTarget
      m_renderTargetSubResourceIndex := data.SubResourceIndex })
  else (c.1, s)

/-- The member `Device::setStreamSource`; the batcher keeps the stream state. -/
def setStreamSource (s : State W) (data : D3DDDIARG_SETSTREAMSOURCE) : HRESULT × State W :=
  (S_OK, s.setDev { s.dev with
    m_drawPrimitive := { s.dev.m_drawPrimitive with m_streamSource := some data } })

/-- The member `Device::setStreamSourceUm`; the batcher keeps the stream state. -/
def setStreamSourceUm (s : State W) (data : D3DDDIARG_SETSTREAMSOURCEUM) (umBuffer : Nat) :
    HRESULT × State W :=
  (S_OK, s.setDev { s.dev with
    m_drawPrimitive := { s.dev.m_drawPrimitive with m_streamSourceUm := some (data, umBuffer) } })

/-- The member `Device::unlock`. -/
def unlock (env : Env W) (s : State W) (data : D3DDDIARG_UNLOCK) : HRESULT × State W :=
  let s := flushPrimitives env s
  match s.dev.m_resources.find data.hResource with
  | some r =>
    let c := env.Resource_unlock s.world r data
    (c.1, s.call (.Resource_unlock r data) c.2)
  | none =>
    let c := env.pfnUnlock s.world s.dev.m_device data
    (c.1, s.call (.pfnUnlock data) c.2)

/-- Modelled from the spec: the setter of the "global flush-enable flag"
`s_isFlushEnabled`, declared in `D3dDdi/Device.h`, which is not among the
sources. -/
def enableFlush (s : State W) (enable : Bool) : State W :=
  { s with s_isFlushEnabled := enable }

/-- The static member `Device::getGdiResource`. -/
def getGdiResource (s : State W) : Option Resource := s.g_gdiResource

/-- The static member `Device::setReadOnlyGdiLock`. -/
def setReadOnlyGdiLock (s : State W) (enable : Bool) : State W :=
  { s with g_isReadOnlyGdiLockEnabled := enable }

end Device

/-! ## The source colour key probe -/

/-- The text that `logSrcColorKeySupportFailure` builds in its `ostringstream`. -/
def srcColorKeySupportFailureMessage (hex : Nat → String) (reason : String)
    (resultCode : Nat) : String :=
  "Checking source color key support: failed (" ++ reason ++
    (if resultCode ≠ 0 then ": " ++ hex resultCode else "") ++ ")"

/-- The function `logSrcColorKeySupportFailure`: the text goes to the log sink
through `LOG_ONCE`. -/
def logSrcColorKeySupportFailure {W : Type} (env : Env W) (s : State W) (reason : String)
    (resultCode : Nat) : State W :=
  s.call (.LOG_ONCE (srcColorKeySupportFailureMessage env.hex reason resultCode)) s.world

namespace Device

variable {W : Type}

/-- The lambda `resourceDeleter` as run by the destructor of a
`std::unique_ptr<void, ...>`: nothing is called for a null handle. -/
def resourceDeleter (env : Env W) (s : State W) (resource : HANDLE) : State W :=
  if resource = nullptr then s
  else
    s.call (.pfnDestroyResource resource)
      (env.pfnDestroyResource s.world s.dev.m_device resource).2

/-- The scope exit of `checkSrcColorKeySupport` once both resources exist:
`dstRes` is destroyed before `srcRes`. -/
def releaseProbeResources (env : Env W) (s : State W) (srcRes dstRes : HANDLE) : State W :=
  resourceDeleter env (resourceDeleter env s dstRes) srcRes

/-- The `D3DDDIARG_CREATERESOURCE2` that the probe fills in for its source. -/
def probeCreateData : D3DDDIARG_CREATERESOURCE2 :=
  { Format := D3DDDIFMT_R5G6B5, Pool := D3DDDIPOOL_VIDEOMEMORY, Fvf := 0,
    pSurfList := [{ Width := 2, Height := 1, pSysMem := 0 }], SurfCount := 1,
    hResource := nullptr, Flags_RenderTarget := false, Flags_VertexBuffer := false,
    Rotation := D3DDDI_ROTATION_IDENTITY }

/-- The `D3DDDIARG_LOCK` of the probe: zeroed, then `hResource` is set. -/
def probeLock (resource : HANDLE) : D3DDDIARG_LOCK :=
  { hResource := resource, SubResourceIndex := 0, pSurfData := 0, Flags := 0 }

/-- The `D3DDDIARG_UNLOCK` of the probe. -/
def probeUnlock (resource : HANDLE) : D3DDDIARG_UNLOCK :=
  { hResource := resource, SubResourceIndex := 0 }

/-- The constant `colorKey` of the probe. -/
def probeColorKey : Nat := 0xFA9F

/-- The `D3DDDIARG_BLT` of the probe. -/
def probeBlt (srcRes dstRes : HANDLE) : D3DDDIARG_BLT :=
  { hSrcResource := srcRes, SrcSubResourceIndex := 0,
    SrcRect := { left := 0, top := 0, right := 2, bottom := 1 },
    hDstResource := dstRes, DstSubResourceIndex := 0,
    DstRect := { left := 0, top := 0, right := 2, bottom := 1 },
    ColorKey := probeColorKey, Flags_SrcColorKey := true }

/-- The direct call `m_origVtable.pfnLock(m_device, &lock)`. -/
def origLock (env : Env W) (s : State W) (data : D3DDDIARG_LOCK) :
    HRESULT × D3DDDIARG_LOCK × State W :=
  let c := env.pfnLock s.world s.dev.m_device data
  (c.1, c.2.1, s.call (.pfnLock data) c.2.2)

/-- The direct call `m_origVtable.pfnUnlock(m_device, &unlock)`, result dropped. -/
def origUnlock (env : Env W) (s : State W) (data : D3DDDIARG_UNLOCK) : State W :=
  s.call (.pfnUnlock data) (env.pfnUnlock s.world s.dev.m_device data).2

/-- The direct call `m_origVtable.pfnBlt(m_device, &blt)`. -/
def origBlt (env : Env W) (s : State W) (data : D3DDDIARG_BLT) : HRESULT × State W :=
  let c := env.pfnBlt s.world s.dev.m_device data
  (c.1, s.call (.pfnBlt data) c.2)

/-- The store `*static_cast<UINT32*>(p) = v`. -/
def store32 (env : Env W) (s : State W) (p : Nat) (v : Nat) : State W :=
  { s with world := env.write32 s.world p v }

/-- The part of `checkSrcColorKeySupport` after both resources were created. -/
def checkSrcColorKeySupport_test (env : Env W) (s : State W) (srcRes dstRes : HANDLE) :
    Bool × State W :=
  let l1 := origLock env s (probeLock srcRes)
  if FAILED l1.1 then
    (false, logSrcColorKeySupportFailure env l1.2.2 "error locking source resource"
      (toUINT32 l1.1))
  else
    let s := store32 env l1.2.2 l1.2.1.pSurfData probeColorKey
    let s := origUnlock env s (probeUnlock srcRes)
    let l2 := origLock env s (probeLock dstRes)
    if FAILED l2.1 then
      (false, logSrcColorKeySupportFailure env l2.2.2 "error locking destination resource"
        (toUINT32 l2.1))
    else
      let s := store32 env l2.2.2 l2.2.1.pSurfData 0xFFFFFFFF
      let s := origUnlock env s (probeUnlock dstRes)
      let b := origBlt env s (probeBlt srcRes dstRes)
      if FAILED b.1 then
        (false, logSrcColorKeySupportFailure env b.2 "blt error" (toUINT32 b.1))
      else
        let l3 := origLock env b.2 (probeLock dstRes)
        if FAILED l3.1 then
          (false, logSrcColorKeySupportFailure env l3.2.2
            "error locking destination resource after blt" (toUINT32 l3.1))
        else
          let dstPixels := env.read32 l3.2.2.world l3.2.1.pSurfData
          let s := origUnlock env l3.2.2 (probeUnlock dstRes)
          if dstPixels ≠ 0xFFFF then
            (false, logSrcColorKeySupportFailure env s "test result pattern is incorrect"
              dstPixels)
          else
            (true, s.call (.LOG_ONCE "Checking source color key support: passed") s.world)

/-- The member `Device::checkSrcColorKeySupport`. -/
def checkSrcColorKeySupport (env : Env W) (s : State W) : Bool × State W :=
  if s.dev.m_adapterCKeyCaps &&& DDRAW_CKEYCAPS_SRCBLT = 0 then
    (false, logSrcColorKeySupportFailure env s "driver indicates no support" 0)
  else
    let c1 := createPrivateResource env s probeCreateData
    if FAILED c1.1 then
      (false, logSrcColorKeySupportFailure env c1.2.2 "error creating source resource"
        (toUINT32 c1.1))
    else
      let srcRes := c1.2.1.hResource
      let c2 := createPrivateResource env c1.2.2
        { c1.2.1 with hResource := nullptr, Flags_RenderTarget := true }
      if FAILED c2.1 then
        (false, resourceDeleter env
          (logSrcColorKeySupportFailure env c2.2.2 "error creating destination resource"
            (toUINT32 c2.1)) srcRes)
      else
        let dstRes := c2.2.1.hResource
        let t := checkSrcColorKeySupport_test env c2.2.2 srcRes dstRes
        (t.1, releaseProbeResources env t.2 srcRes dstRes)

end Device

/-- The stages of `checkSrcColorKeySupport` that can fail, in program order. -/
inductive ProbeStage where
  | driverCaps
  | createSource
  | createDestination
  | lockSource
  | lockDestination
  | blt
  | lockDestinationAfterBlt
  | resultPattern
deriving DecidableEq, Repr

/-- The reason text that the source passes to `logSrcColorKeySupportFailure`
at each stage. -/
def ProbeStage.reason : ProbeStage → String
  | .driverCaps => "driver indicates no support"
  | .createSource => "error creating source resource"
  | .createDestination => "error creating destination resource"
  | .lockSource => "error locking source resource"
  | .lockDestination => "error locking destination resource"
  | .blt => "blt error"
  | .lockDestinationAfterBlt => "error locking destination resource after blt"
  | .resultPattern => "test result pattern is incorrect"

/-- All stages, in program order. -/
def ProbeStage.all : List ProbeStage :=
  [.driverCaps, .createSource, .createDestination, .lockSource, .lockDestination, .blt,
    .lockDestinationAfterBlt, .resultPattern]

namespace Device

variable {W : Type}

/-- The first failure among the stages that follow the creation of both
resources, with the code that is logged for it: the steps of the probe are run
one after the other from `s` (lock, store, unlock, lock, store, unlock, blt,
lock, load) and the first failing result is reported. -/
def probeFailure_test (env : Env W) (s : State W) (srcRes dstRes : HANDLE) :
    Option (ProbeStage × Nat) :=
  let l1 := origLock env s (probeLock srcRes)
  let s1 := origUnlock env (store32 env l1.2.2 l1.2.1.pSurfData probeColorKey)
    (probeUnlock srcRes)
  let l2 := origLock env s1 (probeLock dstRes)
  let s2 := origUnlock env (store32 env l2.2.2 l2.2.1.pSurfData 0xFFFFFFFF)
    (probeUnlock dstRes)
  let b := origBlt env s2 (probeBlt srcRes dstRes)
  let l3 := origLock env b.2 (probeLock dstRes)
  let dstPixels := env.read32 l3.2.2.world l3.2.1.pSurfData
  if FAILED l1.1 then some (.lockSource, toUINT32 l1.1)
  else if FAILED l2.1 then some (.lockDestination, toUINT32 l2.1)
  else if FAILED b.1 then some (.blt, toUINT32 b.1)
  else if FAILED l3.1 then some (.lockDestinationAfterBlt, toUINT32 l3.1)
  else if dstPixels ≠ 0xFFFF then some (.resultPattern, dstPixels)
  else none

/-- The first stage of the probe that fails when the probe is run from `s`,
with the code that is logged for it; `none` when no stage fails. -/
def probeFailure (env : Env W) (s : State W) : Option (ProbeStage × Nat) :=
  let c1 := createPrivateResource env s probeCreateData
  let c2 := createPrivateResource env c1.2.2
    { c1.2.1 with hResource := nullptr, Flags_RenderTarget := true }
  if s.dev.m_adapterCKeyCaps &&& DDRAW_CKEYCAPS_SRCBLT = 0 then some (.driverCaps, 0)
  else if FAILED c1.1 then some (.createSource, toUINT32 c1.1)
  else if FAILED c2.1 then some (.createDestination, toUINT32 c2.1)
  else probeFailure_test env c2.2.2 c1.2.1.hResource c2.2.1.hResource

end Device

/-- The texts submitted to the log sink, in order. -/
def logMessages : List Event → List String
  | [] => []
  | .LOG_ONCE msg :: rest => msg :: logMessages rest
  | _ :: rest => logMessages rest

/-- The text the probe submits to the log sink, given its first failure. -/
def probeMessage (hex : Nat → String) : Option (ProbeStage × Nat) → String
  | some (stage, code) => srcColorKeySupportFailureMessage hex stage.reason code
  | none => "Checking source color key support: passed"

/-! ## A simulated driver -/

/-- The world of the simulated driver: every resource is a 2x1 R5G6B5 surface
kept as one little-endian 32-bit word (pixel 0 in the low half), a locked
surface is addressed by its handle, and `calls` counts the create, lock, blt
and destroy calls made so far. -/
structure SimDriver where
  surfaces : Map Nat
  nextHandle : HANDLE
  calls : Nat
deriving DecidableEq, Repr

/-- How the simulated driver behaves: whether its blt honours the source
colour key, and which create, lock, blt or destroy call (counted from 0), if
any, fails. -/
structure SimConfig where
  honoursSrcColorKey : Bool
  failingCall : Option Nat
deriving DecidableEq, Repr

/-- The result code `E_FAIL`. -/
def E_FAIL : HRESULT := -2147467259

namespace SimDriver

/-- The store `surfaces[h] = v`. -/
def setSurface (w : SimDriver) (h : HANDLE) (v : Nat) : SimDriver :=
  { w with surfaces := (w.surfaces.erase h).insertSorted h v }

/-- The 32-bit word of surface `h`. -/
def surface (w : SimDriver) (h : HANDLE) : Nat := (w.surfaces.find h).getD 0

/-- One pixel of a source colour keyed blt: a source pixel equal to the key
leaves the destination pixel untouched, any other is copied. -/
def keyedPixel (key src dst : Nat) : Nat := if src = key then dst else src

/-- A source colour keyed blt of a whole 2x1 surface. -/
def keyedBlt (key src dst : Nat) : Nat :=
  keyedPixel key (src % 65536) (dst % 65536) +
    65536 * keyedPixel key (src / 65536) (dst / 65536)

/-- Counts a call and tells whether it is the failing one. -/
def tick (cfg : SimConfig) (w : SimDriver) : Bool × SimDriver :=
  (decide (cfg.failingCall = some w.calls), { w with calls := w.calls + 1 })

def create (cfg : SimConfig) (w : SimDriver) (data : D3DDDIARG_CREATERESOURCE2) :
    HRESULT × D3DDDIARG_CREATERESOURCE2 × SimDriver :=
  let t := tick cfg w
  if t.1 then (E_FAIL, data, t.2)
  else
    (S_OK, { data with hResource := t.2.nextHandle },
      { (t.2.setSurface t.2.nextHandle 0) with nextHandle := t.2.nextHandle + 1 })

def lock (cfg : SimConfig) (w : SimDriver) (data : D3DDDIARG_LOCK) :
    HRESULT × D3DDDIARG_LOCK × SimDriver :=
  let t := tick cfg w
  if t.1 then (E_FAIL, data, t.2) else (S_OK, { data with pSurfData := data.hResource }, t.2)

def blt (cfg : SimConfig) (w : SimDriver) (data : D3DDDIARG_BLT) : HRESULT × SimDriver :=
  let t := tick cfg w
  if t.1 then (E_FAIL, t.2)
  else
    (S_OK, t.2.setSurface data.hDstResource
      (if data.Flags_SrcColorKey && cfg.honoursSrcColorKey then
        keyedBlt data.ColorKey (t.2.surface data.hSrcResource) (t.2.surface data.hDstResource)
      else t.2.surface data.hSrcResource))

def destroy (cfg : SimConfig) (w : SimDriver) (resource : HANDLE) : HRESULT × SimDriver :=
  let t := tick cfg w
  if t.1 then (E_FAIL, t.2) else (S_OK, { t.2 with surfaces := t.2.surfaces.erase resource })

def construct (cfg : SimConfig) (w : SimDriver) (data : D3DDDIARG_CREATERESOURCE2) :
    (HRESULT ⊕ HANDLE) × D3DDDIARG_CREATERESOURCE2 × SimDriver :=
  let c := create cfg w data
  (if FAILED c.1 then .inl c.1 else .inr c.2.1.hResource, c.2.1, c.2.2)

/-- Hexadecimal text of a number, as `Compat::hex` prints it. -/
def hex (n : Nat) : String := "0x" ++ String.mk (Nat.toDigits 16 n)

end SimDriver

/-- The simulated driver as the environment of a device. -/
def simEnv (cfg : SimConfig) : Env SimDriver where
  pfnBlt := fun w _ data => SimDriver.blt cfg w data
  pfnClear := fun w _ _ _ _ => (S_OK, w)
  pfnColorFill := fun w _ data => (S_OK, w.setSurface data.hResource data.Color)
  pfnCreateResource := fun w _ data => SimDriver.create cfg w data
  pfnCreateResource2 := some (fun w _ data => SimDriver.create cfg w data)
  pfnDestroyResource := fun w _ resource => SimDriver.destroy cfg w resource
  pfnFlush := fun w _ => (S_OK, w)
  pfnFlush1 := fun w _ _ => (S_OK, w)
  pfnLock := fun w _ data => SimDriver.lock cfg w data
  pfnOpenResource := fun w _ data => (S_OK, data, w)
  pfnPresent := fun w _ _ => (S_OK, w)
  pfnPresent1 := fun w _ _ => (S_OK, w)
  pfnSetRenderTarget := fun w _ data => (if data.hRenderTarget = 999 then E_FAIL else S_OK, w)
  pfnUnlock := fun w _ _ => (S_OK, w)
  Resource_ctor := fun w _ data => SimDriver.construct cfg w data
  Resource_ctor2 := fun w _ data => SimDriver.construct cfg w data
  Resource_blt := fun w _ data => SimDriver.blt cfg w data
  Resource_colorFill := fun w _ data => (S_OK, w.setSurface data.hResource data.Color)
  Resource_lock := fun w _ data => SimDriver.lock cfg w data
  Resource_unlock := fun w _ _ => (S_OK, w)
  Resource_prepareForRendering := fun w _ _ _ => w
  Resource_setAsGdiResource := fun w _ _ => w
  D3DKMTReleaseProcessVidPnSourceOwners := fun w => w
  commitBatch := fun w _ _ => w
  write32 := fun w p v => w.setSurface p (v % 2 ^ 32)
  read32 := fun w p => w.surface p
  hex := SimDriver.hex

/-- A simulated driver whose blt drops the source pixels equal to the key. -/
def goodDriver : SimConfig := { honoursSrcColorKey := true, failingCall := none }

/-- A simulated driver whose blt ignores the key and copies every pixel. -/
def keyIgnoringDriver : SimConfig := { honoursSrcColorKey := false, failingCall := none }

/-- A simulated driver that fails its `n`-th create, lock, blt or destroy call. -/
def failingDriver (n : Nat) : SimConfig := { honoursSrcColorKey := true, failingCall := some n }

/-- A device that was just constructed on an adapter with colour key caps
`ckeyCaps`, before any call reached it. -/
def initialState (ckeyCaps : Nat) : State SimDriver where
  dev :=
    { m_adapterCKeyCaps := ckeyCaps, m_device := 1, m_isSrcColorKeySupported := false,
      m_resources := [], m_renderTarget := none, m_renderTargetSubResourceIndex := 0,
      m_sharedPrimary := nullptr,
      m_drawPrimitive :=
        { m_sysMemVertexBuffers := [], m_streamSource := none, m_streamSourceUm := none,
          m_batched := [] } }
  g_gdiResourceHandle := nullptr
  g_gdiResource := none
  g_isReadOnlyGdiLockEnabled := false
  s_isFlushEnabled := true
  nextResourceId := 0
  trace := []
  world := { surfaces := [], nextHandle := 100, calls := 0 }

/-! ## Sequences of calls on a device -/

/-- A call of a member function of `Device` by the runtime, with its arguments. -/
inductive Op where
  | blt (data : D3DDDIARG_BLT)
  | clear (data : D3DDDIARG_CLEAR) (numRect : UINT) (rect : List RECT)
  | colorFill (data : D3DDDIARG_COLORFILL)
  | createResource (data : D3DDDIARG_CREATERESOURCE2)
  | createResource2 (data : D3DDDIARG_CREATERESOURCE2)
  | destroyResource (resource : HANDLE)
  | drawIndexedPrimitive2 (data : D3DDDIARG_DRAWINDEXEDPRIMITIVE2) (indexBuffer : List Nat)
      (flagBuffer : List Nat)
  | drawPrimitive (data : D3DDDIARG_DRAWPRIMITIVE) (flagBuffer : List Nat)
  | flush
  | flush1 (FlushFlags : UINT)
  | lock (data : D3DDDIARG_LOCK)
  | openResource (data : D3DDDIARG_OPENRESOURCE)
  | present (data : D3DDDIARG_PRESENT)
  | present1 (data : D3DDDIARG_PRESENT1)
  | setRenderTarget (data : D3DDDIARG_SETRENDERTARGET)
  | setStreamSource (data : D3DDDIARG_SETSTREAMSOURCE)
  | setStreamSourceUm (data : D3DDDIARG_SETSTREAMSOURCEUM) (umBuffer : Nat)
  | unlock (data : D3DDDIARG_UNLOCK)
  | setReadOnlyGdiLock (enable : Bool)
  | enableFlush (enable : Bool)
deriving DecidableEq, Repr

/-- Runs one call: the result code it returns (`S_OK` for a `void` member)
and the state it leaves. -/
def Op.exec {W : Type} (env : Env W) (s : State W) : Op → HRESULT × State W
  | .blt data => Device.blt env s data
  | .clear data numRect rect => Device.clear env s data numRect rect
  | .colorFill data => Device.colorFill env s data
  | .createResource data =>
    ((Device.createResource env s data).1, (Device.createResource env s data).2.2)
  | .createResource2 data =>
    ((Device.createResource2 env s data).1, (Device.createResource2 env s data).2.2)
  | .destroyResource resource => Device.destroyResource env s resource
  | .drawIndexedPrimitive2 data indexBuffer flagBuffer =>
    Device.drawIndexedPrimitive2 env s data indexBuffer flagBuffer
  | .drawPrimitive data flagBuffer => Device.drawPrimitive env s data flagBuffer
  | .flush => Device.flush env s
  | .flush1 FlushFlags => Device.flush1 env s FlushFlags
  | .lock data => ((Device.lock env s data).1, (Device.lock env s data).2.2)
  | .openResource data =>
    ((Device.openResource env s data).1, (Device.openResource env s data).2.2)
  | .present data => Device.present env s data
  | .present1 data => Device.present1 env s data
  | .setRenderTarget data => Device.setRenderTarget env s data
  | .setStreamSource data => Device.setStreamSource s data
  | .setStreamSourceUm data umBuffer => Device.setStreamSourceUm s data umBuffer
  | .unlock data => Device.unlock env s data
  | .setReadOnlyGdiLock enable => (S_OK, Device.setReadOnlyGdiLock s enable)
  | .enableFlush enable => (S_OK, Device.enableFlush s enable)

/-- Runs a sequence of calls, first to last. -/
def runOps {W : Type} (env : Env W) (s : State W) : List Op → State W
  | [] => s
  | op :: rest => runOps env (op.exec env s).2 rest

/-- Whether the call is `destroyResource(h)` and succeeds in state `s`
(it returns the result of the driver's `pfnDestroyResource`). -/
def Op.destroys {W : Type} (env : Env W) (s : State W) (h : HANDLE) (op : Op) : Bool :=
  match op with
  | .destroyResource resource => decide (resource = h) && SUCCEEDED (op.exec env s).1
  | _ => false

/-- The handle of the `Resource` object that a `createResource` or
`createResource2` call constructs in state `s`; `none` when the constructor
throws, and for every other call. -/
def Op.createdHandle {W : Type} (env : Env W) (s : State W) : Op → Option HANDLE
  | .createResource data =>
    match (env.Resource_ctor s.world s.dev.m_device data).1 with
    | .inr h => some h
    | .inl _ => none
  | .createResource2 data =>
    match (env.Resource_ctor2 s.world s.dev.m_device data).1 with
    | .inr h => some h
    | .inl _ => none
  | _ => none

/-- The result code of the `HResultException` that the constructor of
`Resource` throws when a `createResource` or `createResource2` call is made in
state `s`; `none` when it does not throw, and for every other call. -/
def Op.constructionError {W : Type} (env : Env W) (s : State W) : Op → Option HRESULT
  | .createResource data =>
    match (env.Resource_ctor s.world s.dev.m_device data).1 with
    | .inl e => some e
    | .inr _ => none
  | .createResource2 data =>
    match (env.Resource_ctor2 s.world s.dev.m_device data).1 with
    | .inl e => some e
    | .inr _ => none
  | _ => none

/-- No call of the sequence, run from `s`, is a successful `destroyResource(h)`. -/
def noDestroyOf {W : Type} (env : Env W) (s : State W) (h : HANDLE) : List Op → Prop
  | [] => True
  | op :: rest => op.destroys env s h = false ∧ noDestroyOf env (op.exec env s).2 h rest


/-! ## Observations on the trace -/

/-- The call that led from `s` to `s'` made `flushPrimitives` its first action:
the first event it added to the trace is the commit of the batch pending in `s`. -/
def startsWithFlush {W : Type} (s s' : State W) : Prop :=
  ∃ rest : List Event,
    s'.trace = s.trace ++ Event.flushPrimitives s.dev.m_drawPrimitive.m_batched :: rest

/-- The events of `Device::prepareForRendering(resource, subResourceIndex, isReadOnly)`
in state `s`: the Resource is prepared when the handle is registered. -/
def prepareEvents {W : Type} (s : State W) (resource : HANDLE) (subResourceIndex : UINT)
    (isReadOnly : Bool) : List Event :=
  match Device.getResource s resource with
  | some r => [.Resource_prepareForRendering r subResourceIndex isReadOnly]
  | none => []

/-- The events of the synchronous lock and unlock that `Device::destroyResource`
makes for `resource` in state `s`: both are made on the designated GDI resource
when `g_gdiResource` is set and `resource == *g_gdiResource`, none otherwise. -/
def destroySyncEvents {W : Type} (s : State W) (resource : HANDLE) : List Event :=
  match s.g_gdiResource with
  | some g =>
    if resource = g.handle then
      [.Resource_lock g { hResource := g.handle, SubResourceIndex := 0, pSurfData := 0, Flags := 0 },
        .Resource_unlock g { hResource := g.handle, SubResourceIndex := 0 }]
    else []
  | none => []

/-- The event of the release of the display-source ownership that
`Device::destroyResource` makes for `resource` in state `s`: it is made when
`resource == m_sharedPrimary`. -/
def destroyReleaseEvents {W : Type} (s : State W) (resource : HANDLE) : List Event :=
  if resource = s.dev.m_sharedPrimary then [.D3DKMTReleaseProcessVidPnSourceOwners] else []

/-- The events of the loop of `Device::present1` over the sources, in state `s`. -/
def present1Events {W : Type} (s : State W) : List D3DDDIARG_PRESENTSURFACE → List Event
  | [] => []
  | src :: rest =>
    prepareEvents s src.hResource src.SubResourceIndex true ++ present1Events s rest

/-! ## Observations on the world -/

/-- The world that `Device::flushPrimitives` leaves when it is called in `s`:
the batch pending in `s` has been handed to the driver of `m_device`. -/
def committedWorld {W : Type} (env : Env W) (s : State W) : W :=
  env.commitBatch s.world s.dev.m_device s.dev.m_drawPrimitive.m_batched

/-- The state of a call that started in `s`, committed the pending batch as its
first action, then made the outward calls `events` and brought the world to
`w`: the batcher holds nothing, the trace of `s` is followed by the commit and
by `events`, the world is `w`, and every other field is as in `s`. -/
def State.flushedThen {W : Type} (s : State W) (events : List Event) (w : W) : State W :=
  { s with
    dev := { s.dev with m_drawPrimitive := { s.dev.m_drawPrimitive with m_batched := [] } }
    trace := s.trace ++ Event.flushPrimitives s.dev.m_drawPrimitive.m_batched :: events
    world := w }

/-- The world after `Device::prepareForRendering(resource, subResourceIndex, isReadOnly)`
was called in world `w` with the registry of `s`: the Resource of a registered
handle has acted on the world, an unregistered handle leaves it as it is. -/
def preparedWorld {W : Type} (env : Env W) (s : State W) (w : W) (resource : HANDLE)
    (subResourceIndex : UINT) (isReadOnly : Bool) : W :=
  match Device.getResource s resource with
  | some r => env.Resource_prepareForRendering w r subResourceIndex isReadOnly
  | none => w

/-- The world after the loop of `Device::present1` over the sources, started in
world `w` with the registry of `s`: the sources were prepared one after the
other, first to last. -/
def present1World {W : Type} (env : Env W) (s : State W) : W → List D3DDDIARG_PRESENTSURFACE → W
  | w, [] => w
  | w, src :: rest =>
    present1World env s (preparedWorld env s w src.hResource src.SubResourceIndex true) rest

/-- The world after the synchronous lock and unlock that `Device::destroyResource`
makes for `resource`, started in world `w` with the globals of `s`: when
`resource` is the designated GDI resource it was locked, and then unlocked in
the world the lock left. -/
def destroySyncWorld {W : Type} (env : Env W) (s : State W) (w : W) (resource : HANDLE) : W :=
  match s.g_gdiResource with
  | some g =>
    if resource = g.handle then
      (env.Resource_unlock
        (env.Resource_lock w g
          { hResource := g.handle, SubResourceIndex := 0, pSurfData := 0, Flags := 0 }).2.2
        g { hResource := g.handle, SubResourceIndex := 0 }).2
    else w
  | none => w

/-- The world after the release of the display-source ownership that
`Device::destroyResource` makes for `resource`, started in world `w`: the
kernel thunk has acted when `resource == m_sharedPrimary`. -/
def destroyReleaseWorld {W : Type} (env : Env W) (s : State W) (w : W) (resource : HANDLE) : W :=
  if resource = s.dev.m_sharedPrimary then env.D3DKMTReleaseProcessVidPnSourceOwners w else w

/-- The world in which `Device::destroyResource(resource)`, called in `s`,
reaches the original `pfnDestroyResource`: the pending batch was committed,
then the GDI resource synchronised, then the display source released. -/
def destroyPreWorld {W : Type} (env : Env W) (s : State W) (resource : HANDLE) : W :=
  destroyReleaseWorld env s (destroySyncWorld env s (committedWorld env s) resource) resource

/-- A driver that only keeps a record: its world is the list of the calls that
reached it, in the order they arrived, and every call succeeds. -/
def recordingEnv : Env (List Event) where
  pfnBlt := fun w _ data => (S_OK, w ++ [.pfnBlt data])
  pfnClear := fun w _ data numRect rect => (S_OK, w ++ [.pfnClear data numRect rect])
  pfnColorFill := fun w _ data => (S_OK, w ++ [.pfnColorFill data])
  pfnCreateResource := fun w _ data => (S_OK, data, w ++ [.pfnCreateResource data])
  pfnCreateResource2 := some (fun w _ data => (S_OK, data, w ++ [.pfnCreateResource2 data]))
  pfnDestroyResource := fun w _ resource => (S_OK, w ++ [.pfnDestroyResource resource])
  pfnFlush := fun w _ => (S_OK, w ++ [.pfnFlush])
  pfnFlush1 := fun w _ FlushFlags => (S_OK, w ++ [.pfnFlush1 FlushFlags])
  pfnLock := fun w _ data => (S_OK, data, w ++ [.pfnLock data])
  pfnOpenResource := fun w _ data => (S_OK, data, w ++ [.pfnOpenResource data])
  pfnPresent := fun w _ data => (S_OK, w ++ [.pfnPresent data])
  pfnPresent1 := fun w _ data => (S_OK, w ++ [.pfnPresent1 data])
  pfnSetRenderTarget := fun w _ data => (S_OK, w ++ [.pfnSetRenderTarget data])
  pfnUnlock := fun w _ data => (S_OK, w ++ [.pfnUnlock data])
  Resource_ctor := fun w _ data => (.inr data.hResource, data, w ++ [.Resource_ctor data])
  Resource_ctor2 := fun w _ data => (.inr data.hResource, data, w ++ [.Resource_ctor data])
  Resource_blt := fun w r data => (S_OK, w ++ [.Resource_blt r data])
  Resource_colorFill := fun w r data => (S_OK, w ++ [.Resource_colorFill r data])
  Resource_lock := fun w r data => (S_OK, data, w ++ [.Resource_lock r data])
  Resource_unlock := fun w r data => (S_OK, w ++ [.Resource_unlock r data])
  Resource_prepareForRendering := fun w r subResourceIndex isReadOnly =>
    w ++ [.Resource_prepareForRendering r subResourceIndex isReadOnly]
  Resource_setAsGdiResource := fun w r isGdiResource =>
    w ++ [.Resource_setAsGdiResource r isGdiResource]
  D3DKMTReleaseProcessVidPnSourceOwners := fun w => w ++ [.D3DKMTReleaseProcessVidPnSourceOwners]
  commitBatch := fun w _ batch => w ++ [.flushPrimitives batch]
  write32 := fun w _ _ => w
  read32 := fun _ _ => 0
  hex := SimDriver.hex

/-- The state `s` moved in front of the recording driver, whose record is
still empty; the trace starts afresh as well. -/
def State.recorded {W : Type} (s : State W) : State (List Event) :=
  { dev := s.dev, g_gdiResourceHandle := s.g_gdiResourceHandle, g_gdiResource := s.g_gdiResource,
    g_isReadOnlyGdiLockEnabled := s.g_isReadOnlyGdiLockEnabled,
    s_isFlushEnabled := s.s_isFlushEnabled, nextResourceId := s.nextResourceId,
    trace := [], world := [] }

/-! ## The device table -/

/-- The replacement of the value stored under key `k` (an assignment through a
reference into the map); nothing changes when the key is absent. -/
def Map.assign {α : Type} (m : Map α) (k : HANDLE) (v : α) : Map α :=
  m.map (fun e => if e.1 = k then (k, v) else e)

/-- The state of the process as `Device.cpp` sees it: the device table
`Device::s_devices`, the globals of the file, the external world and the ghost
fields of `State`. -/
structure Process (W : Type) where
  s_devices : Map Device
  g_gdiResourceHandle : HANDLE
  g_gdiResource : Option Resource
  g_isReadOnlyGdiLockEnabled : Bool
  s_isFlushEnabled : Bool
  nextResourceId : Nat
  trace : List Event
  world : W

/-- The state in which a member function runs on the device object `d`. -/
def Process.enter {W : Type} (p : Process W) (d : Device) : State W :=
  { dev := d, g_gdiResourceHandle := p.g_gdiResourceHandle, g_gdiResource := p.g_gdiResource,
    g_isReadOnlyGdiLockEnabled := p.g_isReadOnlyGdiLockEnabled,
    s_isFlushEnabled := p.s_isFlushEnabled, nextResourceId := p.nextResourceId,
    trace := p.trace, world := p.world }

/-- The state of the process when a member function returns, with the device
table `devices`. -/
def State.leave {W : Type} (s : State W) (devices : Map Device) : Process W :=
  { s_devices := devices, g_gdiResourceHandle := s.g_gdiResourceHandle,
    g_gdiResource := s.g_gdiResource,
    g_isReadOnlyGdiLockEnabled := s.g_isReadOnlyGdiLockEnabled,
    s_isFlushEnabled := s.s_isFlushEnabled, nextResourceId := s.nextResourceId,
    trace := s.trace, world := s.world }

namespace Device

variable {W : Type}

/-- The constructor `Device::Device(adapter, device)`: the members are
initialised in the order of the initialiser list, `m_isSrcColorKeySupported`
by running the probe. `getCKeyCaps adapter` is
`Adapter::get(adapter).getDDrawCaps().CKeyCaps`. The result is the state after
the construction, with the new object as `dev`. -/
def construct (env : Env W) (getCKeyCaps : HANDLE → Nat) (p : Process W)
    (adapter device : HANDLE) : State W :=
  let d : Device :=
    { m_adapterCKeyCaps := getCKeyCaps adapter, m_device := device,
      m_isSrcColorKeySupported := false, m_resources := [], m_renderTarget := none,
      m_renderTargetSubResourceIndex := 0, m_sharedPrimary := nullptr,
      m_drawPrimitive :=
        { m_sysMemVertexBuffers := [], m_streamSource := none, m_streamSourceUm := none,
          m_batched := [] } }
  let c := checkSrcColorKeySupport env (p.enter d)
  c.2.setDev { c.2.dev with m_isSrcColorKeySupported := c.1 }

/-- The call `s_devices.try_emplace(device, adapter, device)`: a device is
constructed only when the key is absent. -/
def try_emplace (env : Env W) (getCKeyCaps : HANDLE → Nat) (p : Process W)
    (adapter device : HANDLE) : Process W :=
  match p.s_devices.find device with
  | some _ => p
  | none =>
    let s := construct env getCKeyCaps p adapter device
    s.leave (p.s_devices.insertSorted device s.dev)

/-- The static member `Device::add`. -/
def add (env : Env W) (getCKeyCaps : HANDLE → Nat) (p : Process W)
    (adapter device : HANDLE) : Process W :=
  try_emplace env getCKeyCaps p adapter device

/-- The static member `Device::get`; the reference it returns is the entry of
`device` in the table of the resulting state. -/
def get (env : Env W) (getCKeyCaps : HANDLE → Nat) (p : Process W) (device : HANDLE) :
    Process W :=
  match p.s_devices.find device with
  | some _ => p
  | none => try_emplace env getCKeyCaps p nullptr device

/-- The static member `Device::remove`. -/
def remove (p : Process W) (device : HANDLE) : Process W :=
  { p with s_devices := p.s_devices.erase device }

/-- The loop of `Device::findResource` over `s_devices`, in key order. -/
def findResourceIn : Map Device → HANDLE → Option Resource
  | [], _ => none
  | (_, d) :: rest, resource =>
    match d.m_resources.find resource with
    | some r => some r
    | none => findResourceIn rest resource

/-- The static member `Device::findResource`. -/
def findResource (p : Process W) (resource : HANDLE) : Option Resource :=
  findResourceIn p.s_devices resource

/-- The call `g_gdiResource->setAsGdiResource(flag)`, skipped for a null pointer. -/
def notifyGdiResource (env : Env W) (p : Process W) (flag : Bool) : Process W :=
  match p.g_gdiResource with
  | some g =>
    { p with
      trace := p.trace ++ [.Resource_setAsGdiResource g flag]
      world := env.Resource_setAsGdiResource p.world g flag }
  | none => p

/-- The static member `Device::setGdiResourceHandle`. -/
def setGdiResourceHandle (env : Env W) (p : Process W) (resource : HANDLE) : Process W :=
  if (resource = nullptr ∧ p.g_gdiResource = none) ∨
      (∃ g, p.g_gdiResource = some g ∧ resource = g.handle) then p
  else
    let p := notifyGdiResource env p false
    let p := { p with g_gdiResourceHandle := resource, g_gdiResource := findResource p resource }
    notifyGdiResource env p true

end Device

/-- A member function `f` called on the device with handle `device`, the way the
device-table thunks do it: `Device::get(device).f(...)`. The device object in
the table is the one `f` leaves. -/
def Process.onDevice {W : Type} (env : Env W) (getCKeyCaps : HANDLE → Nat) (p : Process W)
    (device : HANDLE) (f : State W → State W) : Process W :=
  let p := Device.get env getCKeyCaps p device
  match p.s_devices.find device with
  | some d =>
    let s := f (p.enter d)
    s.leave (p.s_devices.assign device s.dev)
  | none => p

/-- A call that changes the device table, a registry or the GDI designation. -/
inductive ProcOp where
  | add (adapter device : HANDLE)
  | get (device : HANDLE)
  | remove (device : HANDLE)
  | createResource (device : HANDLE) (data : D3DDDIARG_CREATERESOURCE2)
  | createResource2 (device : HANDLE) (data : D3DDDIARG_CREATERESOURCE2)
  | destroyResource (device : HANDLE) (resource : HANDLE)
  | setGdiResourceHandle (resource : HANDLE)
deriving DecidableEq, Repr

/-- Runs one call on the process. -/
def ProcOp.exec {W : Type} (env : Env W) (getCKeyCaps : HANDLE → Nat) (p : Process W) :
    ProcOp → Process W
  | .add adapter device => Device.add env getCKeyCaps p adapter device
  | .get device => Device.get env getCKeyCaps p device
  | .remove device => Device.remove p device
  | .createResource device data =>
    p.onDevice env getCKeyCaps device (fun s => (Device.createResource env s data).2.2)
  | .createResource2 device data =>
    p.onDevice env getCKeyCaps device (fun s => (Device.createResource2 env s data).2.2)
  | .destroyResource device resource =>
    p.onDevice env getCKeyCaps device (fun s => (Device.destroyResource env s resource).2)
  | .setGdiResourceHandle resource => Device.setGdiResourceHandle env p resource

/-- Runs a sequence of calls on the process, first to last. -/
def runProcOps {W : Type} (env : Env W) (getCKeyCaps : HANDLE → Nat) (p : Process W) :
    List ProcOp → Process W
  | [] => p
  | op :: rest => runProcOps env getCKeyCaps (op.exec env getCKeyCaps p) rest

/-- Whether the Resource object `r` is registered in a device of the table. -/
def isRegistered (devices : Map Device) (r : Resource) : Bool :=
  devices.any (fun e => e.2.m_resources.any (fun x => x.2 == r))

/-- The invariant of C16: `g_gdiResource` is null or refers to a Resource that
is registered in the registry of a device present in the device table. -/
def gdiResourceRegistered {W : Type} (p : Process W) : Bool :=
  match p.g_gdiResource with
  | none => true
  | some g => isRegistered p.s_devices g

/-- The invariant of C17: `m_renderTarget` is null or refers to a Resource that
is in the registry of the device. -/
def renderTargetRegistered {W : Type} (s : State W) : Bool :=
  match s.dev.m_renderTarget with
  | none => true
  | some r => s.dev.m_resources.any (fun x => x.2 == r)

/-! ## Inputs of the witnesses -/

/-- The calls of the C1 witness after the creation: a lock, a draw, a
`destroyResource(100)` that the driver refuses (it is call 2 of
`failingDriver 2`), a second creation and a present. -/
def C1_ops : List Op :=
  [.lock { hResource := 100, SubResourceIndex := 0, pSurfData := 0, Flags := 0 },
   .drawPrimitive { PrimitiveType := 4, VStart := 0, PrimitiveCount := 1 } [],
   .destroyResource 100,
   .createResource2 Device.probeCreateData,
   .present { hSrcResource := 100, SrcSubResourceIndex := 0, hDstResource := 0,
              DstSubResourceIndex := 0 }]

/-- A system-memory vertex buffer: the creation data of the C3 and C4 witnesses. -/
def sysMemVertexBufferData : D3DDDIARG_CREATERESOURCE2 :=
  { Format := 0, Pool := D3DDDIPOOL_SYSTEMMEM, Fvf := 0x142,
    pSurfList := [{ Width := 64, Height := 1, pSysMem := 0x5000 }], SurfCount := 1,
    hResource := nullptr, Flags_RenderTarget := false, Flags_VertexBuffer := true,
    Rotation := D3DDDI_ROTATION_IDENTITY }

/-- The state of the C4 witness: the vertex buffer was created (handle 100),
opened as the shared full-screen primary, and a draw is pending. -/
def C4_state (cfg : SimConfig) : State SimDriver :=
  runOps (simEnv cfg) (initialState 0x200)
    [.createResource2 sysMemVertexBufferData,
     .openResource { hResource := 100, Flags_Fullscreen := true },
     .drawPrimitive { PrimitiveType := 4, VStart := 0, PrimitiveCount := 1 } []]

/-- The state of the C8 witnesses: one resource, with handle 100, is registered. -/
def C8_state : State SimDriver :=
  runOps (simEnv goodDriver) (initialState 0x200) [.createResource2 Device.probeCreateData]

/-- A `setRenderTarget` argument for render target 1. -/
def C8_data : D3DDDIARG_SETRENDERTARGET :=
  { RenderTargetIndex := 1, hRenderTarget := 100, SubResourceIndex := 3 }

/-- The state of the C9 and C10 witnesses: flushing was disabled and one draw
submission is pending in the batcher. -/
def C10_state : State SimDriver :=
  runOps (simEnv goodDriver) (initialState 0x200)
    [.enableFlush false,
     .drawPrimitive { PrimitiveType := 4, VStart := 0, PrimitiveCount := 1 } []]

/-- The state of the C11 witness: handle 100 is registered, opened as the
shared full-screen primary and designated as the GDI resource. -/
def C11_state : State SimDriver :=
  { (runOps (simEnv goodDriver) (initialState 0x200)
      [.createResource2 Device.probeCreateData,
       .openResource { hResource := 100, Flags_Fullscreen := true }]) with
    g_gdiResourceHandle := 100
    g_gdiResource := some { id := 0, handle := 100 } }

/-- The process before any device was opened, on the simulated driver. -/
def initialProcess : Process SimDriver :=
  { s_devices := [], g_gdiResourceHandle := nullptr, g_gdiResource := none,
    g_isReadOnlyGdiLockEnabled := false, s_isFlushEnabled := true, nextResourceId := 0,
    trace := [], world := { surfaces := [], nextHandle := 100, calls := 0 } }

/-- The calls of the C16 failing input before the removal: device 1 is added,
a resource is created on it (the driver hands out handle 102, after the two
handles of the probe) and designated as the GDI resource. -/
def C16_ops : List ProcOp :=
  [.add 5 1, .createResource2 1 Device.probeCreateData, .setGdiResourceHandle 102]

/-- The calls of the C17 failing input: a resource is created (handle 100), made
render target 0 and destroyed. -/
def C17_ops : List Op :=
  [.createResource2 Device.probeCreateData,
   .setRenderTarget { RenderTargetIndex := 0, hRenderTarget := 100, SubResourceIndex := 0 },
   .destroyResource 100]

/-- The `present1` argument of the C15 witness: the registered handle 100 twice,
with the unregistered handle 555 in between. -/
def C15_data : D3DDDIARG_PRESENT1 :=
  { phSrcResources :=
      [{ hResource := 100, SubResourceIndex := 2 }, { hResource := 555, SubResourceIndex := 0 },
        { hResource := 100, SubResourceIndex := 1 }],
    hDstResource := 0, DstSubResourceIndex := 0 }

/-- The `colorFill` argument of the C2 witness: the unregistered handle 7. -/
def C2_fill : D3DDDIARG_COLORFILL :=
  { hResource := 7, SubResourceIndex := 0,
    DstRect := { left := 0, top := 0, right := 2, bottom := 1 }, Color := 5 }

/-- The `present` argument of the C2 witness. -/
def C2_present : D3DDDIARG_PRESENT :=
  { hSrcResource := 7, SrcSubResourceIndex := 0, hDstResource := 0, DstSubResourceIndex := 0 }

end D3dDdi

/-! ## Other modules: the primary surface (`DDraw/Surfaces/PrimarySurface.cpp`) -/

namespace DDraw

open D3dDdi (HANDLE HRESULT SUCCEEDED FAILED nullptr)

def DD_OK : HRESULT := 0

def DDSD_HEIGHT : Nat := 0x2
def DDSD_WIDTH : Nat := 0x4
def DDSD_PITCH : Nat := 0x8
def DDSD_LPSURFACE : Nat := 0x800
def DDSD_PIXELFORMAT : Nat := 0x1000

def DDSCAPS_OFFSCREENPLAIN : Nat := 0x40
def DDSCAPS_PRIMARYSURFACE : Nat := 0x200
def DDSCAPS_SYSTEMMEMORY : Nat := 0x800
def DDSCAPS_3DDEVICE : Nat := 0x2000
def DDSCAPS_VIDEOMEMORY : Nat := 0x4000
def DDSCAPS_LOCALVIDMEM : Nat := 0x10000000
def DDSCAPS_NONLOCALVIDMEM : Nat := 0x20000000

/-- The complement `~m` of a `DWORD`. -/
def notDWORD (m : Nat) : Nat := 0xFFFFFFFF ^^^ m

structure DDPIXELFORMAT where
  dwFlags : Nat
  dwFourCC : Nat
  dwRGBBitCount : Nat
  dwRBitMask : Nat
  dwGBitMask : Nat
  dwBBitMask : Nat
  dwRGBAlphaBitMask : Nat
deriving DecidableEq, Repr

/-- The members of `DDSURFACEDESC2` (and of `DDSURFACEDESC`) that
`PrimarySurface.cpp` reads or writes; `ddsCaps_dwCaps` is `ddsCaps.dwCaps`. -/
structure DDSURFACEDESC2 where
  dwFlags : Nat
  dwHeight : Nat
  dwWidth : Nat
  lPitch : Nat
  lpSurface : Nat
  ddpfPixelFormat : DDPIXELFORMAT
  ddsCaps_dwCaps : Nat
deriving DecidableEq, Repr

/-- The calls that leave `PrimarySurface.cpp`, in the order they are made. -/
inductive PrimaryEvent where
  | RealPrimarySurface_create
  | RealPrimarySurface_release
  | Surface_create (desc : DDSURFACEDESC2)
  | Log (result : HRESULT)
  | VirtualScreen_update
  | SetSurfaceDesc (surface : Nat) (desc : DDSURFACEDESC2)
  | Device_setGdiResourceHandle (resource : HANDLE)
  | Surface_restore (surface : Nat)
deriving DecidableEq, Repr

/-- The globals of `PrimarySurface.cpp` and the static member `s_palette`;
interface pointers are numbers, 0 is null. -/
structure PrimaryGlobals where
  g_primarySurface : Nat
  g_gdiResourceHandle : HANDLE
  g_frontResource : HANDLE
  g_origCaps : Nat
  s_palette : Nat
deriving DecidableEq, Repr

/-- The globals, the ghost trace and the external world. -/
structure PrimaryState (W : Type) where
  globals : PrimaryGlobals
  trace : List PrimaryEvent
  world : W

/-- What `PrimarySurface.cpp` calls but does not define. `Surface_create`
yields the result code, the `surface` it hands back and the `m_surface` of the
private data it attached. -/
structure PrimaryEnv (W : Type) where
  RealPrimarySurface_create : W → HRESULT × W
  RealPrimarySurface_release : W → W
  getDisplayMode : W → DDSURFACEDESC2
  Surface_create : W → DDSURFACEDESC2 → HRESULT × Nat × Nat × W
  VirtualScreen_update : W → W
  VirtualScreen_getSurfaceDesc : W → DDSURFACEDESC2
  getRuntimeResourceHandle : W → Nat → HANDLE
  getDriverResourceHandle : W → Nat → HANDLE
  GetSurfaceDesc : W → Nat → DDSURFACEDESC2
  SetSurfaceDesc : W → Nat → DDSURFACEDESC2 → W
  Device_setGdiResourceHandle : W → HANDLE → W
  Surface_restore : W → Nat → W

/-- Records a call that left the module. -/
def PrimaryState.call {W : Type} (st : PrimaryState W) (e : PrimaryEvent) (w : W) :
    PrimaryState W :=
  { st with trace := st.trace ++ [e], world := w }

namespace PrimarySurface

variable {W : Type}

/-- The destructor `PrimarySurface::~PrimarySurface`. -/
def destructor (env : PrimaryEnv W) (st : PrimaryState W) : PrimaryState W :=
  let st := { st with globals := { st.globals with g_gdiResourceHandle := nullptr } }
  let st := { st with globals := { st.globals with g_frontResource := nullptr } }
  let st := { st with globals := { st.globals with g_primarySurface := 0 } }
  let st := { st with globals := { st.globals with g_origCaps := 0 } }
  let st := { st with globals := { st.globals with s_palette := 0 } }
  st.call .RealPrimarySurface_release (env.RealPrimarySurface_release st.world)

/-- The descriptor that `PrimarySurface::create` passes to `Surface::create`:
the statements between `getDisplayMode` and `make_unique`, with `dm` the
current display mode. -/
def createDesc (desc dm : DDSURFACEDESC2) : DDSURFACEDESC2 :=
  let desc := { desc with dwFlags := desc.dwFlags ||| (DDSD_WIDTH ||| DDSD_HEIGHT ||| DDSD_PIXELFORMAT) }
  let desc := { desc with dwWidth := dm.dwWidth }
  let desc := { desc with dwHeight := dm.dwHeight }
  let desc := { desc with
    ddsCaps_dwCaps := desc.ddsCaps_dwCaps &&&
      notDWORD (DDSCAPS_PRIMARYSURFACE ||| DDSCAPS_SYSTEMMEMORY ||| DDSCAPS_VIDEOMEMORY |||
        DDSCAPS_LOCALVIDMEM ||| DDSCAPS_NONLOCALVIDMEM) }
  let desc := { desc with ddsCaps_dwCaps := desc.ddsCaps_dwCaps ||| DDSCAPS_OFFSCREENPLAIN }
  let desc := { desc with ddpfPixelFormat := dm.ddpfPixelFormat }
  if desc.ddpfPixelFormat.dwRGBBitCount ≤ 8 ∧ desc.ddsCaps_dwCaps &&& DDSCAPS_3DDEVICE ≠ 0 then
    let desc := { desc with ddsCaps_dwCaps := desc.ddsCaps_dwCaps &&& notDWORD DDSCAPS_3DDEVICE }
    { desc with ddsCaps_dwCaps := desc.ddsCaps_dwCaps ||| DDSCAPS_SYSTEMMEMORY }
  else desc

/-- The member `PrimarySurface::updateFrontResource`. -/
def updateFrontResource (env : PrimaryEnv W) (st : PrimaryState W) : PrimaryState W :=
  { st with globals := { st.globals with
      g_frontResource := env.getDriverResourceHandle st.world st.globals.g_primarySurface } }

/-- The member `PrimarySurface::restore` of the object whose `m_surface` is
`m_surface`. -/
def restore (env : PrimaryEnv W) (st : PrimaryState W) (m_surface : Nat) : PrimaryState W :=
  let st := st.call .VirtualScreen_update (env.VirtualScreen_update st.world)
  let st := { st with globals := { st.globals with g_primarySurface := m_surface } }
  let st := { st with globals := { st.globals with
      g_gdiResourceHandle := env.getRuntimeResourceHandle st.world st.globals.g_primarySurface } }
  let desc := env.GetSurfaceDesc st.world m_surface
  let st :=
    if desc.ddsCaps_dwCaps &&& DDSCAPS_SYSTEMMEMORY ≠ 0 then
      let gdiDesc := env.VirtualScreen_getSurfaceDesc st.world
      let desc := { desc with
        dwFlags := DDSD_WIDTH ||| DDSD_HEIGHT ||| DDSD_PITCH ||| DDSD_LPSURFACE
        lPitch := gdiDesc.lPitch
        lpSurface := gdiDesc.lpSurface }
      st.call (.SetSurfaceDesc m_surface desc) (env.SetSurfaceDesc st.world m_surface desc)
    else st
  let st := updateFrontResource env st
  let st := st.call (.Device_setGdiResourceHandle st.globals.g_frontResource)
    (env.Device_setGdiResourceHandle st.world st.globals.g_frontResource)
  st.call (.Surface_restore m_surface) (env.Surface_restore st.world m_surface)

/-- The static member template `PrimarySurface::create`; the second component
is the `surface` handed back. `Surface::create` takes the private data, a
`std::unique_ptr<Surface>`, by value (`Surface.h`): when it fails the
`PrimarySurface` made by `make_unique` was attached to no surface and is
destroyed as the call returns, so `~PrimarySurface` runs before the failure is
logged and `RealPrimarySurface::release` is called a second time. -/
def create (env : PrimaryEnv W) (st : PrimaryState W) (desc : DDSURFACEDESC2) (surface : Nat) :
    HRESULT × Nat × PrimaryState W :=
  let r := env.RealPrimarySurface_create st.world
  let st := st.call .RealPrimarySurface_create r.2
  if FAILED r.1 then (r.1, surface, st)
  else
    let origCaps := desc.ddsCaps_dwCaps
    let dm := env.getDisplayMode st.world
    let desc := createDesc desc dm
    let c := env.Surface_create st.world desc
    let st := st.call (.Surface_create desc) c.2.2.2
    if FAILED c.1 then
      let st := destructor env st
      let st := st.call (.Log c.1) st.world
      (c.1, c.2.1, st.call .RealPrimarySurface_release (env.RealPrimarySurface_release st.world))
    else
      let st := { st with globals := { st.globals with g_origCaps := origCaps } }
      (DD_OK, c.2.1, restore env st c.2.2.1)

/-- The static member `PrimarySurface::getOrigCaps`. -/
def getOrigCaps (st : PrimaryState W) : Nat := st.globals.g_origCaps

/-- The static member `PrimarySurface::getFrontResource`. -/
def getFrontResource (st : PrimaryState W) : HANDLE := st.globals.g_frontResource

/-- The static member `PrimarySurface::getPrimary`. -/
def getPrimary (st : PrimaryState W) : Nat := st.globals.g_primarySurface

end PrimarySurface

/-- Whether capability flag `flag` is set in the capability word `caps`. -/
def hasCap (caps flag : Nat) : Prop := caps &&& flag ≠ 0

/-- The positions of the seven capability bits that `PrimarySurface::create`
may change: OFFSCREENPLAIN, PRIMARYSURFACE, SYSTEMMEMORY, 3DDEVICE,
VIDEOMEMORY, LOCALVIDMEM, NONLOCALVIDMEM. -/
def convertedCapBits : List Nat := [6, 9, 11, 13, 14, 28, 29]

/-- A simulated environment of the primary surface: the display mode is
640x480 with `bpp` bits per pixel, `Surface::create` fails when `failCreate`. -/
def simPrimaryEnv (bpp : Nat) (failCreate : Bool) : PrimaryEnv Unit where
  RealPrimarySurface_create := fun w => (0, w)
  RealPrimarySurface_release := fun w => w
  getDisplayMode := fun _ =>
    { dwFlags := 0x1006, dwHeight := 480, dwWidth := 640, lPitch := 0, lpSurface := 0,
      ddpfPixelFormat :=
        { dwFlags := 0x40, dwFourCC := 0, dwRGBBitCount := bpp, dwRBitMask := 0,
          dwGBitMask := 0, dwBBitMask := 0, dwRGBAlphaBitMask := 0 },
      ddsCaps_dwCaps := 0 }
  Surface_create := fun w _ => (if failCreate then D3dDdi.E_FAIL else 0, 0x7000, 0x7000, w)
  VirtualScreen_update := fun w => w
  VirtualScreen_getSurfaceDesc := fun _ =>
    { dwFlags := 0, dwHeight := 480, dwWidth := 640, lPitch := 640, lpSurface := 0x9000,
      ddpfPixelFormat :=
        { dwFlags := 0x40, dwFourCC := 0, dwRGBBitCount := bpp, dwRBitMask := 0,
          dwGBitMask := 0, dwBBitMask := 0, dwRGBAlphaBitMask := 0 },
      ddsCaps_dwCaps := 0 }
  getRuntimeResourceHandle := fun _ surface => surface + 1
  getDriverResourceHandle := fun _ surface => surface + 2
  GetSurfaceDesc := fun _ _ =>
    { dwFlags := 0, dwHeight := 480, dwWidth := 640, lPitch := 0, lpSurface := 0,
      ddpfPixelFormat :=
        { dwFlags := 0x40, dwFourCC := 0, dwRGBBitCount := bpp, dwRBitMask := 0,
          dwGBitMask := 0, dwBBitMask := 0, dwRGBAlphaBitMask := 0 },
      ddsCaps_dwCaps := 0 }
  SetSurfaceDesc := fun w _ _ => w
  Device_setGdiResourceHandle := fun w _ => w
  Surface_restore := fun w _ => w

/-- The primary-surface state before any primary surface was created. -/
def initialPrimaryState : PrimaryState Unit :=
  { globals :=
      { g_primarySurface := 0
        g_gdiResourceHandle := nullptr
        g_frontResource := nullptr
        g_origCaps := 0
        s_palette := 0 }
    trace := []
    world := () }

/-- A descriptor asking for a primary 3D surface in local video memory. -/
def primaryDesc : DDSURFACEDESC2 :=
  { dwFlags := 0x1, dwHeight := 0, dwWidth := 0, lPitch := 0, lpSurface := 0,
    ddpfPixelFormat :=
      { dwFlags := 0, dwFourCC := 0, dwRGBBitCount := 0, dwRBitMask := 0, dwGBitMask := 0,
        dwBBitMask := 0, dwRGBAlphaBitMask := 0 },
    ddsCaps_dwCaps := DDSCAPS_PRIMARYSURFACE ||| DDSCAPS_3DDEVICE ||| DDSCAPS_VIDEOMEMORY |||
      DDSCAPS_LOCALVIDMEM }

end DDraw

/-! ## Other modules: the vtable visitor of `IDirect3DMaterial`
(`Direct3d/Visitors/Direct3dMaterialVtblVisitor.h`) -/

namespace Direct3d

/-- The members visited by `VtableForEach<IDirect3DMaterialVtbl>::forEach`, in
order. Each `DD_VISIT(member)` visits one member; `iUnknown` is the list
visited by `VtableForEach<IUnknownVtbl>::forEach`, which is defined in
`Common/VtableVisitor.h`, not among the sources. -/
def VtableForEach_IDirect3DMaterialVtbl (iUnknown : List String) : List String :=
  iUnknown ++
    ["Initialize", "SetMaterial", "GetMaterial", "GetHandle", "Reserve", "Unreserve"]

/-- The members visited by `VtableForEach<IDirect3DMaterial2Vtbl>::forEach`. -/
def VtableForEach_IDirect3DMaterial2Vtbl (iUnknown : List String) : List String :=
  iUnknown ++ ["SetMaterial", "GetMaterial", "GetHandle"]

/-- The members visited by `VtableForEach<IDirect3DMaterial3Vtbl>::forEach`. -/
def VtableForEach_IDirect3DMaterial3Vtbl (iUnknown : List String) : List String :=
  VtableForEach_IDirect3DMaterial2Vtbl iUnknown

/-- The members of `IUnknown`, for the counterexample of C14. -/
def iUnknownMembers : List String := ["QueryInterface", "AddRef", "Release"]

end Direct3d

/-! ## Other modules: the system palette (`Gdi/Palette.cpp`) -/

namespace Gdi

abbrev HDC := Nat

def SYSPAL_ERROR : Nat := 0
def SYSPAL_STATIC : Nat := 1
def SYSPAL_NOSTATIC : Nat := 2
def SYSPAL_NOSTATIC256 : Nat := 3

def PC_RESERVED : Nat := 0x01
def PC_EXPLICIT : Nat := 0x02
def PC_NOCOLLAPSE : Nat := 0x04

/-- Addition of two `UINT` values (32 bits). -/
def addUINT (a b : Nat) : Nat := (a + b) % 2 ^ 32

/-- Subtraction of two `UINT` values (32 bits). -/
def subUINT (a b : Nat) : Nat := (a + 2 ^ 32 - b % 2 ^ 32) % 2 ^ 32

structure PALETTEENTRY where
  peRed : Nat
  peGreen : Nat
  peBlue : Nat
  peFlags : Nat
deriving DecidableEq, Repr

/-- A zero-initialised `PALETTEENTRY`. -/
def zeroEntry : PALETTEENTRY := { peRed := 0, peGreen := 0, peBlue := 0, peFlags := 0 }

/-- The globals of `Palette.cpp`. A table `PALETTEENTRY t[256]` is a list; `t[i]`
reads `t.getD i zeroEntry` and `t[i] = e` is `t.set i e`. `accesses` is a ghost
log of every index used to read or write `g_systemPalette` or
`g_defaultPalette` other than by whole-table copies, and `virtualScreenPalette`
is the table last handed to `Gdi::VirtualScreen::updatePalette`. -/
structure PaletteState where
  g_defaultPalette : List PALETTEENTRY
  g_hardwarePalette : List PALETTEENTRY
  g_systemPalette : List PALETTEENTRY
  g_systemPaletteUse : Nat
  g_systemPaletteFirstUnusedIndex : Nat
  g_systemPaletteFirstNonReservedIndex : Nat
  g_systemPaletteLastNonReservedIndex : Nat
  virtualScreenPalette : List PALETTEENTRY
  accesses : List Nat
deriving DecidableEq, Repr

/-- The function `isSameColor`. -/
def isSameColor (entry1 entry2 : PALETTEENTRY) : Bool :=
  entry1.peRed == entry2.peRed && entry1.peGreen == entry2.peGreen &&
    entry1.peBlue == entry2.peBlue

/-- One `for` loop of `exactMatch` over the indices `l`: whether an entry of
the same colour was found, and the indices read until then. -/
def exactMatch_scan (table : List PALETTEENTRY) (entry : PALETTEENTRY) :
    List Nat → Bool × List Nat
  | [] => (false, [])
  | i :: rest =>
    if isSameColor entry (table.getD i zeroEntry) then (true, [i])
    else ((exactMatch_scan table entry rest).1, i :: (exactMatch_scan table entry rest).2)

/-- The function `exactMatch`: the first loop runs over
`0 ≤ i < g_systemPaletteFirstUnusedIndex`, the second over
`g_systemPaletteLastNonReservedIndex + 1 ≤ i < 256`. -/
def exactMatch (st : PaletteState) (entry : PALETTEENTRY) : Bool × PaletteState :=
  let a := exactMatch_scan st.g_systemPalette entry
    (List.range st.g_systemPaletteFirstUnusedIndex)
  if a.1 then (true, { st with accesses := st.accesses ++ a.2 })
  else
    let b := exactMatch_scan st.g_systemPalette entry
      ((List.range 256).drop (addUINT st.g_systemPaletteLastNonReservedIndex 1))
    (b.1, { st with accesses := st.accesses ++ a.2 ++ b.2 })

/-- The call `memcpy(&dst[dstStart], &src[srcStart], count * sizeof(PALETTEENTRY))`. -/
def memcpyEntries (dst src : List PALETTEENTRY) (dstStart srcStart : Nat) :
    Nat → List PALETTEENTRY
  | 0 => dst
  | count + 1 =>
    (memcpyEntries dst src dstStart srcStart count).set (dstStart + count)
      (src.getD (srcStart + count) zeroEntry)

/-- The indices `start, ..., start + count - 1` touched by a `memcpy`. -/
def indexRange (start count : Nat) : List Nat := (List.range count).map (fun k => start + k)

namespace Palette

/-- The function `Gdi::Palette::setHardwarePalette`: a copy of the whole table. -/
def setHardwarePalette (st : PaletteState) (entries : List PALETTEENTRY) : PaletteState :=
  { st with g_hardwarePalette := memcpyEntries st.g_hardwarePalette entries 0 0 256 }

end Palette

/-- The call `Gdi::VirtualScreen::updatePalette(entries)`. -/
def VirtualScreen_updatePalette (st : PaletteState) (entries : List PALETTEENTRY) :
    PaletteState :=
  { st with virtualScreenPalette := entries }

/-- The function `updateStaticSysPalEntries`. -/
def updateStaticSysPalEntries (st : PaletteState) : PaletteState :=
  let count := st.g_systemPaletteFirstNonReservedIndex
  if 0 = count then st
  else
    let st := { st with
      g_systemPalette := memcpyEntries st.g_systemPalette st.g_defaultPalette 0 0 count
      accesses := st.accesses ++ indexRange 0 count }
    let st := { st with
      g_systemPalette := memcpyEntries st.g_systemPalette st.g_defaultPalette
        (subUINT 256 count) (subUINT 256 count) count
      accesses := st.accesses ++ indexRange (subUINT 256 count) count }
    let st := Palette.setHardwarePalette st st.g_systemPalette
    VirtualScreen_updatePalette st st.g_systemPalette

/-- The hook `getSystemPaletteEntries`; `isDisplayDc` is `Gdi::isDisplayDc`,
`lppe` tells whether the buffer pointer is non-null. The result is the value
returned, the entries copied to the buffer, and the state. -/
def getSystemPaletteEntries (isDisplayDc : HDC → Bool) (st : PaletteState) (hdc : HDC)
    (iStartIndex nEntries : Nat) (lppe : Bool) : Nat × List PALETTEENTRY × PaletteState :=
  if !isDisplayDc hdc then (0, [], st)
  else if !lppe then (256, [], st)
  else if iStartIndex ≥ 256 then (0, [], st)
  else
    let nEntries := if nEntries > subUINT 256 iStartIndex then subUINT 256 iStartIndex else nEntries
    (nEntries, (indexRange iStartIndex nEntries).map (fun i => st.g_systemPalette.getD i zeroEntry),
      { st with accesses := st.accesses ++ indexRange iStartIndex nEntries })

/-- The hook `getSystemPaletteUse`. -/
def getSystemPaletteUse (isDisplayDc : HDC → Bool) (st : PaletteState) (hdc : HDC) : Nat :=
  if !isDisplayDc hdc then SYSPAL_ERROR else st.g_systemPaletteUse

/-- The hook `setSystemPaletteUse`. -/
def setSystemPaletteUse (isDisplayDc : HDC → Bool) (st : PaletteState) (hdc : HDC)
    (uUsage : Nat) : Nat × PaletteState :=
  if !isDisplayDc hdc then (SYSPAL_ERROR, st)
  else if uUsage = st.g_systemPaletteUse then (st.g_systemPaletteUse, st)
  else
    let prevUsage := st.g_systemPaletteUse
    if uUsage = SYSPAL_STATIC then
      let st := { st with g_systemPaletteFirstNonReservedIndex := 10 }
      let st := { st with g_systemPaletteLastNonReservedIndex := 245 }
      (prevUsage, updateStaticSysPalEntries { st with g_systemPaletteUse := uUsage })
    else if uUsage = SYSPAL_NOSTATIC then
      let st := { st with g_systemPaletteFirstNonReservedIndex := 1 }
      let st := { st with g_systemPaletteLastNonReservedIndex := 254 }
      (prevUsage, updateStaticSysPalEntries { st with g_systemPaletteUse := uUsage })
    else if uUsage = SYSPAL_NOSTATIC256 then
      let st := { st with g_systemPaletteFirstNonReservedIndex := 0 }
      let st := { st with g_systemPaletteLastNonReservedIndex := 255 }
      (prevUsage, updateStaticSysPalEntries { st with g_systemPaletteUse := uUsage })
    else (SYSPAL_ERROR, st)

namespace Palette

/-- The two assignments and the increment at the end of the loop body of
`setSystemPalette`. -/
def setSystemPalette_store (st : PaletteState) (entry : PALETTEENTRY) : PaletteState :=
  { st with
    g_systemPalette :=
      st.g_systemPalette.set st.g_systemPaletteFirstUnusedIndex { entry with peFlags := 0 }
    accesses := st.accesses ++ [st.g_systemPaletteFirstUnusedIndex]
    g_systemPaletteFirstUnusedIndex := addUINT st.g_systemPaletteFirstUnusedIndex 1 }

/-- The `for` loop of `setSystemPalette` over `entries[0 .. count)`; it ends
early once `g_systemPaletteFirstUnusedIndex > g_systemPaletteLastNonReservedIndex`. -/
def setSystemPalette_loop : PaletteState → List PALETTEENTRY → PaletteState
  | st, [] => st
  | st, entry :: rest =>
    if st.g_systemPaletteFirstUnusedIndex ≤ st.g_systemPaletteLastNonReservedIndex then
      if entry.peFlags &&& PC_EXPLICIT ≠ 0 then setSystemPalette_loop st rest
      else if entry.peFlags &&& (PC_NOCOLLAPSE ||| PC_RESERVED) = 0 then
        if (exactMatch st entry).1 then setSystemPalette_loop (exactMatch st entry).2 rest
        else setSystemPalette_loop (setSystemPalette_store (exactMatch st entry).2 entry) rest
      else setSystemPalette_loop (setSystemPalette_store st entry) rest
    else st

/-- The function `Gdi::Palette::setSystemPalette`; `entries` holds at least
`count` entries. -/
def setSystemPalette (st : PaletteState) (entries : List PALETTEENTRY) (count : Nat)
    (forceBackground : Bool) : PaletteState :=
  let st :=
    if !forceBackground then
      { st with g_systemPaletteFirstUnusedIndex := st.g_systemPaletteFirstNonReservedIndex }
    else st
  let st := setSystemPalette_loop st (entries.take count)
  let st := setHardwarePalette st st.g_systemPalette
  VirtualScreen_updatePalette st st.g_systemPalette

/-- The function `Gdi::Palette::getSystemPalette`. -/
def getSystemPalette (st : PaletteState) : List PALETTEENTRY := st.g_systemPalette.take 256

end Palette

/-- A call that reaches the palette state. -/
inductive PaletteOp where
  | setSystemPaletteUse (hdc : HDC) (uUsage : Nat)
  | setSystemPalette (entries : List PALETTEENTRY) (count : Nat) (forceBackground : Bool)
  | getSystemPaletteEntries (hdc : HDC) (iStartIndex nEntries : Nat) (lppe : Bool)
deriving DecidableEq, Repr

/-- The arguments are well formed: `count` does not exceed the entry array. -/
def PaletteOp.wellFormed : PaletteOp → Prop
  | .setSystemPalette entries count _ => count ≤ entries.length
  | _ => True

/-- Runs one call on the palette state. -/
def PaletteOp.exec (isDisplayDc : HDC → Bool) (st : PaletteState) : PaletteOp → PaletteState
  | .setSystemPaletteUse hdc uUsage => (Gdi.setSystemPaletteUse isDisplayDc st hdc uUsage).2
  | .setSystemPalette entries count forceBackground =>
    Palette.setSystemPalette st entries count forceBackground
  | .getSystemPaletteEntries hdc iStartIndex nEntries lppe =>
    (Gdi.getSystemPaletteEntries isDisplayDc st hdc iStartIndex nEntries lppe).2.2

/-- Runs a sequence of calls, first to last. -/
def runPaletteOps (isDisplayDc : HDC → Bool) (st : PaletteState) : List PaletteOp → PaletteState
  | [] => st
  | op :: rest => runPaletteOps isDisplayDc (op.exec isDisplayDc st) rest

/-- The initial palette state: usage `SYSPAL_STATIC`, first unused index 10,
non-reserved range 10..245, three tables of 256 entries, nothing accessed yet. -/
def PaletteState.isInitial (st : PaletteState) : Prop :=
  st.g_systemPaletteUse = SYSPAL_STATIC ∧ st.g_systemPaletteFirstUnusedIndex = 10 ∧
  st.g_systemPaletteFirstNonReservedIndex = 10 ∧ st.g_systemPaletteLastNonReservedIndex = 245 ∧
  st.g_defaultPalette.length = 256 ∧ st.g_hardwarePalette.length = 256 ∧
  st.g_systemPalette.length = 256 ∧ st.accesses = []

/-- The states reachable from an initial one by well-formed calls. -/
inductive Reachable (isDisplayDc : HDC → Bool) : PaletteState → Prop where
  | init (st : PaletteState) (h : st.isInitial) : Reachable isDisplayDc st
  | step (st : PaletteState) (op : PaletteOp) (h : Reachable isDisplayDc st)
      (hw : op.wellFormed) : Reachable isDisplayDc (op.exec isDisplayDc st)

/-- The invariant behind C18 and C20: the usage is one of the three valid
values, the first unused index is at most 256, the non-reserved range starts at
10 or below and ends at 255 or below, and every logged index is below 256. -/
def PaletteState.inv (st : PaletteState) : Prop :=
  (st.g_systemPaletteUse = SYSPAL_STATIC ∨ st.g_systemPaletteUse = SYSPAL_NOSTATIC ∨
    st.g_systemPaletteUse = SYSPAL_NOSTATIC256) ∧
  st.g_systemPaletteFirstUnusedIndex ≤ 256 ∧
  st.g_systemPaletteFirstNonReservedIndex ≤ 10 ∧
  st.g_systemPaletteLastNonReservedIndex ≤ 255 ∧
  ∀ i ∈ st.accesses, i < 256

/-- The palette state at start-up: the tables are zero-initialised. -/
def initialPaletteState : PaletteState :=
  { g_defaultPalette := List.replicate 256 zeroEntry
    g_hardwarePalette := List.replicate 256 zeroEntry
    g_systemPalette := List.replicate 256 zeroEntry
    g_systemPaletteUse := SYSPAL_STATIC
    g_systemPaletteFirstUnusedIndex := 10
    g_systemPaletteFirstNonReservedIndex := 10
    g_systemPaletteLastNonReservedIndex := 245
    virtualScreenPalette := []
    accesses := [] }

/-- Every device context is a display DC. -/
def allDisplayDc : HDC → Bool := fun _ => true

/-- A palette entry of colour (r, g, b) with `PC_NOCOLLAPSE`. -/
def colour (r g b : Nat) : PALETTEENTRY :=
  { peRed := r, peGreen := g, peBlue := b, peFlags := PC_NOCOLLAPSE }

/-- The calls of the C19 failing input before the background realization: the
usage is switched to `SYSPAL_NOSTATIC256`, a foreground palette of five
colours is realized (entries 0..4), and the usage is switched back to
`SYSPAL_STATIC`. -/
def C19_ops : List PaletteOp :=
  [.setSystemPaletteUse 1 SYSPAL_NOSTATIC256,
   .setSystemPalette
      [colour 1 1 1, colour 2 2 2, colour 3 3 3, colour 4 4 4, colour 5 5 5] 5 false,
   .setSystemPaletteUse 1 SYSPAL_STATIC]

end Gdi

/-! # Theorems -/

namespace D3dDdi

/-! ## Facts about `Map` -/

theorem Map.find_insertSorted_self {α : Type} (m : Map α) (k : HANDLE) (v : α)
    (hk : m.find k = none) : (m.insertSorted k v).find k = some v := by
  induction m with
  | nil => simp [Map.insertSorted, Map.find]
  | cons p rest ih =>
    obtain ⟨k', v'⟩ := p
    by_cases hlt : k < k'
    · simp [Map.insertSorted, Map.find, hlt]
    · by_cases heq : k' = k
      · simp [Map.find, heq] at hk
      · simp only [Map.find, heq, if_false] at hk
        simp [Map.insertSorted, Map.find, hlt, heq, ih hk]

theorem Map.find_insertSorted_ne {α : Type} (m : Map α) (k k₀ : HANDLE) (v : α)
    (hne : k₀ ≠ k) : (m.insertSorted k v).find k₀ = m.find k₀ := by
  induction m with
  | nil => simp [Map.insertSorted, Map.find, Ne.symm hne]
  | cons p rest ih =>
    obtain ⟨k', v'⟩ := p
    by_cases hlt : k < k'
    · simp [Map.insertSorted, Map.find, hlt, Ne.symm hne]
    · simp [Map.insertSorted, Map.find, hlt, ih]

theorem Map.find_emplace_self {α : Type} (m : Map α) (k : HANDLE) (v : α) :
    (m.emplace k v).find k = some ((m.find k).getD v) := by
  unfold Map.emplace
  cases hk : m.find k with
  | none => simpa using Map.find_insertSorted_self m k v hk
  | some r => simpa using hk

theorem Map.find_emplace_of_find {α : Type} (m : Map α) (k k₀ : HANDLE) (v r : α)
    (h : m.find k₀ = some r) : (m.emplace k v).find k₀ = some r := by
  unfold Map.emplace
  cases hk : m.find k with
  | some _ => simpa using h
  | none =>
    have hne : k₀ ≠ k := by
      rintro rfl
      rw [hk] at h
      cases h
    simpa [Map.find_insertSorted_ne m k k₀ v hne] using h

theorem Map.find_erase_self {α : Type} (m : Map α) (k : HANDLE) :
    (m.erase k).find k = none := by
  induction m with
  | nil => simp [Map.erase, Map.find]
  | cons p rest ih =>
    obtain ⟨k', v'⟩ := p
    by_cases heq : k' = k
    · simpa [Map.erase, heq] using ih
    · simpa [Map.erase, List.filter_cons, heq, Map.find] using ih

theorem Map.find_erase_ne {α : Type} (m : Map α) (k k₀ : HANDLE) (hne : k₀ ≠ k) :
    (m.erase k).find k₀ = m.find k₀ := by
  induction m with
  | nil => simp [Map.erase, Map.find]
  | cons p rest ih =>
    obtain ⟨k', v'⟩ := p
    have ih' : Map.find (List.filter (fun p => !decide (p.1 = k)) rest) k₀ = Map.find rest k₀ := by
      simpa [Map.erase] using ih
    by_cases heq : k' = k
    · subst heq
      have hne' : ¬ k' = k₀ := fun h => hne h.symm
      simp [Map.erase, Map.find, hne', ih']
    · by_cases h0 : k' = k₀
      · subst h0
        simp [Map.erase, List.filter_cons, heq, Map.find]
      · simp [Map.erase, List.filter_cons, heq, Map.find, h0, ih']

/-! ## What the building blocks leave alone -/

section Frame

variable {W : Type}

@[simp] theorem State.call_dev (s : State W) (e : Event) (w : W) : (s.call e w).dev = s.dev := rfl
@[simp] theorem State.call_trace (s : State W) (e : Event) (w : W) :
    (s.call e w).trace = s.trace ++ [e] := rfl
@[simp] theorem State.call_world (s : State W) (e : Event) (w : W) : (s.call e w).world = w := rfl
@[simp] theorem State.call_gdiHandle (s : State W) (e : Event) (w : W) :
    (s.call e w).g_gdiResourceHandle = s.g_gdiResourceHandle := rfl
@[simp] theorem State.call_gdiResource (s : State W) (e : Event) (w : W) :
    (s.call e w).g_gdiResource = s.g_gdiResource := rfl
@[simp] theorem State.call_flushEnabled (s : State W) (e : Event) (w : W) :
    (s.call e w).s_isFlushEnabled = s.s_isFlushEnabled := rfl
@[simp] theorem State.call_nextResourceId (s : State W) (e : Event) (w : W) :
    (s.call e w).nextResourceId = s.nextResourceId := rfl
@[simp] theorem State.setDev_dev (s : State W) (d : Device) : (s.setDev d).dev = d := rfl
@[simp] theorem State.setDev_trace (s : State W) (d : Device) : (s.setDev d).trace = s.trace := rfl
@[simp] theorem State.setDev_world (s : State W) (d : Device) : (s.setDev d).world = s.world := rfl
@[simp] theorem State.setDev_gdiHandle (s : State W) (d : Device) :
    (s.setDev d).g_gdiResourceHandle = s.g_gdiResourceHandle := rfl
@[simp] theorem State.setDev_gdiResource (s : State W) (d : Device) :
    (s.setDev d).g_gdiResource = s.g_gdiResource := rfl
@[simp] theorem State.setDev_flushEnabled (s : State W) (d : Device) :
    (s.setDev d).s_isFlushEnabled = s.s_isFlushEnabled := rfl
@[simp] theorem State.setDev_nextResourceId (s : State W) (d : Device) :
    (s.setDev d).nextResourceId = s.nextResourceId := rfl

@[simp] theorem Device.flushPrimitives_resources (env : Env W) (s : State W) :
    (Device.flushPrimitives env s).dev.m_resources = s.dev.m_resources := rfl
@[simp] theorem Device.flushPrimitives_device (env : Env W) (s : State W) :
    (Device.flushPrimitives env s).dev.m_device = s.dev.m_device := rfl
@[simp] theorem Device.flushPrimitives_renderTarget (env : Env W) (s : State W) :
    (Device.flushPrimitives env s).dev.m_renderTarget = s.dev.m_renderTarget := rfl
@[simp] theorem Device.flushPrimitives_renderTargetSub (env : Env W) (s : State W) :
    (Device.flushPrimitives env s).dev.m_renderTargetSubResourceIndex =
      s.dev.m_renderTargetSubResourceIndex := rfl
@[simp] theorem Device.flushPrimitives_sharedPrimary (env : Env W) (s : State W) :
    (Device.flushPrimitives env s).dev.m_sharedPrimary = s.dev.m_sharedPrimary := rfl
@[simp] theorem Device.flushPrimitives_sysMem (env : Env W) (s : State W) :
    (Device.flushPrimitives env s).dev.m_drawPrimitive.m_sysMemVertexBuffers =
      s.dev.m_drawPrimitive.m_sysMemVertexBuffers := rfl
@[simp] theorem Device.flushPrimitives_batched (env : Env W) (s : State W) :
    (Device.flushPrimitives env s).dev.m_drawPrimitive.m_batched = [] := rfl
@[simp] theorem Device.flushPrimitives_trace (env : Env W) (s : State W) :
    (Device.flushPrimitives env s).trace =
      s.trace ++ [.flushPrimitives s.dev.m_drawPrimitive.m_batched] := rfl
@[simp] theorem Device.flushPrimitives_gdiHandle (env : Env W) (s : State W) :
    (Device.flushPrimitives env s).g_gdiResourceHandle = s.g_gdiResourceHandle := rfl
@[simp] theorem Device.flushPrimitives_gdiResource (env : Env W) (s : State W) :
    (Device.flushPrimitives env s).g_gdiResource = s.g_gdiResource := rfl

@[simp] theorem Device.prepareForRendering_dev (env : Env W) (s : State W) (h : HANDLE)
    (i : UINT) (b : Bool) : (Device.prepareForRendering env s h i b).dev = s.dev := by
  unfold Device.prepareForRendering
  split <;> rfl

@[simp] theorem Device.prepareForRendering0_dev (env : Env W) (s : State W) :
    (Device.prepareForRendering0 env s).dev = s.dev := by
  unfold Device.prepareForRendering0
  split <;> rfl

@[simp] theorem Device.present1_prepare_dev (env : Env W) (s : State W)
    (l : List D3DDDIARG_PRESENTSURFACE) : (Device.present1_prepare env s l).dev = s.dev := by
  induction l generalizing s with
  | nil => rfl
  | cons src rest ih => simp [Device.present1_prepare, ih]

@[simp] theorem Device.destroyResource_syncGdi_dev (env : Env W) (s : State W) (h : HANDLE) :
    (Device.destroyResource_syncGdi env s h).dev = s.dev := by
  unfold Device.destroyResource_syncGdi
  split
  · split <;> rfl
  · rfl

@[simp] theorem Device.destroyResource_pre_resources (env : Env W) (s : State W) (h : HANDLE) :
    (Device.destroyResource_pre env s h).dev.m_resources = s.dev.m_resources := by
  unfold Device.destroyResource_pre
  simp only []
  split <;> simp

@[simp] theorem Device.destroyResource_cleanup_resources (s : State W) (h : HANDLE) :
    (Device.destroyResource_cleanup s h).dev.m_resources = s.dev.m_resources.erase h := by
  unfold Device.destroyResource_cleanup
  simp only [State.setDev_dev]
  split <;> split <;> rfl

/-- A resource found in the registry is found again after a construction
through `createResourceImpl`, whatever handle the new object has. -/
theorem Device.createResourceImpl_find
    (ctor : W → HANDLE → D3DDDIARG_CREATERESOURCE2 →
      (HRESULT ⊕ HANDLE) × D3DDDIARG_CREATERESOURCE2 × W)
    (s : State W) (data : D3DDDIARG_CREATERESOURCE2) (h : HANDLE) (r : Resource)
    (hf : s.dev.m_resources.find h = some r) :
    (Device.createResourceImpl ctor s data).2.2.dev.m_resources.find h = some r := by
  unfold Device.createResourceImpl
  simp only []
  split
  · simpa using hf
  · split <;> simpa using Map.find_emplace_of_find _ _ _ _ _ hf

/-- Every call other than a successful `destroyResource(h)` leaves the entry
of `h` in the registry as it is. -/
theorem Op.exec_find (env : Env W) (s : State W) (op : Op) (h : HANDLE) (r : Resource)
    (hf : s.dev.m_resources.find h = some r) (hd : op.destroys env s h = false) :
    (op.exec env s).2.dev.m_resources.find h = some r := by
  cases op with
  | createResource data => exact Device.createResourceImpl_find _ s data h r hf
  | createResource2 data => exact Device.createResourceImpl_find _ s data h r hf
  | destroyResource resource =>
    simp only [Op.destroys, Op.exec, Bool.and_eq_false_imp, decide_eq_true_eq] at hd
    simp only [Op.exec, Device.destroyResource]
    split
    · rename_i hs
      have hne : h ≠ resource := by
        rintro rfl
        have := hd rfl
        simp only [Device.destroyResource] at this
        split at this
        · simp [hs] at this
        · rename_i hs'
          exact hs' hs
      simp only [Device.destroyResource_cleanup_resources, State.call_dev,
        Device.destroyResource_pre_resources]
      rw [Map.find_erase_ne _ _ _ hne]
      exact hf
    · simpa using hf
  | blt data =>
    simp only [Op.exec, Device.blt]
    split <;> simpa using hf
  | clear data numRect rect =>
    simp only [Op.exec, Device.clear]
    split <;> simpa using hf
  | colorFill data =>
    simp only [Op.exec, Device.colorFill]
    split <;> simpa using hf
  | drawIndexedPrimitive2 data indexBuffer flagBuffer =>
    simpa [Op.exec, Device.drawIndexedPrimitive2] using hf
  | drawPrimitive data flagBuffer => simpa [Op.exec, Device.drawPrimitive] using hf
  | flush =>
    simp only [Op.exec, Device.flush]
    split <;> simpa using hf
  | flush1 FlushFlags =>
    simp only [Op.exec, Device.flush1]
    split <;> simpa using hf
  | lock data =>
    simp only [Op.exec, Device.lock]
    split <;> simpa using hf
  | openResource data =>
    simp only [Op.exec, Device.openResource]
    split <;> simpa using hf
  | present data => simpa [Op.exec, Device.present] using hf
  | present1 data => simpa [Op.exec, Device.present1] using hf
  | setRenderTarget data =>
    simp only [Op.exec, Device.setRenderTarget]
    split <;> simpa using hf
  | setStreamSource data => simpa [Op.exec, Device.setStreamSource] using hf
  | setStreamSourceUm data umBuffer => simpa [Op.exec, Device.setStreamSourceUm] using hf
  | unlock data =>
    simp only [Op.exec, Device.unlock]
    split <;> simpa using hf
  | setReadOnlyGdiLock enable => simpa [Op.exec, Device.setReadOnlyGdiLock] using hf
  | enableFlush enable => simpa [Op.exec, Device.enableFlush] using hf

end Frame

/-! ## C1: the registry round trip -/

section Registry

variable {W : Type}

/-- A run without a successful `destroyResource(h)` keeps the entry of `h`. -/
theorem runOps_find (env : Env W) (ops : List Op) (s : State W) (h : HANDLE) (r : Resource)
    (hf : s.dev.m_resources.find h = some r) (hn : noDestroyOf env s h ops) :
    (runOps env s ops).dev.m_resources.find h = some r := by
  induction ops generalizing s with
  | nil => exact hf
  | cons op rest ih => exact ih _ (Op.exec_find env s op h r hf hn.1) hn.2

/-- A construction that yields handle `h` returns `S_OK` and leaves under `h`
the object that was there, or else the new one. -/
theorem Device.createResourceImpl_registers
    (ctor : W → HANDLE → D3DDDIARG_CREATERESOURCE2 →
      (HRESULT ⊕ HANDLE) × D3DDDIARG_CREATERESOURCE2 × W)
    (s : State W) (data : D3DDDIARG_CREATERESOURCE2) (h : HANDLE)
    (hc : (ctor s.world s.dev.m_device data).1 = .inr h) :
    (Device.createResourceImpl ctor s data).1 = S_OK ∧
      (Device.createResourceImpl ctor s data).2.2.dev.m_resources.find h =
        some ((s.dev.m_resources.find h).getD { id := s.nextResourceId, handle := h }) := by
  unfold Device.createResourceImpl
  simp only [hc]
  split <;> simp [Map.find_emplace_self]

/-- A successful `destroyResource(h)` leaves no entry for `h`. -/
theorem Device.destroyResource_find_self (env : Env W) (s : State W) (h : HANDLE)
    (hs : SUCCEEDED (Device.destroyResource env s h).1 = true) :
    Device.getResource (Device.destroyResource env s h).2 h = none := by
  unfold Device.destroyResource at hs ⊢
  simp only [] at hs ⊢
  split
  · simp [Device.getResource, Map.find_erase_self]
  · rename_i hn
    rw [if_neg hn] at hs
    exact absurd hs hn

/-- Claim C1. Resource registry round trip: when a `createResource` or
`createResource2` call constructs a Resource with handle `h`, the call returns
`S_OK` and `getResource(h)` returns a Resource `r` (the object already
registered under `h`, else the new one); after any sequence of further calls
none of which is a `destroyResource(h)` that succeeds in the driver,
`getResource(h)` still returns the same `r`; and a `destroyResource(h)` that
then succeeds leaves `getResource(h)` null. -/
theorem C1_registry_round_trip (env : Env W) (s : State W) (op : Op) (h : HANDLE)
    (hc : op.createdHandle env s = some h) :
    (op.exec env s).1 = S_OK ∧
    ∃ r : Resource,
      r = (Device.getResource s h).getD { id := s.nextResourceId, handle := h } ∧
      Device.getResource (op.exec env s).2 h = some r ∧
      ∀ ops : List Op, noDestroyOf env (op.exec env s).2 h ops →
        Device.getResource (runOps env (op.exec env s).2 ops) h = some r ∧
        (SUCCEEDED (Device.destroyResource env (runOps env (op.exec env s).2 ops) h).1 = true →
          Device.getResource
            (Device.destroyResource env (runOps env (op.exec env s).2 ops) h).2 h = none) := by
  have key : (op.exec env s).1 = S_OK ∧
      (op.exec env s).2.dev.m_resources.find h =
        some ((s.dev.m_resources.find h).getD { id := s.nextResourceId, handle := h }) := by
    cases op with
    | createResource data =>
      simp only [Op.createdHandle] at hc
      split at hc
      · rename_i h' hh
        cases hc
        exact Device.createResourceImpl_registers env.Resource_ctor s data h hh
      · cases hc
    | createResource2 data =>
      simp only [Op.createdHandle] at hc
      split at hc
      · rename_i h' hh
        cases hc
        exact Device.createResourceImpl_registers env.Resource_ctor2 s data h hh
      · cases hc
    | _ => simp [Op.createdHandle] at hc
  refine ⟨key.1, _, rfl, key.2, fun ops hn => ⟨?_, ?_⟩⟩
  · exact runOps_find env ops _ h _ key.2 hn
  · exact Device.destroyResource_find_self env _ h

end Registry

/-- Witness of C1 on a simulated driver that refuses the first
`destroyResource(100)`: the creation yields handle 100. -/
theorem C1_registry_round_trip_witness :
    (Op.createResource Device.probeCreateData).createdHandle (simEnv (failingDriver 2))
        (initialState 0x200) = some 100 ∧
    noDestroyOf (simEnv (failingDriver 2))
      ((Op.createResource Device.probeCreateData).exec (simEnv (failingDriver 2))
        (initialState 0x200)).2 100 C1_ops ∧
    Device.getResource
      (runOps (simEnv (failingDriver 2))
        ((Op.createResource Device.probeCreateData).exec (simEnv (failingDriver 2))
          (initialState 0x200)).2 C1_ops) 100 = some { id := 0, handle := 100 } ∧
    Device.getResource
      (Device.destroyResource (simEnv (failingDriver 2))
        (runOps (simEnv (failingDriver 2))
          ((Op.createResource Device.probeCreateData).exec (simEnv (failingDriver 2))
            (initialState 0x200)).2 C1_ops) 100).2 100 = none := by
  have hc : (Op.createResource Device.probeCreateData).createdHandle (simEnv (failingDriver 2))
      (initialState 0x200) = some 100 := by decide
  have hn : noDestroyOf (simEnv (failingDriver 2))
      ((Op.createResource Device.probeCreateData).exec (simEnv (failingDriver 2))
        (initialState 0x200)).2 100 C1_ops := by
    simp only [C1_ops, noDestroyOf, Op.destroys, and_true]
    decide
  obtain ⟨_, r, hr, _, hall⟩ :=
    C1_registry_round_trip (simEnv (failingDriver 2)) (initialState 0x200)
      (.createResource Device.probeCreateData) 100 hc
  have hr' : r = { id := 0, handle := 100 } := by
    rw [hr]
    decide
  refine ⟨hc, hn, ?_, ?_⟩
  · rw [← hr']
    exact (hall C1_ops hn).1
  · exact (hall C1_ops hn).2 (by decide)

/-! ## What the building blocks make of a flushed state -/

section Flushed

variable {W : Type}

theorem Device.flushPrimitives_eq (env : Env W) (s : State W) :
    Device.flushPrimitives env s = s.flushedThen [] (committedWorld env s) := rfl

theorem State.flushedThen_call (s : State W) (evs : List Event) (w : W) (e : Event) (w' : W) :
    (s.flushedThen evs w).call e w' = s.flushedThen (evs ++ [e]) w' := by
  simp [State.flushedThen, State.call]

theorem State.flushedThen_world (s : State W) (evs : List Event) (w : W) :
    (s.flushedThen evs w).world = w := rfl

theorem State.flushedThen_device (s : State W) (evs : List Event) (w : W) :
    (s.flushedThen evs w).dev.m_device = s.dev.m_device := rfl

theorem State.flushedThen_resources (s : State W) (evs : List Event) (w : W) :
    (s.flushedThen evs w).dev.m_resources = s.dev.m_resources := rfl

theorem State.flushedThen_sharedPrimary (s : State W) (evs : List Event) (w : W) :
    (s.flushedThen evs w).dev.m_sharedPrimary = s.dev.m_sharedPrimary := rfl

theorem State.flushedThen_gdiResource (s : State W) (evs : List Event) (w : W) :
    (s.flushedThen evs w).g_gdiResource = s.g_gdiResource := rfl

theorem State.flushedThen_batched (s : State W) (evs : List Event) (w : W) :
    (s.flushedThen evs w).dev.m_drawPrimitive.m_batched = [] := rfl

theorem State.flushedThen_trace (s : State W) (evs : List Event) (w : W) :
    (s.flushedThen evs w).trace =
      s.trace ++ Event.flushPrimitives s.dev.m_drawPrimitive.m_batched :: evs := rfl

theorem Device.prepareForRendering_flushedThen (env : Env W) (s : State W) (evs : List Event)
    (w : W) (h : HANDLE) (i : UINT) (b : Bool) :
    Device.prepareForRendering env (s.flushedThen evs w) h i b =
      s.flushedThen (evs ++ prepareEvents s h i b) (preparedWorld env s w h i b) := by
  unfold Device.prepareForRendering prepareEvents preparedWorld Device.getResource
  rw [State.flushedThen_resources]
  cases s.dev.m_resources.find h with
  | none => simp
  | some r => simp [State.flushedThen_call, State.flushedThen_world]

theorem Device.present1_prepare_flushedThen (env : Env W) (s : State W)
    (l : List D3DDDIARG_PRESENTSURFACE) (evs : List Event) (w : W) :
    Device.present1_prepare env (s.flushedThen evs w) l =
      s.flushedThen (evs ++ present1Events s l) (present1World env s w l) := by
  induction l generalizing evs w with
  | nil => simp [Device.present1_prepare, present1Events, present1World]
  | cons src rest ih =>
    simp only [Device.present1_prepare, present1Events, present1World,
      Device.prepareForRendering_flushedThen, ih, List.append_assoc]

theorem Device.destroyResource_syncGdi_flushedThen (env : Env W) (s : State W)
    (evs : List Event) (w : W) (h : HANDLE) :
    Device.destroyResource_syncGdi env (s.flushedThen evs w) h =
      s.flushedThen (evs ++ destroySyncEvents s h) (destroySyncWorld env s w h) := by
  unfold Device.destroyResource_syncGdi destroySyncEvents destroySyncWorld
  rw [State.flushedThen_gdiResource]
  cases s.g_gdiResource with
  | none => simp
  | some g =>
    by_cases hg : h = g.handle
    · simp [hg, State.flushedThen_call, State.flushedThen_world]
    · simp [hg]

theorem Device.destroyResource_pre_eq (env : Env W) (s : State W) (h : HANDLE) :
    Device.destroyResource_pre env s h =
      s.flushedThen (destroySyncEvents s h ++ destroyReleaseEvents s h)
        (destroyPreWorld env s h) := by
  unfold Device.destroyResource_pre destroyReleaseEvents destroyPreWorld destroyReleaseWorld
  simp only [Device.flushPrimitives_eq, Device.destroyResource_syncGdi_flushedThen,
    State.flushedThen_sharedPrimary, State.flushedThen_world, List.nil_append]
  by_cases hs : h = s.dev.m_sharedPrimary
  · simp [hs, State.flushedThen_call]
  · simp [hs]

end Flushed

/-! ## C2: state-observing calls flush first -/

section FlushFirst

variable {W : Type}

theorem Device.prepareForRendering_trace (env : Env W) (s : State W) (h : HANDLE) (i : UINT)
    (b : Bool) : (Device.prepareForRendering env s h i b).trace = s.trace ++ prepareEvents s h i b := by
  unfold Device.prepareForRendering prepareEvents Device.getResource
  split <;> simp_all

theorem Device.present1_prepare_trace (env : Env W) (l : List D3DDDIARG_PRESENTSURFACE)
    (s : State W) : ∃ rest, (Device.present1_prepare env s l).trace = s.trace ++ rest := by
  induction l generalizing s with
  | nil => exact ⟨[], by simp [Device.present1_prepare]⟩
  | cons src tl ih =>
    obtain ⟨rest, hrest⟩ := ih (Device.prepareForRendering env s src.hResource src.SubResourceIndex true)
    refine ⟨prepareEvents s src.hResource src.SubResourceIndex true ++ rest, ?_⟩
    simp [Device.present1_prepare, hrest, Device.prepareForRendering_trace]

theorem Device.lock_eq (env : Env W) (s : State W) (data : D3DDDIARG_LOCK) :
    (Device.lock env s data).2.2 =
      (match Device.getResource s data.hResource with
        | some r => s.flushedThen [.Resource_lock r data]
            (env.Resource_lock (committedWorld env s) r data).2.2
        | none => s.flushedThen [.pfnLock data]
            (env.pfnLock (committedWorld env s) s.dev.m_device data).2.2) := by
  unfold Device.lock Device.getResource
  simp only [Device.flushPrimitives_eq, State.flushedThen_resources]
  cases s.dev.m_resources.find data.hResource <;>
    simp [State.flushedThen_call, State.flushedThen_world, State.flushedThen_device]

theorem Device.unlock_eq (env : Env W) (s : State W) (data : D3DDDIARG_UNLOCK) :
    (Device.unlock env s data).2 =
      (match Device.getResource s data.hResource with
        | some r => s.flushedThen [.Resource_unlock r data]
            (env.Resource_unlock (committedWorld env s) r data).2
        | none => s.flushedThen [.pfnUnlock data]
            (env.pfnUnlock (committedWorld env s) s.dev.m_device data).2) := by
  unfold Device.unlock Device.getResource
  simp only [Device.flushPrimitives_eq, State.flushedThen_resources]
  cases s.dev.m_resources.find data.hResource <;>
    simp [State.flushedThen_call, State.flushedThen_world, State.flushedThen_device]

theorem Device.blt_eq (env : Env W) (s : State W) (data : D3DDDIARG_BLT) :
    (Device.blt env s data).2 =
      (match Device.getResource s data.hDstResource with
        | some r => s.flushedThen [.Resource_blt r data]
            (env.Resource_blt (committedWorld env s) r data).2
        | none =>
          s.flushedThen
            (prepareEvents s data.hSrcResource data.SrcSubResourceIndex true ++ [.pfnBlt data])
            (env.pfnBlt
              (preparedWorld env s (committedWorld env s) data.hSrcResource
                data.SrcSubResourceIndex true)
              s.dev.m_device data).2) := by
  unfold Device.blt Device.getResource
  simp only [Device.flushPrimitives_eq, State.flushedThen_resources]
  cases s.dev.m_resources.find data.hDstResource <;>
    simp [State.flushedThen_call, State.flushedThen_world, State.flushedThen_device,
      Device.prepareForRendering_flushedThen]

theorem Device.colorFill_eq (env : Env W) (s : State W) (data : D3DDDIARG_COLORFILL) :
    (Device.colorFill env s data).2 =
      (match Device.getResource s data.hResource with
        | some r => s.flushedThen [.Resource_colorFill r data]
            (env.Resource_colorFill (committedWorld env s) r data).2
        | none => s.flushedThen [.pfnColorFill data]
            (env.pfnColorFill (committedWorld env s) s.dev.m_device data).2) := by
  unfold Device.colorFill Device.getResource
  simp only [Device.flushPrimitives_eq, State.flushedThen_resources]
  cases s.dev.m_resources.find data.hResource <;>
    simp [State.flushedThen_call, State.flushedThen_world, State.flushedThen_device]

theorem Device.present_eq (env : Env W) (s : State W) (data : D3DDDIARG_PRESENT) :
    Device.present env s data =
      ((env.pfnPresent
          (preparedWorld env s (committedWorld env s) data.hSrcResource
            data.SrcSubResourceIndex true)
          s.dev.m_device data).1,
        s.flushedThen
          (prepareEvents s data.hSrcResource data.SrcSubResourceIndex true ++ [.pfnPresent data])
          (env.pfnPresent
            (preparedWorld env s (committedWorld env s) data.hSrcResource
              data.SrcSubResourceIndex true)
            s.dev.m_device data).2) := by
  unfold Device.present
  simp [Device.flushPrimitives_eq, State.flushedThen_call, State.flushedThen_world,
    State.flushedThen_device, Device.prepareForRendering_flushedThen]

theorem Device.present1_eq (env : Env W) (s : State W) (data : D3DDDIARG_PRESENT1) :
    Device.present1 env s data =
      ((env.pfnPresent1 (present1World env s (committedWorld env s) data.phSrcResources)
          s.dev.m_device data).1,
        s.flushedThen (present1Events s data.phSrcResources ++ [.pfnPresent1 data])
          (env.pfnPresent1 (present1World env s (committedWorld env s) data.phSrcResources)
            s.dev.m_device data).2) := by
  unfold Device.present1
  simp [Device.flushPrimitives_eq, State.flushedThen_call, State.flushedThen_world,
    State.flushedThen_device, Device.present1_prepare_flushedThen]

theorem startsWithFlush_flushedThen (s : State W) (evs : List Event) (w : W) :
    startsWithFlush s (s.flushedThen evs w) := ⟨evs, rfl⟩

/-- Claim C2. Ordering invariant: in every state and for every argument, each
of `lock`, `unlock`, `blt`, `colorFill`, `present` and `present1` performs
`flushPrimitives` as its first action. `flushPrimitives` hands the pending
batch to the driver and leaves the batcher empty; the state each call ends in
is the flushed state (batcher empty, the commit first on the trace) followed by
the calls it makes, and the world it ends in is what its Resource method or
original entry made of the world the commit left, `committedWorld`, never of
the world the call started in. -/
theorem C2_state_observing_calls_flush_first (env : Env W) (s : State W)
    (lockData : D3DDDIARG_LOCK) (unlockData : D3DDDIARG_UNLOCK) (bltData : D3DDDIARG_BLT)
    (fillData : D3DDDIARG_COLORFILL) (presentData : D3DDDIARG_PRESENT)
    (present1Data : D3DDDIARG_PRESENT1) :
    ((Device.flushPrimitives env s).world =
        env.commitBatch s.world s.dev.m_device s.dev.m_drawPrimitive.m_batched ∧
      (Device.flushPrimitives env s).dev.m_drawPrimitive.m_batched = [] ∧
      Device.flushPrimitives env s = s.flushedThen [] (committedWorld env s)) ∧
    (startsWithFlush s (Device.lock env s lockData).2.2 ∧
      startsWithFlush s (Device.unlock env s unlockData).2 ∧
      startsWithFlush s (Device.blt env s bltData).2 ∧
      startsWithFlush s (Device.colorFill env s fillData).2 ∧
      startsWithFlush s (Device.present env s presentData).2 ∧
      startsWithFlush s (Device.present1 env s present1Data).2) ∧
    ((Device.lock env s lockData).2.2.dev.m_drawPrimitive.m_batched = [] ∧
      (Device.unlock env s unlockData).2.dev.m_drawPrimitive.m_batched = [] ∧
      (Device.blt env s bltData).2.dev.m_drawPrimitive.m_batched = [] ∧
      (Device.colorFill env s fillData).2.dev.m_drawPrimitive.m_batched = [] ∧
      (Device.present env s presentData).2.dev.m_drawPrimitive.m_batched = [] ∧
      (Device.present1 env s present1Data).2.dev.m_drawPrimitive.m_batched = []) ∧
    (Device.lock env s lockData).2.2 =
      (match Device.getResource s lockData.hResource with
        | some r => s.flushedThen [.Resource_lock r lockData]
            (env.Resource_lock (committedWorld env s) r lockData).2.2
        | none => s.flushedThen [.pfnLock lockData]
            (env.pfnLock (committedWorld env s) s.dev.m_device lockData).2.2) ∧
    (Device.unlock env s unlockData).2 =
      (match Device.getResource s unlockData.hResource with
        | some r => s.flushedThen [.Resource_unlock r unlockData]
            (env.Resource_unlock (committedWorld env s) r unlockData).2
        | none => s.flushedThen [.pfnUnlock unlockData]
            (env.pfnUnlock (committedWorld env s) s.dev.m_device unlockData).2) ∧
    (Device.blt env s bltData).2 =
      (match Device.getResource s bltData.hDstResource with
        | some r => s.flushedThen [.Resource_blt r bltData]
            (env.Resource_blt (committedWorld env s) r bltData).2
        | none =>
          s.flushedThen
            (prepareEvents s bltData.hSrcResource bltData.SrcSubResourceIndex true ++
              [.pfnBlt bltData])
            (env.pfnBlt
              (preparedWorld env s (committedWorld env s) bltData.hSrcResource
                bltData.SrcSubResourceIndex true)
              s.dev.m_device bltData).2) ∧
    (Device.colorFill env s fillData).2 =
      (match Device.getResource s fillData.hResource with
        | some r => s.flushedThen [.Resource_colorFill r fillData]
            (env.Resource_colorFill (committedWorld env s) r fillData).2
        | none => s.flushedThen [.pfnColorFill fillData]
            (env.pfnColorFill (committedWorld env s) s.dev.m_device fillData).2) ∧
    (Device.present env s presentData).2 =
      s.flushedThen
        (prepareEvents s presentData.hSrcResource presentData.SrcSubResourceIndex true ++
          [.pfnPresent presentData])
        (env.pfnPresent
          (preparedWorld env s (committedWorld env s) presentData.hSrcResource
            presentData.SrcSubResourceIndex true)
          s.dev.m_device presentData).2 ∧
    (Device.present1 env s present1Data).2 =
      s.flushedThen (present1Events s present1Data.phSrcResources ++ [.pfnPresent1 present1Data])
        (env.pfnPresent1
          (present1World env s (committedWorld env s) present1Data.phSrcResources)
          s.dev.m_device present1Data).2 := by
  have hl := Device.lock_eq env s lockData
  have hu := Device.unlock_eq env s unlockData
  have hb := Device.blt_eq env s bltData
  have hc := Device.colorFill_eq env s fillData
  have hp := congrArg Prod.snd (Device.present_eq env s presentData)
  have hq := congrArg Prod.snd (Device.present1_eq env s present1Data)
  simp only [] at hp hq
  have key : ∀ {t : State W} {o : Option Resource} {f : Resource → State W} {g : State W},
      t = (match o with | some r => f r | none => g) →
      (∀ r, startsWithFlush s (f r) ∧ (f r).dev.m_drawPrimitive.m_batched = []) →
      (startsWithFlush s g ∧ g.dev.m_drawPrimitive.m_batched = []) →
      startsWithFlush s t ∧ t.dev.m_drawPrimitive.m_batched = [] := by
    intro t o f g ht hf hg
    subst ht
    cases o with
    | none => exact hg
    | some r => exact hf r
  have base : ∀ (evs : List Event) (w : W),
      startsWithFlush s (s.flushedThen evs w) ∧
        (s.flushedThen evs w).dev.m_drawPrimitive.m_batched = [] :=
    fun evs w => ⟨startsWithFlush_flushedThen s evs w, rfl⟩
  have kl := key hl (fun _ => base _ _) (base _ _)
  have ku := key hu (fun _ => base _ _) (base _ _)
  have kb := key hb (fun _ => base _ _) (base _ _)
  have kc := key hc (fun _ => base _ _) (base _ _)
  have kp : startsWithFlush s (Device.present env s presentData).2 ∧
      (Device.present env s presentData).2.dev.m_drawPrimitive.m_batched = [] := by
    rw [hp]; exact base _ _
  have kq : startsWithFlush s (Device.present1 env s present1Data).2 ∧
      (Device.present1 env s present1Data).2.dev.m_drawPrimitive.m_batched = [] := by
    rw [hq]; exact base _ _
  exact ⟨⟨rfl, rfl, rfl⟩, ⟨kl.1, ku.1, kb.1, kc.1, kp.1, kq.1⟩,
    ⟨kl.2, ku.2, kb.2, kc.2, kp.2, kq.2⟩, hl, hu, hb, hc, hp, hq⟩

end FlushFirst

/-- Witness of C2 on the recording driver, in a state with one draw pending
where no resource is registered: for `colorFill` and for `lock` the driver
sees the pending draw committed first and the original entry after it, and
the batcher is left empty. -/
theorem C2_state_observing_calls_flush_first_witness :
    (Device.colorFill recordingEnv C10_state.recorded C2_fill).2.world =
      [.flushPrimitives
          [.draw { PrimitiveType := 4, VStart := 0, PrimitiveCount := 1 } []],
        .pfnColorFill C2_fill] ∧
    (Device.lock recordingEnv C10_state.recorded (Device.probeLock 7)).2.2.world =
      [.flushPrimitives
          [.draw { PrimitiveType := 4, VStart := 0, PrimitiveCount := 1 } []],
        .pfnLock (Device.probeLock 7)] ∧
    (Device.colorFill recordingEnv C10_state.recorded
      C2_fill).2.dev.m_drawPrimitive.m_batched = [] :=
  ⟨(congrArg State.world
      (C2_state_observing_calls_flush_first recordingEnv C10_state.recorded
        (Device.probeLock 7) (Device.probeUnlock 7) (Device.probeBlt 7 8) C2_fill C2_present
        C15_data).2.2.2.2.2.2.1).trans (by decide),
    (congrArg State.world
      (C2_state_observing_calls_flush_first recordingEnv C10_state.recorded
        (Device.probeLock 7) (Device.probeUnlock 7) (Device.probeBlt 7 8) C2_fill C2_present
        C15_data).2.2.2.1).trans (by decide),
    (C2_state_observing_calls_flush_first recordingEnv C10_state.recorded
      (Device.probeLock 7) (Device.probeUnlock 7) (Device.probeBlt 7 8) C2_fill C2_present
      C15_data).2.2.1.2.2.2.1⟩

/-! ## C3: a failed construction registers nothing -/

section CreateFailure

variable {W : Type}

theorem Device.createResourceImpl_throw
    (ctor : W → HANDLE → D3DDDIARG_CREATERESOURCE2 →
      (HRESULT ⊕ HANDLE) × D3DDDIARG_CREATERESOURCE2 × W)
    (s : State W) (data : D3DDDIARG_CREATERESOURCE2) (e : HRESULT)
    (hc : (ctor s.world s.dev.m_device data).1 = .inl e) :
    (Device.createResourceImpl ctor s data).1 = e ∧
      (Device.createResourceImpl ctor s data).2.2.dev = s.dev := by
  unfold Device.createResourceImpl
  simp [hc]

/-- Claim C3. `createResource` and `createResource2` are atomic on a
construction failure: when the constructor of the Resource throws an
`HResultException` with result code `r`, the call returns exactly `r`, the
registry holds the same handles (indeed the same entries) as before, and the
batcher is as before, so no system-memory vertex buffer was registered. -/
theorem C3_create_atomic_on_construction_failure (env : Env W) (s : State W) (op : Op)
    (r : HRESULT) (hc : op.constructionError env s = some r) :
    (op.exec env s).1 = r ∧
    (op.exec env s).2.dev.m_resources.keys = s.dev.m_resources.keys ∧
    (op.exec env s).2.dev.m_resources = s.dev.m_resources ∧
    (op.exec env s).2.dev.m_drawPrimitive = s.dev.m_drawPrimitive := by
  have key : (op.exec env s).1 = r ∧ (op.exec env s).2.dev = s.dev := by
    cases op with
    | createResource data =>
      simp only [Op.constructionError] at hc
      split at hc
      · rename_i e he
        cases hc
        exact Device.createResourceImpl_throw env.Resource_ctor s data r he
      · cases hc
    | createResource2 data =>
      simp only [Op.constructionError] at hc
      split at hc
      · rename_i e he
        cases hc
        exact Device.createResourceImpl_throw env.Resource_ctor2 s data r he
      · cases hc
    | _ => simp [Op.constructionError] at hc
  refine ⟨key.1, ?_, ?_, ?_⟩ <;> rw [key.2]

end CreateFailure

/-- Witness of C3: the simulated driver fails the creation of a system-memory
vertex buffer with `E_FAIL`. -/
theorem C3_create_atomic_on_construction_failure_witness :
    (Op.createResource sysMemVertexBufferData).constructionError (simEnv (failingDriver 0))
        (initialState 0x200) = some E_FAIL ∧
    ((Op.createResource sysMemVertexBufferData).exec (simEnv (failingDriver 0))
        (initialState 0x200)).1 = E_FAIL ∧
    ((Op.createResource sysMemVertexBufferData).exec (simEnv (failingDriver 0))
        (initialState 0x200)).2.dev.m_resources.keys = [] ∧
    ((Op.createResource sysMemVertexBufferData).exec (simEnv (failingDriver 0))
        (initialState 0x200)).2.dev.m_drawPrimitive.m_sysMemVertexBuffers = [] := by
  have h := C3_create_atomic_on_construction_failure (simEnv (failingDriver 0))
    (initialState 0x200) (.createResource sysMemVertexBufferData) E_FAIL (by decide)
  refine ⟨by decide, h.1, ?_, ?_⟩
  · rw [h.2.1]
    rfl
  · rw [h.2.2.2]
    rfl

/-! ## C4: the bookkeeping of `destroyResource` -/

section Destroy

variable {W : Type}

@[simp] theorem Device.destroyResource_syncGdi_gdiHandle (env : Env W) (s : State W)
    (h : HANDLE) :
    (Device.destroyResource_syncGdi env s h).g_gdiResourceHandle = s.g_gdiResourceHandle := by
  unfold Device.destroyResource_syncGdi
  split
  · split <;> rfl
  · rfl

@[simp] theorem Device.destroyResource_syncGdi_gdiResource (env : Env W) (s : State W)
    (h : HANDLE) :
    (Device.destroyResource_syncGdi env s h).g_gdiResource = s.g_gdiResource := by
  unfold Device.destroyResource_syncGdi
  split
  · split <;> rfl
  · rfl

theorem Device.destroyResource_pre_dev (env : Env W) (s : State W) (h : HANDLE) :
    (Device.destroyResource_pre env s h).dev = (Device.flushPrimitives env s).dev := by
  unfold Device.destroyResource_pre
  simp only []
  split <;> simp

theorem Device.destroyResource_pre_gdiHandle (env : Env W) (s : State W) (h : HANDLE) :
    (Device.destroyResource_pre env s h).g_gdiResourceHandle = s.g_gdiResourceHandle := by
  unfold Device.destroyResource_pre
  simp only []
  split <;> simp

theorem Device.destroyResource_pre_gdiResource (env : Env W) (s : State W) (h : HANDLE) :
    (Device.destroyResource_pre env s h).g_gdiResource = s.g_gdiResource := by
  unfold Device.destroyResource_pre
  simp only []
  split <;> simp

theorem Device.destroyResource_cleanup_sysMem (s : State W) (h : HANDLE) :
    (Device.destroyResource_cleanup s h).dev.m_drawPrimitive.m_sysMemVertexBuffers =
      s.dev.m_drawPrimitive.m_sysMemVertexBuffers.erase h := by
  unfold Device.destroyResource_cleanup
  simp only [State.setDev_dev]
  split <;> split <;> rfl

/-- Claim C4. `Device::destroyResource` returns the result of the original
`pfnDestroyResource` unchanged. When that result is a failure code, the handles
of the registry (indeed its entries), the shared-primary handle, the GDI
designation (handle and resource reference) and the vertex buffers registered
with the batcher are exactly as before the call. When it is a success, the
handle is no longer in the registry nor registered with the batcher. -/
theorem C4_destroy_bookkeeping_only_on_success (env : Env W) (s : State W)
    (resource : HANDLE) :
    (Device.destroyResource env s resource).1 =
      (env.pfnDestroyResource (Device.destroyResource_pre env s resource).world
        s.dev.m_device resource).1 ∧
    (SUCCEEDED (Device.destroyResource env s resource).1 = false →
      (Device.destroyResource env s resource).2.dev.m_resources.keys = s.dev.m_resources.keys ∧
      (Device.destroyResource env s resource).2.dev.m_resources = s.dev.m_resources ∧
      (Device.destroyResource env s resource).2.dev.m_sharedPrimary = s.dev.m_sharedPrimary ∧
      (Device.destroyResource env s resource).2.g_gdiResourceHandle = s.g_gdiResourceHandle ∧
      (Device.destroyResource env s resource).2.g_gdiResource = s.g_gdiResource ∧
      (Device.destroyResource env s resource).2.dev.m_drawPrimitive.m_sysMemVertexBuffers =
        s.dev.m_drawPrimitive.m_sysMemVertexBuffers) ∧
    (SUCCEEDED (Device.destroyResource env s resource).1 = true →
      Device.getResource (Device.destroyResource env s resource).2 resource = none ∧
      (Device.destroyResource env s resource).2.dev.m_resources =
        s.dev.m_resources.erase resource ∧
      (Device.destroyResource env s resource).2.dev.m_drawPrimitive.m_sysMemVertexBuffers.find
        resource = none ∧
      (Device.destroyResource env s resource).2.dev.m_drawPrimitive.m_sysMemVertexBuffers =
        s.dev.m_drawPrimitive.m_sysMemVertexBuffers.erase resource) := by
  have hdev := Device.destroyResource_pre_dev env s resource
  have hcode : (Device.destroyResource env s resource).1 =
      (env.pfnDestroyResource (Device.destroyResource_pre env s resource).world
        (Device.destroyResource_pre env s resource).dev.m_device resource).1 := by
    unfold Device.destroyResource
    simp only []
    split <;> rfl
  refine ⟨?_, ?_, ?_⟩
  · rw [hcode, hdev, Device.flushPrimitives_device]
  · intro hfail
    rw [hcode] at hfail
    have hst : (Device.destroyResource env s resource).2 =
        (Device.destroyResource_pre env s resource).call (.pfnDestroyResource resource)
          (env.pfnDestroyResource (Device.destroyResource_pre env s resource).world
            (Device.destroyResource_pre env s resource).dev.m_device resource).2 := by
      unfold Device.destroyResource
      simp only [hfail, Bool.false_eq_true, if_false]
    rw [hst]
    simp only [State.call_dev, State.call_gdiHandle, State.call_gdiResource, hdev,
      Device.destroyResource_pre_gdiHandle, Device.destroyResource_pre_gdiResource,
      Device.flushPrimitives_resources, Device.flushPrimitives_sharedPrimary,
      Device.flushPrimitives_sysMem, and_self]
  · intro hok
    rw [hcode] at hok
    have hst : (Device.destroyResource env s resource).2 =
        Device.destroyResource_cleanup
          ((Device.destroyResource_pre env s resource).call (.pfnDestroyResource resource)
            (env.pfnDestroyResource (Device.destroyResource_pre env s resource).world
              (Device.destroyResource_pre env s resource).dev.m_device resource).2) resource := by
      unfold Device.destroyResource
      simp only [hok, if_true]
    rw [hst]
    simp only [Device.getResource, Device.destroyResource_cleanup_resources,
      Device.destroyResource_cleanup_sysMem, State.call_dev, hdev,
      Device.flushPrimitives_resources, Device.flushPrimitives_sysMem, Map.find_erase_self,
      and_self]

end Destroy

/-- Witness of C4: on the state with a registered vertex buffer 100 that is
also the shared primary, a refused `destroyResource(100)` changes no
bookkeeping, and an accepted one removes the handle from registry and batcher. -/
theorem C4_destroy_bookkeeping_only_on_success_witness :
    (C4_state (failingDriver 1)).dev.m_resources.keys = [100] ∧
    (C4_state (failingDriver 1)).dev.m_drawPrimitive.m_sysMemVertexBuffers.keys = [100] ∧
    SUCCEEDED (Device.destroyResource (simEnv (failingDriver 1)) (C4_state (failingDriver 1))
      100).1 = false ∧
    (Device.destroyResource (simEnv (failingDriver 1)) (C4_state (failingDriver 1))
      100).2.dev.m_resources.keys = [100] ∧
    (Device.destroyResource (simEnv (failingDriver 1)) (C4_state (failingDriver 1))
      100).2.dev.m_sharedPrimary = 100 ∧
    SUCCEEDED (Device.destroyResource (simEnv goodDriver) (C4_state goodDriver) 100).1 = true ∧
    Device.getResource (Device.destroyResource (simEnv goodDriver) (C4_state goodDriver) 100).2
      100 = none := by
  have hf : SUCCEEDED (Device.destroyResource (simEnv (failingDriver 1))
      (C4_state (failingDriver 1)) 100).1 = false := by decide
  have hs : SUCCEEDED (Device.destroyResource (simEnv goodDriver) (C4_state goodDriver)
      100).1 = true := by decide
  have h1 := (C4_destroy_bookkeeping_only_on_success (simEnv (failingDriver 1))
    (C4_state (failingDriver 1)) 100).2.1 hf
  have h2 := (C4_destroy_bookkeeping_only_on_success (simEnv goodDriver)
    (C4_state goodDriver) 100).2.2 hs
  refine ⟨by decide, by decide, hf, ?_, ?_, hs, h2.1⟩
  · rw [h1.1]
    decide
  · rw [h1.2.2.1]
    decide

/-! ## C5: dispatch by registry membership -/

section Dispatch

variable {W : Type}

theorem Device.prepareForRendering_device (env : Env W) (s : State W) (h : HANDLE) (i : UINT)
    (b : Bool) : (Device.prepareForRendering env s h i b).dev.m_device = s.dev.m_device := by
  rw [Device.prepareForRendering_dev]

theorem prepareEvents_flushPrimitives (env : Env W) (s : State W) (h : HANDLE) (i : UINT)
    (b : Bool) : prepareEvents (Device.flushPrimitives env s) h i b = prepareEvents s h i b := rfl

/-- Claim C5. Dispatch by registry membership. For `blt` (keyed by
`hDstResource`), `colorFill`, `lock` and `unlock` (keyed by `hResource`): when
the key handle is registered, the call returns the result of the Resource
method of the same name, and after the flush that method is the only call made
(no entry of the original device table is called by `Device`); when it is not,
the call returns the result of the original entry, called with the unmodified
argument, and for `blt` the source `(hSrcResource, SrcSubResourceIndex)` is
first passed to `prepareForRendering` with read-only access. -/
theorem C5_dispatch_by_registry_membership (env : Env W) (s : State W)
    (bltData : D3DDDIARG_BLT) (fillData : D3DDDIARG_COLORFILL) (lockData : D3DDDIARG_LOCK)
    (unlockData : D3DDDIARG_UNLOCK) :
    ((∀ r, Device.getResource s bltData.hDstResource = some r →
        (Device.blt env s bltData).1 =
          (env.Resource_blt (Device.flushPrimitives env s).world r bltData).1 ∧
        (Device.blt env s bltData).2.trace =
          s.trace ++ [.flushPrimitives s.dev.m_drawPrimitive.m_batched,
            .Resource_blt r bltData]) ∧
      (Device.getResource s bltData.hDstResource = none →
        (Device.blt env s bltData).1 =
          (env.pfnBlt
            (Device.prepareForRendering env (Device.flushPrimitives env s) bltData.hSrcResource
              bltData.SrcSubResourceIndex true).world s.dev.m_device bltData).1 ∧
        (Device.blt env s bltData).2.trace =
          s.trace ++ [.flushPrimitives s.dev.m_drawPrimitive.m_batched] ++
            prepareEvents s bltData.hSrcResource bltData.SrcSubResourceIndex true ++
            [.pfnBlt bltData])) ∧
    ((∀ r, Device.getResource s fillData.hResource = some r →
        (Device.colorFill env s fillData).1 =
          (env.Resource_colorFill (Device.flushPrimitives env s).world r fillData).1 ∧
        (Device.colorFill env s fillData).2.trace =
          s.trace ++ [.flushPrimitives s.dev.m_drawPrimitive.m_batched,
            .Resource_colorFill r fillData]) ∧
      (Device.getResource s fillData.hResource = none →
        (Device.colorFill env s fillData).1 =
          (env.pfnColorFill (Device.flushPrimitives env s).world s.dev.m_device fillData).1 ∧
        (Device.colorFill env s fillData).2.trace =
          s.trace ++ [.flushPrimitives s.dev.m_drawPrimitive.m_batched,
            .pfnColorFill fillData])) ∧
    ((∀ r, Device.getResource s lockData.hResource = some r →
        (Device.lock env s lockData).1 =
          (env.Resource_lock (Device.flushPrimitives env s).world r lockData).1 ∧
        (Device.lock env s lockData).2.1 =
          (env.Resource_lock (Device.flushPrimitives env s).world r lockData).2.1 ∧
        (Device.lock env s lockData).2.2.trace =
          s.trace ++ [.flushPrimitives s.dev.m_drawPrimitive.m_batched,
            .Resource_lock r lockData]) ∧
      (Device.getResource s lockData.hResource = none →
        (Device.lock env s lockData).1 =
          (env.pfnLock (Device.flushPrimitives env s).world s.dev.m_device lockData).1 ∧
        (Device.lock env s lockData).2.1 =
          (env.pfnLock (Device.flushPrimitives env s).world s.dev.m_device lockData).2.1 ∧
        (Device.lock env s lockData).2.2.trace =
          s.trace ++ [.flushPrimitives s.dev.m_drawPrimitive.m_batched,
            .pfnLock lockData])) ∧
    ((∀ r, Device.getResource s unlockData.hResource = some r →
        (Device.unlock env s unlockData).1 =
          (env.Resource_unlock (Device.flushPrimitives env s).world r unlockData).1 ∧
        (Device.unlock env s unlockData).2.trace =
          s.trace ++ [.flushPrimitives s.dev.m_drawPrimitive.m_batched,
            .Resource_unlock r unlockData]) ∧
      (Device.getResource s unlockData.hResource = none →
        (Device.unlock env s unlockData).1 =
          (env.pfnUnlock (Device.flushPrimitives env s).world s.dev.m_device unlockData).1 ∧
        (Device.unlock env s unlockData).2.trace =
          s.trace ++ [.flushPrimitives s.dev.m_drawPrimitive.m_batched,
            .pfnUnlock unlockData])) := by
  refine ⟨⟨?_, ?_⟩, ⟨?_, ?_⟩, ⟨?_, ?_⟩, ⟨?_, ?_⟩⟩
  · intro r hr
    simp only [Device.getResource] at hr
    simp [Device.blt, hr]
  · intro hr
    simp only [Device.getResource] at hr
    simp [Device.blt, hr, Device.prepareForRendering_trace, prepareEvents_flushPrimitives]
  · intro r hr
    simp only [Device.getResource] at hr
    simp [Device.colorFill, hr]
  · intro hr
    simp only [Device.getResource] at hr
    simp [Device.colorFill, hr]
  · intro r hr
    simp only [Device.getResource] at hr
    simp [Device.lock, hr]
  · intro hr
    simp only [Device.getResource] at hr
    simp [Device.lock, hr]
  · intro r hr
    simp only [Device.getResource] at hr
    simp [Device.unlock, hr]
  · intro hr
    simp only [Device.getResource] at hr
    simp [Device.unlock, hr]

end Dispatch

/-- Witness of C5 on a state where handle 100 is registered and 555 is not: a
blt to 100 goes to the Resource, a blt from 100 to 555 prepares the source for
reading and goes to the original `pfnBlt`. -/
theorem C5_dispatch_by_registry_membership_witness :
    (Device.blt (simEnv goodDriver) C8_state (Device.probeBlt 555 100)).2.trace =
      C8_state.trace ++
        [.flushPrimitives [], .Resource_blt { id := 0, handle := 100 } (Device.probeBlt 555 100)] ∧
    (Device.blt (simEnv goodDriver) C8_state (Device.probeBlt 100 555)).2.trace =
      C8_state.trace ++
        [.flushPrimitives [], .Resource_prepareForRendering { id := 0, handle := 100 } 0 true,
          .pfnBlt (Device.probeBlt 100 555)] :=
  ⟨((C5_dispatch_by_registry_membership (simEnv goodDriver) C8_state (Device.probeBlt 555 100)
      { hResource := 0, SubResourceIndex := 0, DstRect := ⟨0, 0, 0, 0⟩, Color := 0 }
      (Device.probeLock 0) (Device.probeUnlock 0)).1.1 { id := 0, handle := 100 }
      (by decide)).2,
    ((C5_dispatch_by_registry_membership (simEnv goodDriver) C8_state (Device.probeBlt 100 555)
      { hResource := 0, SubResourceIndex := 0, DstRect := ⟨0, 0, 0, 0⟩, Color := 0 }
      (Device.probeLock 0) (Device.probeUnlock 0)).1.2 (by decide)).2⟩

/-! ## What the probe logs -/

section ProbeLog

variable {W : Type}

theorem logMessages_append (a b : List Event) :
    logMessages (a ++ b) = logMessages a ++ logMessages b := by
  induction a with
  | nil => rfl
  | cons e rest ih => cases e <;> simp [logMessages, ih]

@[simp] theorem logMessages_logFailure (env : Env W) (s : State W) (reason : String)
    (code : Nat) :
    logMessages (logSrcColorKeySupportFailure env s reason code).trace =
      logMessages s.trace ++ [srcColorKeySupportFailureMessage env.hex reason code] := by
  simp [logSrcColorKeySupportFailure, logMessages, logMessages_append]

@[simp] theorem logMessages_origLock (env : Env W) (s : State W) (d : D3DDDIARG_LOCK) :
    logMessages (Device.origLock env s d).2.2.trace = logMessages s.trace := by
  simp [Device.origLock, logMessages, logMessages_append]

@[simp] theorem logMessages_origUnlock (env : Env W) (s : State W) (d : D3DDDIARG_UNLOCK) :
    logMessages (Device.origUnlock env s d).trace = logMessages s.trace := by
  simp [Device.origUnlock, logMessages, logMessages_append]

@[simp] theorem logMessages_origBlt (env : Env W) (s : State W) (d : D3DDDIARG_BLT) :
    logMessages (Device.origBlt env s d).2.trace = logMessages s.trace := by
  simp [Device.origBlt, logMessages, logMessages_append]

@[simp] theorem logMessages_store32 (env : Env W) (s : State W) (p v : Nat) :
    logMessages (Device.store32 env s p v).trace = logMessages s.trace := rfl

@[simp] theorem logMessages_createPrivateResource (env : Env W) (s : State W)
    (d : D3DDDIARG_CREATERESOURCE2) :
    logMessages (Device.createPrivateResource env s d).2.2.trace = logMessages s.trace := by
  unfold Device.createPrivateResource
  split <;> simp [logMessages, logMessages_append]

@[simp] theorem logMessages_resourceDeleter (env : Env W) (s : State W) (h : HANDLE) :
    logMessages (Device.resourceDeleter env s h).trace = logMessages s.trace := by
  unfold Device.resourceDeleter
  split <;> simp [logMessages, logMessages_append]

@[simp] theorem logMessages_releaseProbeResources (env : Env W) (s : State W)
    (src dst : HANDLE) :
    logMessages (Device.releaseProbeResources env s src dst).trace = logMessages s.trace := by
  simp [Device.releaseProbeResources]

/-- The tail of the probe returns `true` exactly when none of its stages fails,
and submits one text to the log sink: the one of its first failure. -/
theorem Device.checkSrcColorKeySupport_test_outcome (env : Env W) (s : State W)
    (src dst : HANDLE) :
    (Device.checkSrcColorKeySupport_test env s src dst).1 =
      (Device.probeFailure_test env s src dst).isNone ∧
    logMessages (Device.checkSrcColorKeySupport_test env s src dst).2.trace =
      logMessages s.trace ++ [probeMessage env.hex (Device.probeFailure_test env s src dst)] := by
  unfold Device.checkSrcColorKeySupport_test Device.probeFailure_test
  simp only []
  split_ifs <;> simp [probeMessage, ProbeStage.reason, logMessages, logMessages_append]

/-- The probe returns `true` exactly when none of its stages fails, and submits
one text to the log sink: the one of its first failure. -/
theorem Device.checkSrcColorKeySupport_outcome (env : Env W) (s : State W) :
    (Device.checkSrcColorKeySupport env s).1 = (Device.probeFailure env s).isNone ∧
    logMessages (Device.checkSrcColorKeySupport env s).2.trace =
      logMessages s.trace ++ [probeMessage env.hex (Device.probeFailure env s)] := by
  have ht := Device.checkSrcColorKeySupport_test_outcome env
  unfold Device.checkSrcColorKeySupport Device.probeFailure
  simp only []
  split_ifs <;> simp [probeMessage, ProbeStage.reason, ht]

end ProbeLog

/-! ## C6: the probe on the simulated drivers -/

section Probe

theorem SimDriver.surface_setSurface_self (w : SimDriver) (h : HANDLE) (v : Nat) :
    (w.setSurface h v).surface h = v := by
  simp [SimDriver.surface, SimDriver.setSurface,
    Map.find_insertSorted_self _ h v (Map.find_erase_self w.surfaces h)]

theorem SimDriver.surface_setSurface_ne (w : SimDriver) (h h₀ : HANDLE) (v : Nat)
    (hne : h₀ ≠ h) : (w.setSurface h v).surface h₀ = w.surface h₀ := by
  simp [SimDriver.surface, SimDriver.setSurface, Map.find_insertSorted_ne _ h h₀ v hne,
    Map.find_erase_ne _ h h₀ hne]

@[simp] theorem SimDriver.surface_tick (cfg : SimConfig) (w : SimDriver) (h : HANDLE) :
    (SimDriver.tick cfg w).2.surface h = w.surface h := rfl

@[simp] theorem SimDriver.nextHandle_tick (cfg : SimConfig) (w : SimDriver) :
    (SimDriver.tick cfg w).2.nextHandle = w.nextHandle := rfl

theorem SimDriver.tick_ok (cfg : SimConfig) (hc : cfg.failingCall = none) (w : SimDriver) :
    (SimDriver.tick cfg w).1 = false := by
  simp [SimDriver.tick, hc]

theorem sim_origLock (cfg : SimConfig) (hc : cfg.failingCall = none) (s : State SimDriver)
    (d : D3DDDIARG_LOCK) :
    Device.origLock (simEnv cfg) s d =
      (S_OK, { d with pSurfData := d.hResource },
        s.call (.pfnLock d) (SimDriver.tick cfg s.world).2) := by
  simp [Device.origLock, simEnv, SimDriver.lock, SimDriver.tick_ok cfg hc]

theorem sim_origUnlock (cfg : SimConfig) (s : State SimDriver) (d : D3DDDIARG_UNLOCK) :
    Device.origUnlock (simEnv cfg) s d = s.call (.pfnUnlock d) s.world := rfl

theorem sim_store32 (cfg : SimConfig) (s : State SimDriver) (p v : Nat) :
    (Device.store32 (simEnv cfg) s p v).world = s.world.setSurface p (v % 2 ^ 32) := rfl

theorem sim_read32 (cfg : SimConfig) (w : SimDriver) (p : Nat) :
    (simEnv cfg).read32 w p = w.surface p := rfl

theorem sim_origBlt (cfg : SimConfig) (hc : cfg.failingCall = none) (s : State SimDriver)
    (d : D3DDDIARG_BLT) :
    Device.origBlt (simEnv cfg) s d =
      (S_OK, s.call (.pfnBlt d)
        ((SimDriver.tick cfg s.world).2.setSurface d.hDstResource
          (if d.Flags_SrcColorKey && cfg.honoursSrcColorKey then
            SimDriver.keyedBlt d.ColorKey (s.world.surface d.hSrcResource)
              (s.world.surface d.hDstResource)
          else s.world.surface d.hSrcResource))) := by
  simp [Device.origBlt, simEnv, SimDriver.blt, SimDriver.tick_ok cfg hc]

theorem sim_probeFailure_test (cfg : SimConfig) (hc : cfg.failingCall = none)
    (s : State SimDriver) (src dst : HANDLE) (hne : src ≠ dst) :
    Device.probeFailure_test (simEnv cfg) s src dst =
      if cfg.honoursSrcColorKey then none else some (.resultPattern, 0xFA9F) := by
  unfold Device.probeFailure_test
  have hne' : dst ≠ src := fun h => hne h.symm
  have hF : FAILED S_OK = false := rfl
  simp only [sim_origLock cfg hc, sim_origUnlock, sim_origBlt cfg hc, hF, Bool.false_eq_true,
    if_false, sim_store32, sim_read32, State.call_world, Device.probeLock, Device.probeBlt,
    Device.probeColorKey, SimDriver.surface_tick, SimDriver.surface_setSurface_self,
    SimDriver.surface_setSurface_ne _ _ _ _ hne, SimDriver.surface_setSurface_ne _ _ _ _ hne',
    Bool.true_and]
  have h1 : (64159 % 2 ^ 32 : Nat) = 64159 := by norm_num
  have h2 : (4294967295 % 2 ^ 32 : Nat) = 4294967295 := by norm_num
  have hk : SimDriver.keyedBlt 64159 64159 4294967295 = 65535 := by decide
  rw [h1, h2, hk]
  cases cfg.honoursSrcColorKey <;> simp

theorem sim_createPrivateResource (cfg : SimConfig) (hc : cfg.failingCall = none)
    (s : State SimDriver) (data : D3DDDIARG_CREATERESOURCE2) :
    (Device.createPrivateResource (simEnv cfg) s data).1 = S_OK ∧
    (Device.createPrivateResource (simEnv cfg) s data).2.1.hResource = s.world.nextHandle ∧
    (Device.createPrivateResource (simEnv cfg) s data).2.2.world.nextHandle =
      s.world.nextHandle + 1 ∧
    (Device.createPrivateResource (simEnv cfg) s data).2.2.dev = s.dev := by
  simp [Device.createPrivateResource, simEnv, SimDriver.create, SimDriver.setSurface,
    SimDriver.tick, hc]

theorem sim_probeFailure (cfg : SimConfig) (hc : cfg.failingCall = none)
    (s : State SimDriver) (hcaps : s.dev.m_adapterCKeyCaps &&& DDRAW_CKEYCAPS_SRCBLT ≠ 0) :
    Device.probeFailure (simEnv cfg) s =
      if cfg.honoursSrcColorKey then none else some (.resultPattern, 0xFA9F) := by
  unfold Device.probeFailure
  have hF : FAILED S_OK = false := rfl
  have c1 := sim_createPrivateResource cfg hc s Device.probeCreateData
  have c2 := sim_createPrivateResource cfg hc
    (Device.createPrivateResource (simEnv cfg) s Device.probeCreateData).2.2
    { (Device.createPrivateResource (simEnv cfg) s Device.probeCreateData).2.1 with
      hResource := nullptr, Flags_RenderTarget := true }
  simp only [if_neg hcaps, c1.1, c2.1, hF, Bool.false_eq_true, if_false]
  apply sim_probeFailure_test cfg hc
  rw [c1.2.1, c2.2.1, c1.2.2.1]
  exact Nat.ne_of_lt (Nat.lt_succ_self _)

/-- Claim C6. Colour key capability probe on the simulated drivers, whose
surfaces are 2x1 R5G6B5 words and whose create, lock and blt calls all succeed:
on an adapter that advertises `DDRAW_CKEYCAPS_SRCBLT`, with a driver whose keyed
blt leaves the destination pixel untouched exactly for source pixels equal to
the key `0xFA9F` (the word read back is then `0x0000FFFF`), the probe returns
`true`; with a driver whose blt ignores the key and copies the source word, it
returns `false` and submits exactly one text to the log sink, a failure text. -/
theorem C6_probe_on_simulated_drivers (s : State SimDriver)
    (hcaps : s.dev.m_adapterCKeyCaps &&& DDRAW_CKEYCAPS_SRCBLT ≠ 0) :
    SimDriver.keyedBlt 0xFA9F 0x0000FA9F 0xFFFFFFFF = 0x0000FFFF ∧
    (Device.checkSrcColorKeySupport (simEnv goodDriver) s).1 = true ∧
    logMessages (Device.checkSrcColorKeySupport (simEnv goodDriver) s).2.trace =
      logMessages s.trace ++ ["Checking source color key support: passed"] ∧
    (Device.checkSrcColorKeySupport (simEnv keyIgnoringDriver) s).1 = false ∧
    logMessages (Device.checkSrcColorKeySupport (simEnv keyIgnoringDriver) s).2.trace =
      logMessages s.trace ++
        [srcColorKeySupportFailureMessage SimDriver.hex "test result pattern is incorrect"
          0xFA9F] := by
  have hg := Device.checkSrcColorKeySupport_outcome (simEnv goodDriver) s
  have hi := Device.checkSrcColorKeySupport_outcome (simEnv keyIgnoringDriver) s
  rw [sim_probeFailure goodDriver rfl s hcaps] at hg
  rw [sim_probeFailure keyIgnoringDriver rfl s hcaps] at hi
  refine ⟨by decide, ?_, ?_, ?_, ?_⟩
  · simpa [goodDriver] using hg.1
  · simpa [goodDriver, probeMessage] using hg.2
  · simpa [keyIgnoringDriver] using hi.1
  · simpa [keyIgnoringDriver, probeMessage, ProbeStage.reason, simEnv] using hi.2

end Probe

/-- Witness of C6: a freshly constructed device on an adapter whose colour key
caps are exactly `DDRAW_CKEYCAPS_SRCBLT`. -/
theorem C6_probe_on_simulated_drivers_witness :
    (Device.checkSrcColorKeySupport (simEnv goodDriver) (initialState 0x200)).1 = true ∧
    (Device.checkSrcColorKeySupport (simEnv keyIgnoringDriver) (initialState 0x200)).1 = false ∧
    logMessages
        (Device.checkSrcColorKeySupport (simEnv keyIgnoringDriver) (initialState 0x200)).2.trace =
      ["Checking source color key support: failed (test result pattern is incorrect: 0xfa9f)"] := by
  have h := C6_probe_on_simulated_drivers (initialState 0x200) (by decide)
  refine ⟨h.2.1, h.2.2.2.1, ?_⟩
  rw [h.2.2.2.2]
  decide

/-! ## C7: failures of the probe -/

theorem ProbeStage.reason_injective (a b : ProbeStage) (h : a.reason = b.reason) : a = b := by
  cases a <;> cases b <;> first | rfl | exact absurd h (by decide)

/-- Claim C7. Capability-probe failures are never surfaced: when a stage of
`checkSrcColorKeySupport` fails (the driver caps lack the source colour key,
creating the source, creating the destination, locking the source, locking the
destination, the blt, locking the destination after the blt, or the result
pattern), the probe returns `false` (a plain `bool`: no result code or exception
reaches the caller) and submits exactly one text to the log sink, the failure
text built from the reason of that stage and the failing code; the reason texts
of different stages differ. -/
theorem C7_probe_failure_logged_not_surfaced {W : Type} (env : Env W) (s : State W)
    (stage : ProbeStage) (code : Nat) (hf : Device.probeFailure env s = some (stage, code)) :
    (Device.checkSrcColorKeySupport env s).1 = false ∧
    logMessages (Device.checkSrcColorKeySupport env s).2.trace =
      logMessages s.trace ++ [srcColorKeySupportFailureMessage env.hex stage.reason code] ∧
    (∀ other : ProbeStage, other.reason = stage.reason → other = stage) := by
  have h := Device.checkSrcColorKeySupport_outcome env s
  rw [hf] at h
  exact ⟨by simpa using h.1, by simpa [probeMessage] using h.2,
    fun other ho => ProbeStage.reason_injective other stage ho⟩

/-- Witness of C7: each of the eight stages fails on some simulated driver, and
the probe then returns `false` and logs the text of that stage. -/
theorem C7_probe_failure_logged_not_surfaced_witness :
    logMessages (Device.checkSrcColorKeySupport (simEnv goodDriver) (initialState 0)).2.trace =
      [srcColorKeySupportFailureMessage SimDriver.hex "driver indicates no support" 0] ∧
    logMessages
        (Device.checkSrcColorKeySupport (simEnv (failingDriver 0)) (initialState 0x200)).2.trace =
      [srcColorKeySupportFailureMessage SimDriver.hex "error creating source resource"
        0x80004005] ∧
    logMessages
        (Device.checkSrcColorKeySupport (simEnv (failingDriver 1)) (initialState 0x200)).2.trace =
      [srcColorKeySupportFailureMessage SimDriver.hex "error creating destination resource"
        0x80004005] ∧
    logMessages
        (Device.checkSrcColorKeySupport (simEnv (failingDriver 2)) (initialState 0x200)).2.trace =
      [srcColorKeySupportFailureMessage SimDriver.hex "error locking source resource"
        0x80004005] ∧
    logMessages
        (Device.checkSrcColorKeySupport (simEnv (failingDriver 3)) (initialState 0x200)).2.trace =
      [srcColorKeySupportFailureMessage SimDriver.hex "error locking destination resource"
        0x80004005] ∧
    logMessages
        (Device.checkSrcColorKeySupport (simEnv (failingDriver 4)) (initialState 0x200)).2.trace =
      [srcColorKeySupportFailureMessage SimDriver.hex "blt error" 0x80004005] ∧
    logMessages
        (Device.checkSrcColorKeySupport (simEnv (failingDriver 5)) (initialState 0x200)).2.trace =
      [srcColorKeySupportFailureMessage SimDriver.hex
        "error locking destination resource after blt" 0x80004005] ∧
    logMessages
        (Device.checkSrcColorKeySupport (simEnv keyIgnoringDriver) (initialState 0x200)).2.trace =
      [srcColorKeySupportFailureMessage SimDriver.hex "test result pattern is incorrect"
        0xFA9F] ∧
    (Device.checkSrcColorKeySupport (simEnv (failingDriver 4)) (initialState 0x200)).1 = false :=
  ⟨(C7_probe_failure_logged_not_surfaced (simEnv goodDriver) (initialState 0)
      .driverCaps 0 (by decide)).2.1,
    (C7_probe_failure_logged_not_surfaced (simEnv (failingDriver 0)) (initialState 0x200)
      .createSource 0x80004005 (by decide)).2.1,
    (C7_probe_failure_logged_not_surfaced (simEnv (failingDriver 1)) (initialState 0x200)
      .createDestination 0x80004005 (by decide)).2.1,
    (C7_probe_failure_logged_not_surfaced (simEnv (failingDriver 2)) (initialState 0x200)
      .lockSource 0x80004005 (by decide)).2.1,
    (C7_probe_failure_logged_not_surfaced (simEnv (failingDriver 3)) (initialState 0x200)
      .lockDestination 0x80004005 (by decide)).2.1,
    (C7_probe_failure_logged_not_surfaced (simEnv (failingDriver 4)) (initialState 0x200)
      .blt 0x80004005 (by decide)).2.1,
    (C7_probe_failure_logged_not_surfaced (simEnv (failingDriver 5)) (initialState 0x200)
      .lockDestinationAfterBlt 0x80004005 (by decide)).2.1,
    (C7_probe_failure_logged_not_surfaced (simEnv keyIgnoringDriver) (initialState 0x200)
      .resultPattern 0xFA9F (by decide)).2.1,
    (C7_probe_failure_logged_not_surfaced (simEnv (failingDriver 4)) (initialState 0x200)
      .blt 0x80004005 (by decide)).1⟩

/-! ## C8: `setRenderTarget` -/

/-- Counterexample to C8 as stated: a `setRenderTarget` for render target 1
succeeds in the driver, yet the remembered render target is not the registry's
Resource for `hRenderTarget` and the remembered index is not `SubResourceIndex`. -/
theorem C8_counterexample :
    SUCCEEDED (Device.setRenderTarget (simEnv goodDriver) C8_state C8_data).1 = true ∧
    (Device.setRenderTarget (simEnv goodDriver) C8_state C8_data).2.dev.m_renderTarget ≠
      Device.getResource (Device.setRenderTarget (simEnv goodDriver) C8_state C8_data).2
        C8_data.hRenderTarget ∧
    (Device.setRenderTarget (simEnv goodDriver) C8_state
      C8_data).2.dev.m_renderTargetSubResourceIndex ≠ C8_data.SubResourceIndex := by
  decide

/-- Claim C8, amended. `setRenderTarget` returns the result of the original
`pfnSetRenderTarget` unchanged. When that call succeeds and
`RenderTargetIndex` is 0, the remembered render target is afterwards the
registry's Resource for `hRenderTarget` (none if the handle is not registered)
and the remembered sub-resource index is `SubResourceIndex`. When the call
fails, or `RenderTargetIndex` is not 0, both remembered values are unchanged. -/
theorem C8_setRenderTarget_remembers_target {W : Type} (env : Env W) (s : State W)
    (data : D3DDDIARG_SETRENDERTARGET) :
    (Device.setRenderTarget env s data).1 =
      (env.pfnSetRenderTarget (Device.flushPrimitives env s).world s.dev.m_device data).1 ∧
    (SUCCEEDED (Device.setRenderTarget env s data).1 = true → data.RenderTargetIndex = 0 →
      (Device.setRenderTarget env s data).2.dev.m_renderTarget =
        Device.getResource (Device.setRenderTarget env s data).2 data.hRenderTarget ∧
      (Device.setRenderTarget env s data).2.dev.m_renderTarget =
        Device.getResource s data.hRenderTarget ∧
      (Device.setRenderTarget env s data).2.dev.m_renderTargetSubResourceIndex =
        data.SubResourceIndex) ∧
    ((SUCCEEDED (Device.setRenderTarget env s data).1 = false ∨ data.RenderTargetIndex ≠ 0) →
      (Device.setRenderTarget env s data).2.dev.m_renderTarget = s.dev.m_renderTarget ∧
      (Device.setRenderTarget env s data).2.dev.m_renderTargetSubResourceIndex =
        s.dev.m_renderTargetSubResourceIndex) := by
  have hcode : (Device.setRenderTarget env s data).1 =
      (env.pfnSetRenderTarget (Device.flushPrimitives env s).world s.dev.m_device data).1 := by
    unfold Device.setRenderTarget
    simp only [Device.flushPrimitives_device]
    split <;> rfl
  refine ⟨hcode, ?_, ?_⟩
  · intro hok h0
    rw [hcode] at hok
    simp [Device.setRenderTarget, hok, h0, Device.getResource]
  · intro hno
    rw [hcode] at hno
    unfold Device.setRenderTarget
    simp only [Device.flushPrimitives_device]
    split
    · rename_i hc
      simp only [Bool.and_eq_true, beq_iff_eq] at hc
      rcases hno with hno | hno
      · rw [hc.1] at hno
        cases hno
      · exact absurd hc.2.symm hno
    · simp

/-- Witness of C8 (amended): for render target 0 the registered Resource of
handle 100 and the index 3 are remembered; a call the driver refuses
(handle 999) leaves both as they were. -/
theorem C8_setRenderTarget_remembers_target_witness :
    (Device.setRenderTarget (simEnv goodDriver) C8_state
      { C8_data with RenderTargetIndex := 0 }).2.dev.m_renderTarget =
        some { id := 0, handle := 100 } ∧
    (Device.setRenderTarget (simEnv goodDriver) C8_state
      { C8_data with RenderTargetIndex := 0 }).2.dev.m_renderTargetSubResourceIndex = 3 ∧
    (Device.setRenderTarget (simEnv goodDriver) C8_state
      { C8_data with RenderTargetIndex := 0, hRenderTarget := 999 }).2.dev.m_renderTarget =
        none := by
  have h1 := (C8_setRenderTarget_remembers_target (simEnv goodDriver) C8_state
    { C8_data with RenderTargetIndex := 0 }).2.1 (by decide) rfl
  have h2 := (C8_setRenderTarget_remembers_target (simEnv goodDriver) C8_state
    { C8_data with RenderTargetIndex := 0, hRenderTarget := 999 }).2.2 (Or.inl (by decide))
  refine ⟨?_, h1.2.2, ?_⟩
  · rw [h1.2.1]
    decide
  · rw [h2.1]
    decide

/-! ## C9 and C10: `flush` and `flush1` -/

section Flush

variable {W : Type}

theorem Device.flush1_passes (env : Env W) (s : State W) (FlushFlags : UINT)
    (h : s.s_isFlushEnabled = true ∨ FlushFlags ≠ 0) :
    (Device.flush1 env s FlushFlags).1 =
      (env.pfnFlush1 (Device.flushPrimitives env s).world s.dev.m_device FlushFlags).1 ∧
    (Device.flush1 env s FlushFlags).2.trace =
      s.trace ++ [.flushPrimitives s.dev.m_drawPrimitive.m_batched, .pfnFlush1 FlushFlags] ∧
    (Device.flush1 env s FlushFlags).2.dev.m_drawPrimitive.m_batched = [] := by
  have hc : (!s.s_isFlushEnabled && 0 == FlushFlags) = false := by
    rcases h with h | h
    · simp [h]
    · simp [Ne.symm h]
  simp [Device.flush1, hc]

theorem Device.flush_passes (env : Env W) (s : State W) (h : s.s_isFlushEnabled = true) :
    (Device.flush env s).1 =
      (env.pfnFlush (Device.flushPrimitives env s).world s.dev.m_device).1 ∧
    (Device.flush env s).2.trace =
      s.trace ++ [.flushPrimitives s.dev.m_drawPrimitive.m_batched, .pfnFlush] ∧
    (Device.flush env s).2.dev.m_drawPrimitive.m_batched = [] := by
  simp [Device.flush, h]

theorem Device.flush1_eq (env : Env W) (s : State W) (FlushFlags : UINT)
    (h : s.s_isFlushEnabled = true ∨ FlushFlags ≠ 0) :
    Device.flush1 env s FlushFlags =
      ((env.pfnFlush1
          (env.commitBatch s.world s.dev.m_device s.dev.m_drawPrimitive.m_batched)
          s.dev.m_device FlushFlags).1,
        s.flushedThen [.pfnFlush1 FlushFlags]
          (env.pfnFlush1
            (env.commitBatch s.world s.dev.m_device s.dev.m_drawPrimitive.m_batched)
            s.dev.m_device FlushFlags).2) := by
  have hc : (!s.s_isFlushEnabled && 0 == FlushFlags) = false := by
    rcases h with h | h
    · simp [h]
    · simp [Ne.symm h]
  simp [Device.flush1, hc, Device.flushPrimitives_eq, State.flushedThen_call,
    State.flushedThen_world, State.flushedThen_device, committedWorld]

theorem Device.flush_eq (env : Env W) (s : State W) (h : s.s_isFlushEnabled = true) :
    Device.flush env s =
      ((env.pfnFlush
          (env.commitBatch s.world s.dev.m_device s.dev.m_drawPrimitive.m_batched)
          s.dev.m_device).1,
        s.flushedThen [.pfnFlush]
          (env.pfnFlush
            (env.commitBatch s.world s.dev.m_device s.dev.m_drawPrimitive.m_batched)
            s.dev.m_device).2) := by
  simp [Device.flush, h, Device.flushPrimitives_eq, State.flushedThen_call,
    State.flushedThen_world, State.flushedThen_device, committedWorld]

/-- Claim C9. Forced flushes always pass through: for every `FlushFlags ≠ 0`,
whatever the global flush-enable flag, `flush1` flushes the batched primitives
(the pending batch is handed to the driver by `commitBatch` and the batcher is
left empty), then calls the original `pfnFlush1` with the same `FlushFlags` in
the world the commit left, ends in the world that call left and returns its
result unchanged; no other field of the state changes. The same holds when the
flag is enabled; only when the flag is disabled and `FlushFlags` is 0 does
`flush1` return `S_OK` without calling the driver, leaving the state untouched. -/
theorem C9_forced_flush_passes_through (env : Env W) (s : State W) (FlushFlags : UINT) :
    (FlushFlags ≠ 0 ∨ s.s_isFlushEnabled = true →
      (Device.flush1 env s FlushFlags).1 =
        (env.pfnFlush1
          (env.commitBatch s.world s.dev.m_device s.dev.m_drawPrimitive.m_batched)
          s.dev.m_device FlushFlags).1 ∧
      (Device.flush1 env s FlushFlags).2.world =
        (env.pfnFlush1
          (env.commitBatch s.world s.dev.m_device s.dev.m_drawPrimitive.m_batched)
          s.dev.m_device FlushFlags).2 ∧
      (Device.flush1 env s FlushFlags).2.dev.m_drawPrimitive.m_batched = [] ∧
      (Device.flush1 env s FlushFlags).2.trace =
        s.trace ++ [.flushPrimitives s.dev.m_drawPrimitive.m_batched, .pfnFlush1 FlushFlags] ∧
      (Device.flush1 env s FlushFlags).2 =
        s.flushedThen [.pfnFlush1 FlushFlags]
          (env.pfnFlush1
            (env.commitBatch s.world s.dev.m_device s.dev.m_drawPrimitive.m_batched)
            s.dev.m_device FlushFlags).2) ∧
    (s.s_isFlushEnabled = false → FlushFlags = 0 →
      Device.flush1 env s FlushFlags = (S_OK, s)) := by
  refine ⟨fun h => ?_, fun h h0 => ?_⟩
  · have he := Device.flush1_eq env s FlushFlags h.symm
    rw [he]
    exact ⟨rfl, rfl, rfl, rfl, rfl⟩
  · simp [Device.flush1, h, h0]

/-- Claim C10, amended. While the global flush-enable flag is set, `flush`
commits the pending draw submissions before it calls the driver and returns:
the pending batch is handed to the driver by `commitBatch`, the batcher is left
empty, the original `pfnFlush` is called in the world the commit left, and its
result and its world are those of `flush`; so does `flush1`, with the original
`pfnFlush1`, when the flag is set or `FlushFlags ≠ 0`. While the flag is clear,
`flush`, and `flush1` with `FlushFlags = 0`, return `S_OK` and leave the state
untouched, whether or not draw submissions are pending. -/
theorem C10_flush_commits_when_enabled (env : Env W) (s : State W) (FlushFlags : UINT) :
    (s.s_isFlushEnabled = true →
      (Device.flush env s).1 =
        (env.pfnFlush
          (env.commitBatch s.world s.dev.m_device s.dev.m_drawPrimitive.m_batched)
          s.dev.m_device).1 ∧
      (Device.flush env s).2.world =
        (env.pfnFlush
          (env.commitBatch s.world s.dev.m_device s.dev.m_drawPrimitive.m_batched)
          s.dev.m_device).2 ∧
      (Device.flush env s).2.dev.m_drawPrimitive.m_batched = [] ∧
      (Device.flush env s).2.trace =
        s.trace ++ [.flushPrimitives s.dev.m_drawPrimitive.m_batched, .pfnFlush] ∧
      (Device.flush env s).2 =
        s.flushedThen [.pfnFlush]
          (env.pfnFlush
            (env.commitBatch s.world s.dev.m_device s.dev.m_drawPrimitive.m_batched)
            s.dev.m_device).2) ∧
    ((s.s_isFlushEnabled = true ∨ FlushFlags ≠ 0) →
      (Device.flush1 env s FlushFlags).2.world =
        (env.pfnFlush1
          (env.commitBatch s.world s.dev.m_device s.dev.m_drawPrimitive.m_batched)
          s.dev.m_device FlushFlags).2 ∧
      (Device.flush1 env s FlushFlags).2.dev.m_drawPrimitive.m_batched = [] ∧
      (Device.flush1 env s FlushFlags).2.trace =
        s.trace ++ [.flushPrimitives s.dev.m_drawPrimitive.m_batched, .pfnFlush1 FlushFlags] ∧
      (Device.flush1 env s FlushFlags).2 =
        s.flushedThen [.pfnFlush1 FlushFlags]
          (env.pfnFlush1
            (env.commitBatch s.world s.dev.m_device s.dev.m_drawPrimitive.m_batched)
            s.dev.m_device FlushFlags).2) ∧
    (s.s_isFlushEnabled = false → Device.flush env s = (S_OK, s)) ∧
    (s.s_isFlushEnabled = false → FlushFlags = 0 →
      Device.flush1 env s FlushFlags = (S_OK, s)) := by
  refine ⟨fun h => ?_, fun h => ?_, fun h => ?_, fun h h0 => ?_⟩
  · have he := Device.flush_eq env s h
    rw [he]
    exact ⟨rfl, rfl, rfl, rfl, rfl⟩
  · have he := Device.flush1_eq env s FlushFlags h
    rw [he]
    exact ⟨rfl, rfl, rfl, rfl⟩
  · simp [Device.flush, h]
  · simp [Device.flush1, h, h0]

end Flush

/-- Witness of C9 on the recording driver: with flushing disabled and a draw
pending, `flush1(1)` hands the pending draw to the driver, then the driver
sees `pfnFlush1(1)`, and the batcher is empty; `flush1(0)` does nothing. -/
theorem C9_forced_flush_passes_through_witness :
    (Device.flush1 recordingEnv C10_state.recorded 1).2.world =
      [.flushPrimitives
          [.draw { PrimitiveType := 4, VStart := 0, PrimitiveCount := 1 } []],
        .pfnFlush1 1] ∧
    (Device.flush1 recordingEnv C10_state.recorded 1).2.dev.m_drawPrimitive.m_batched = [] ∧
    Device.flush1 recordingEnv C10_state.recorded 0 = (S_OK, C10_state.recorded) :=
  ⟨((C9_forced_flush_passes_through recordingEnv C10_state.recorded 1).1
      (Or.inl (by decide))).2.1.trans (by decide),
    ((C9_forced_flush_passes_through recordingEnv C10_state.recorded 1).1
      (Or.inl (by decide))).2.2.1,
    (C9_forced_flush_passes_through recordingEnv C10_state.recorded 0).2 (by decide) rfl⟩

/-- Counterexample to C10 as stated: with the flush-enable flag cleared and a
draw submission pending, `flush` and `flush1(0)` return `S_OK` without
committing: the submission is still pending and nothing joined the trace. -/
theorem C10_counterexample :
    C10_state.dev.m_drawPrimitive.m_batched =
      [.draw { PrimitiveType := 4, VStart := 0, PrimitiveCount := 1 } []] ∧
    (Device.flush (simEnv goodDriver) C10_state).1 = S_OK ∧
    (Device.flush (simEnv goodDriver) C10_state).2.dev.m_drawPrimitive.m_batched =
      [.draw { PrimitiveType := 4, VStart := 0, PrimitiveCount := 1 } []] ∧
    (Device.flush (simEnv goodDriver) C10_state).2.trace = C10_state.trace ∧
    (Device.flush1 (simEnv goodDriver) C10_state 0).2.dev.m_drawPrimitive.m_batched =
      [.draw { PrimitiveType := 4, VStart := 0, PrimitiveCount := 1 } []] ∧
    (Device.flush1 (simEnv goodDriver) C10_state 0).2.trace = C10_state.trace := by
  decide

/-- Witness of C10 (amended) on the recording driver: with flushing enabled the
pending draw reaches the driver before `pfnFlush` and the batcher is left
empty; with flushing disabled `flush` leaves the state as it is. -/
theorem C10_flush_commits_when_enabled_witness :
    (Device.flush recordingEnv (Device.enableFlush C10_state.recorded true)).2.world =
      [.flushPrimitives
          [.draw { PrimitiveType := 4, VStart := 0, PrimitiveCount := 1 } []],
        .pfnFlush] ∧
    (Device.flush recordingEnv
      (Device.enableFlush C10_state.recorded true)).2.dev.m_drawPrimitive.m_batched = [] ∧
    Device.flush recordingEnv C10_state.recorded = (S_OK, C10_state.recorded) :=
  ⟨((C10_flush_commits_when_enabled recordingEnv (Device.enableFlush C10_state.recorded true)
      0).1 rfl).2.1.trans (by decide),
    ((C10_flush_commits_when_enabled recordingEnv (Device.enableFlush C10_state.recorded true)
      0).1 rfl).2.2.1,
    (C10_flush_commits_when_enabled recordingEnv C10_state.recorded 0).2.2.1 (by decide)⟩

/-! ## C11: what `destroyResource` does before the driver call -/

section PreDestroy

variable {W : Type}

theorem Device.destroyResource_syncGdi_trace (env : Env W) (s : State W) (h : HANDLE) :
    (Device.destroyResource_syncGdi env s h).trace = s.trace ++ destroySyncEvents s h := by
  unfold Device.destroyResource_syncGdi destroySyncEvents
  split
  · split <;> simp
  · simp

theorem Device.destroyResource_pre_trace (env : Env W) (s : State W) (h : HANDLE) :
    (Device.destroyResource_pre env s h).trace =
      s.trace ++ [.flushPrimitives s.dev.m_drawPrimitive.m_batched] ++
        destroySyncEvents s h ++ destroyReleaseEvents s h := by
  have hsync : destroySyncEvents (Device.flushPrimitives env s) h = destroySyncEvents s h := rfl
  unfold Device.destroyResource_pre destroyReleaseEvents
  simp only [Device.destroyResource_syncGdi_dev, Device.flushPrimitives_sharedPrimary]
  split <;> simp [Device.destroyResource_syncGdi_trace, hsync]

theorem Device.destroyResource_cleanup_trace (t : State W) (h : HANDLE) :
    (Device.destroyResource_cleanup t h).trace = t.trace := by
  unfold Device.destroyResource_cleanup
  simp only [State.setDev_trace, State.setDev_dev]
  split <;> split <;> rfl

theorem Device.destroyResource_cleanup_world (t : State W) (h : HANDLE) :
    (Device.destroyResource_cleanup t h).world = t.world := by
  unfold Device.destroyResource_cleanup
  simp only [State.setDev_world, State.setDev_dev]
  split <;> split <;> rfl

theorem Device.destroyResource_eq (env : Env W) (s : State W) (resource : HANDLE) :
    Device.destroyResource env s resource =
      (if SUCCEEDED
          (env.pfnDestroyResource (destroyPreWorld env s resource) s.dev.m_device resource).1 then
        ((env.pfnDestroyResource (destroyPreWorld env s resource) s.dev.m_device resource).1,
          Device.destroyResource_cleanup
            (s.flushedThen
              (destroySyncEvents s resource ++ destroyReleaseEvents s resource ++
                [.pfnDestroyResource resource])
              (env.pfnDestroyResource (destroyPreWorld env s resource) s.dev.m_device
                resource).2)
            resource)
      else
        ((env.pfnDestroyResource (destroyPreWorld env s resource) s.dev.m_device resource).1,
          s.flushedThen
            (destroySyncEvents s resource ++ destroyReleaseEvents s resource ++
              [.pfnDestroyResource resource])
            (env.pfnDestroyResource (destroyPreWorld env s resource) s.dev.m_device
              resource).2)) := by
  unfold Device.destroyResource
  simp only [Device.destroyResource_pre_eq, State.flushedThen_call, State.flushedThen_world,
    State.flushedThen_device]

/-- Claim C11. Pre-destroy ordering in `destroyResource`. The calls made by
`destroyResource(resource)` are, in this order: the flush of the batched
primitives; a lock followed by an unlock of the designated GDI resource, when
`resource` is that resource; the release of the process-wide display-source
ownership, when `resource` equals the shared primary; the original
`pfnDestroyResource`. Each call acts on the world the call before it left: the
commit on the world of `s`, the lock on the committed world, the unlock on the
world the lock left, the release on the world after the synchronisation, and
`pfnDestroyResource` on the world after the release (`destroyPreWorld`); the
result and the final world of `destroyResource` are those of that last call.
For a handle that is neither, only the flush and the original call are made,
the latter on the committed world. -/
theorem C11_pre_destroy_ordering (env : Env W) (s : State W) (resource : HANDLE) :
    Device.destroyResource env s resource =
      (if SUCCEEDED
          (env.pfnDestroyResource (destroyPreWorld env s resource) s.dev.m_device resource).1 then
        ((env.pfnDestroyResource (destroyPreWorld env s resource) s.dev.m_device resource).1,
          Device.destroyResource_cleanup
            (s.flushedThen
              (destroySyncEvents s resource ++ destroyReleaseEvents s resource ++
                [.pfnDestroyResource resource])
              (env.pfnDestroyResource (destroyPreWorld env s resource) s.dev.m_device
                resource).2)
            resource)
      else
        ((env.pfnDestroyResource (destroyPreWorld env s resource) s.dev.m_device resource).1,
          s.flushedThen
            (destroySyncEvents s resource ++ destroyReleaseEvents s resource ++
              [.pfnDestroyResource resource])
            (env.pfnDestroyResource (destroyPreWorld env s resource) s.dev.m_device
              resource).2)) ∧
    (Device.destroyResource env s resource).1 =
      (env.pfnDestroyResource (destroyPreWorld env s resource) s.dev.m_device resource).1 ∧
    (Device.destroyResource env s resource).2.world =
      (env.pfnDestroyResource (destroyPreWorld env s resource) s.dev.m_device resource).2 ∧
    (Device.destroyResource env s resource).2.trace =
      s.trace ++ [.flushPrimitives s.dev.m_drawPrimitive.m_batched] ++
        destroySyncEvents s resource ++ destroyReleaseEvents s resource ++
        [.pfnDestroyResource resource] ∧
    destroyPreWorld env s resource =
      destroyReleaseWorld env s
        (destroySyncWorld env s
          (env.commitBatch s.world s.dev.m_device s.dev.m_drawPrimitive.m_batched) resource)
        resource ∧
    (∀ g : Resource, s.g_gdiResource = some g → resource = g.handle →
      destroySyncEvents s resource =
        [.Resource_lock g
            { hResource := g.handle, SubResourceIndex := 0, pSurfData := 0, Flags := 0 },
          .Resource_unlock g { hResource := g.handle, SubResourceIndex := 0 }] ∧
      ∀ w : W, destroySyncWorld env s w resource =
        (env.Resource_unlock
          (env.Resource_lock w g
            { hResource := g.handle, SubResourceIndex := 0, pSurfData := 0, Flags := 0 }).2.2
          g { hResource := g.handle, SubResourceIndex := 0 }).2) ∧
    ((∀ g : Resource, s.g_gdiResource = some g → resource ≠ g.handle) →
      destroySyncEvents s resource = [] ∧ ∀ w : W, destroySyncWorld env s w resource = w) ∧
    (resource = s.dev.m_sharedPrimary →
      destroyReleaseEvents s resource = [.D3DKMTReleaseProcessVidPnSourceOwners] ∧
      ∀ w : W, destroyReleaseWorld env s w resource =
        env.D3DKMTReleaseProcessVidPnSourceOwners w) ∧
    (resource ≠ s.dev.m_sharedPrimary →
      destroyReleaseEvents s resource = [] ∧ ∀ w : W, destroyReleaseWorld env s w resource = w) ∧
    ((∀ g : Resource, s.g_gdiResource = some g → resource ≠ g.handle) →
      resource ≠ s.dev.m_sharedPrimary →
      (Device.destroyResource env s resource).2.trace =
        s.trace ++ [.flushPrimitives s.dev.m_drawPrimitive.m_batched,
          .pfnDestroyResource resource] ∧
      (Device.destroyResource env s resource).1 =
        (env.pfnDestroyResource
          (env.commitBatch s.world s.dev.m_device s.dev.m_drawPrimitive.m_batched)
          s.dev.m_device resource).1 ∧
      (Device.destroyResource env s resource).2.world =
        (env.pfnDestroyResource
          (env.commitBatch s.world s.dev.m_device s.dev.m_drawPrimitive.m_batched)
          s.dev.m_device resource).2) := by
  have heq := Device.destroyResource_eq env s resource
  have hcode : (Device.destroyResource env s resource).1 =
      (env.pfnDestroyResource (destroyPreWorld env s resource) s.dev.m_device resource).1 := by
    rw [heq]
    split <;> rfl
  have hworld : (Device.destroyResource env s resource).2.world =
      (env.pfnDestroyResource (destroyPreWorld env s resource) s.dev.m_device resource).2 := by
    rw [heq]
    split
    · simp only [Device.destroyResource_cleanup_world]
      rfl
    · rfl
  have htrace : (Device.destroyResource env s resource).2.trace =
      s.trace ++ [.flushPrimitives s.dev.m_drawPrimitive.m_batched] ++
        destroySyncEvents s resource ++ destroyReleaseEvents s resource ++
        [.pfnDestroyResource resource] := by
    rw [heq]
    split
    · simp only [Device.destroyResource_cleanup_trace, State.flushedThen_trace]
      simp
    · simp only [State.flushedThen_trace]
      simp
  have hsyncNone : (∀ g : Resource, s.g_gdiResource = some g → resource ≠ g.handle) →
      destroySyncEvents s resource = [] ∧ ∀ w : W, destroySyncWorld env s w resource = w := by
    intro hg
    unfold destroySyncEvents destroySyncWorld
    cases hgs : s.g_gdiResource with
    | none => exact ⟨rfl, fun _ => rfl⟩
    | some g => simp [hg g hgs]
  have hrelNone : resource ≠ s.dev.m_sharedPrimary →
      destroyReleaseEvents s resource = [] ∧
        ∀ w : W, destroyReleaseWorld env s w resource = w := by
    intro hr
    simp [destroyReleaseEvents, destroyReleaseWorld, hr]
  refine ⟨heq, hcode, hworld, htrace, rfl, ?_, hsyncNone, ?_, hrelNone, ?_⟩
  · intro g hg hr
    simp [destroySyncEvents, destroySyncWorld, hg, hr]
  · intro hr
    simp [destroyReleaseEvents, destroyReleaseWorld, hr]
  · intro hg hr
    have hpre : destroyPreWorld env s resource =
        env.commitBatch s.world s.dev.m_device s.dev.m_drawPrimitive.m_batched := by
      unfold destroyPreWorld
      rw [(hrelNone hr).2, (hsyncNone hg).2]
      rfl
    refine ⟨?_, ?_, ?_⟩
    · rw [htrace, (hsyncNone hg).1, (hrelNone hr).1]
      simp
    · rw [hcode, hpre]
    · rw [hworld, hpre]

end PreDestroy

/-- Witness of C11 on the recording driver: `C11_state` has handle 100
registered, designated as the GDI resource and opened as the shared primary;
destroying it, the driver sees the commit, the lock and the unlock of the GDI
resource, the release of the display source and `pfnDestroyResource`, in this
order; destroying the unrelated handle 7, it sees the commit and
`pfnDestroyResource` only. -/
theorem C11_pre_destroy_ordering_witness :
    (Device.destroyResource recordingEnv C11_state.recorded 100).2.world =
      [.flushPrimitives [],
        .Resource_lock { id := 0, handle := 100 }
          { hResource := 100, SubResourceIndex := 0, pSurfData := 0, Flags := 0 },
        .Resource_unlock { id := 0, handle := 100 } { hResource := 100, SubResourceIndex := 0 },
        .D3DKMTReleaseProcessVidPnSourceOwners,
        .pfnDestroyResource 100] ∧
    (Device.destroyResource recordingEnv C11_state.recorded 7).2.world =
      [.flushPrimitives [], .pfnDestroyResource 7] ∧
    (Device.destroyResource recordingEnv C11_state.recorded 7).2.trace =
      [.flushPrimitives [], .pfnDestroyResource 7] :=
  ⟨(C11_pre_destroy_ordering recordingEnv C11_state.recorded 100).2.2.1.trans (by decide),
    ((C11_pre_destroy_ordering recordingEnv C11_state.recorded 7).2.2.2.2.2.2.2.2.2
      (fun g hg => by
        have : g = { id := 0, handle := 100 } := by
          have h0 : C11_state.recorded.g_gdiResource = some { id := 0, handle := 100 } := by
            decide
          rw [h0] at hg
          exact (Option.some.inj hg).symm
        rw [this]
        decide)
      (by decide)).2.2.trans (by decide),
    ((C11_pre_destroy_ordering recordingEnv C11_state.recorded 7).2.2.2.2.2.2.2.2.2
      (fun g hg => by
        have : g = { id := 0, handle := 100 } := by
          have h0 : C11_state.recorded.g_gdiResource = some { id := 0, handle := 100 } := by
            decide
          rw [h0] at hg
          exact (Option.some.inj hg).symm
        rw [this]
        decide)
      (by decide)).1.trans (by decide)⟩

/-! ## C15: `present` and `present1` prepare their sources -/

section Present

variable {W : Type}

theorem prepareEvents_congr (s t : State W) (hd : s.dev.m_resources = t.dev.m_resources)
    (h : HANDLE) (i : UINT) (b : Bool) : prepareEvents s h i b = prepareEvents t h i b := by
  simp [prepareEvents, Device.getResource, hd]

theorem present1Events_congr (s t : State W) (hd : s.dev.m_resources = t.dev.m_resources)
    (l : List D3DDDIARG_PRESENTSURFACE) : present1Events s l = present1Events t l := by
  induction l with
  | nil => rfl
  | cons src rest ih => simp [present1Events, ih, prepareEvents_congr s t hd]

theorem Device.present1_prepare_trace_eq (env : Env W) (l : List D3DDDIARG_PRESENTSURFACE)
    (s : State W) : (Device.present1_prepare env s l).trace = s.trace ++ present1Events s l := by
  induction l generalizing s with
  | nil => simp [Device.present1_prepare, present1Events]
  | cons src rest ih =>
    simp only [Device.present1_prepare, present1Events, ih, Device.prepareForRendering_trace]
    rw [present1Events_congr _ s (by rw [Device.prepareForRendering_dev]), List.append_assoc]

theorem present1Events_mem (s : State W) (l : List D3DDDIARG_PRESENTSURFACE) (e : Event)
    (he : e ∈ present1Events s l) :
    ∃ src r, src ∈ l ∧ Device.getResource s src.hResource = some r ∧
      e = .Resource_prepareForRendering r src.SubResourceIndex true := by
  induction l with
  | nil => simp [present1Events] at he
  | cons src rest ih =>
    simp only [present1Events, List.mem_append] at he
    rcases he with he | he
    · unfold prepareEvents at he
      split at he
      · rename_i r hr
        simp only [List.mem_singleton] at he
        exact ⟨src, r, List.mem_cons_self _ _, hr, he⟩
      · simp at he
    · obtain ⟨src', r, hm, hr, hev⟩ := ih he
      exact ⟨src', r, List.mem_cons_of_mem _ hm, hr, hev⟩

/-- Claim C15. `present1` prepares every source: it flushes the batched
primitives (the pending batch is handed to the driver and the batcher left
empty), then for the entries of `phSrcResources` in increasing order prepares
the Resource of each registered handle with its `SubResourceIndex` and
read-only access, skipping handles that are not registered, each preparation
acting on the world the step before it left, then calls the original
`pfnPresent1` once, in the world the last preparation left (it is the last
event, every event in between is a `prepareForRendering`), and returns its
result unchanged, ending in the world that call left; `present` does the same
for its single `hSrcResource`. -/
theorem C15_present_prepares_every_source (env : Env W) (s : State W)
    (data1 : D3DDDIARG_PRESENT1) (data : D3DDDIARG_PRESENT) :
    Device.present1 env s data1 =
      ((env.pfnPresent1
          (present1World env s
            (env.commitBatch s.world s.dev.m_device s.dev.m_drawPrimitive.m_batched)
            data1.phSrcResources)
          s.dev.m_device data1).1,
        s.flushedThen (present1Events s data1.phSrcResources ++ [.pfnPresent1 data1])
          (env.pfnPresent1
            (present1World env s
              (env.commitBatch s.world s.dev.m_device s.dev.m_drawPrimitive.m_batched)
              data1.phSrcResources)
            s.dev.m_device data1).2) ∧
    ((Device.present1 env s data1).2.world =
        (env.pfnPresent1
          (present1World env s
            (env.commitBatch s.world s.dev.m_device s.dev.m_drawPrimitive.m_batched)
            data1.phSrcResources)
          s.dev.m_device data1).2 ∧
      (Device.present1 env s data1).2.dev.m_drawPrimitive.m_batched = [] ∧
      (Device.present1 env s data1).2.trace =
        s.trace ++ [.flushPrimitives s.dev.m_drawPrimitive.m_batched] ++
          present1Events s data1.phSrcResources ++ [.pfnPresent1 data1]) ∧
    (∀ (w : W) src rest,
      present1World env s w [] = w ∧
      present1World env s w (src :: rest) =
        present1World env s
          (match Device.getResource s src.hResource with
            | some r => env.Resource_prepareForRendering w r src.SubResourceIndex true
            | none => w)
          rest ∧
      present1Events s [] = [] ∧
      present1Events s (src :: rest) =
        (match Device.getResource s src.hResource with
          | some r => [Event.Resource_prepareForRendering r src.SubResourceIndex true]
          | none => []) ++ present1Events s rest) ∧
    (∀ e ∈ present1Events s data1.phSrcResources,
      ∃ src r, src ∈ data1.phSrcResources ∧ Device.getResource s src.hResource = some r ∧
        e = .Resource_prepareForRendering r src.SubResourceIndex true) ∧
    Device.present env s data =
      ((env.pfnPresent
          (match Device.getResource s data.hSrcResource with
            | some r =>
              env.Resource_prepareForRendering
                (env.commitBatch s.world s.dev.m_device s.dev.m_drawPrimitive.m_batched)
                r data.SrcSubResourceIndex true
            | none => env.commitBatch s.world s.dev.m_device s.dev.m_drawPrimitive.m_batched)
          s.dev.m_device data).1,
        s.flushedThen
          ((match Device.getResource s data.hSrcResource with
            | some r => [Event.Resource_prepareForRendering r data.SrcSubResourceIndex true]
            | none => []) ++ [.pfnPresent data])
          (env.pfnPresent
            (match Device.getResource s data.hSrcResource with
              | some r =>
                env.Resource_prepareForRendering
                  (env.commitBatch s.world s.dev.m_device s.dev.m_drawPrimitive.m_batched)
                  r data.SrcSubResourceIndex true
              | none => env.commitBatch s.world s.dev.m_device s.dev.m_drawPrimitive.m_batched)
            s.dev.m_device data).2) ∧
    ((Device.present env s data).2.dev.m_drawPrimitive.m_batched = [] ∧
      (Device.present env s data).2.trace =
        s.trace ++ [.flushPrimitives s.dev.m_drawPrimitive.m_batched] ++
          prepareEvents s data.hSrcResource data.SrcSubResourceIndex true ++
          [.pfnPresent data]) := by
  have h1 := Device.present1_eq env s data1
  have h2 := Device.present_eq env s data
  refine ⟨h1, ?_, ?_, ?_, h2, ?_⟩
  · rw [h1]
    refine ⟨rfl, rfl, ?_⟩
    simp [State.flushedThen_trace]
  · intro w src rest
    exact ⟨rfl, rfl, rfl, rfl⟩
  · exact fun e he => present1Events_mem s _ e he
  · rw [h2]
    refine ⟨rfl, ?_⟩
    simp [State.flushedThen_trace]

end Present

/-! ## C16 and C17: references to destroyed Resources -/

/-- Claim C16 fails on the code. After `Device::add`, a `createResource2` on
the device and `setGdiResourceHandle` of the new handle, the GDI resource
reference is a registered Resource; `Device::remove` of the device then
empties the table but leaves `g_gdiResource` (and `g_gdiResourceHandle`)
pointing at the Resource that was destroyed with the device. -/
theorem C16_gdiResource_dangles_after_remove :
    gdiResourceRegistered
      (runProcOps (simEnv goodDriver) (fun _ => 0x200) initialProcess C16_ops) = true ∧
    (runProcOps (simEnv goodDriver) (fun _ => 0x200) initialProcess
      (C16_ops ++ [.remove 1])).s_devices = [] ∧
    (runProcOps (simEnv goodDriver) (fun _ => 0x200) initialProcess
      (C16_ops ++ [.remove 1])).g_gdiResource = some { id := 0, handle := 102 } ∧
    gdiResourceRegistered
      (runProcOps (simEnv goodDriver) (fun _ => 0x200) initialProcess
        (C16_ops ++ [.remove 1])) = false := by
  decide

/-- Claim C17 fails on the code. After `createResource2`, a successful
`setRenderTarget` of the new handle for render target 0 and a successful
`destroyResource` of that handle, the registry is empty but `m_renderTarget`
still refers to the destroyed Resource, and the next `drawPrimitive` calls
`prepareForRendering` on it. -/
theorem C17_renderTarget_dangles_after_destroy :
    renderTargetRegistered
      (runOps (simEnv goodDriver) (initialState 0x200) (C17_ops.take 2)) = true ∧
    (runOps (simEnv goodDriver) (initialState 0x200) C17_ops).dev.m_resources = [] ∧
    (runOps (simEnv goodDriver) (initialState 0x200) C17_ops).dev.m_renderTarget =
      some { id := 0, handle := 100 } ∧
    renderTargetRegistered (runOps (simEnv goodDriver) (initialState 0x200) C17_ops) = false ∧
    (Device.drawPrimitive (simEnv goodDriver)
        (runOps (simEnv goodDriver) (initialState 0x200) C17_ops)
        { PrimitiveType := 4, VStart := 0, PrimitiveCount := 1 } []).2.trace.getLast? =
      some (.Resource_prepareForRendering { id := 0, handle := 100 } 0 false) := by
  decide

/-- Witness of C15 on the recording driver, in a state where handle 100 is
registered and 555 is not: `present1` hands the pending batch to the driver,
prepares the first and the third source, in this order, skips the second, and
then the driver sees `pfnPresent1`. -/
theorem C15_present_prepares_every_source_witness :
    (Device.present1 recordingEnv C8_state.recorded C15_data).2.world =
      [.flushPrimitives [],
        .Resource_prepareForRendering { id := 0, handle := 100 } 2 true,
        .Resource_prepareForRendering { id := 0, handle := 100 } 1 true,
        .pfnPresent1 C15_data] ∧
    (Device.present1 recordingEnv C8_state.recorded C15_data).2.trace =
      [.flushPrimitives [],
        .Resource_prepareForRendering { id := 0, handle := 100 } 2 true,
        .Resource_prepareForRendering { id := 0, handle := 100 } 1 true,
        .pfnPresent1 C15_data] :=
  ⟨(C15_present_prepares_every_source recordingEnv C8_state.recorded C15_data
      { hSrcResource := 0, SrcSubResourceIndex := 0, hDstResource := 0,
        DstSubResourceIndex := 0 }).2.1.1.trans (by decide),
    (C15_present_prepares_every_source recordingEnv C8_state.recorded C15_data
      { hSrcResource := 0, SrcSubResourceIndex := 0, hDstResource := 0,
        DstSubResourceIndex := 0 }).2.1.2.2.trans (by decide)⟩

end D3dDdi

/-! # Theorems of the other modules -/

namespace DDraw

open D3dDdi (HANDLE HRESULT SUCCEEDED FAILED nullptr)

/-! ## C12: the capability word of the primary surface -/

theorem and_two_pow_eq_zero (n k : Nat) : n &&& 2 ^ k = 0 ↔ n.testBit k = false := by
  constructor
  · intro h
    have := congrArg (fun x => x.testBit k) h
    simpa [Nat.testBit_and, Nat.testBit_two_pow_self] using this
  · intro h
    apply Nat.eq_of_testBit_eq
    intro i
    by_cases hi : k = i
    · subst hi
      simp [Nat.testBit_and, h]
    · simp [Nat.testBit_and, Nat.testBit_two_pow_of_ne hi]

theorem hasCap_two_pow (n k : Nat) : hasCap n (2 ^ k) ↔ n.testBit k = true := by
  unfold hasCap
  rw [ne_eq, and_two_pow_eq_zero]
  simp

/-- The test `desc.ddsCaps.dwCaps & DDSCAPS_3DDEVICE` of `create`, made after the
placement bits were stripped, sees bit 13 of the original word. -/
theorem stripped_has3DDevice (c : Nat) :
    ((c &&& notDWORD (DDSCAPS_PRIMARYSURFACE ||| DDSCAPS_SYSTEMMEMORY ||| DDSCAPS_VIDEOMEMORY |||
        DDSCAPS_LOCALVIDMEM ||| DDSCAPS_NONLOCALVIDMEM)) ||| DDSCAPS_OFFSCREENPLAIN) &&&
      DDSCAPS_3DDEVICE ≠ 0 ↔ c.testBit 13 = true := by
  have e3 : DDSCAPS_3DDEVICE = 2 ^ 13 := by decide
  rw [e3, ne_eq, and_two_pow_eq_zero]
  simp only [Nat.testBit_or, Nat.testBit_and, notDWORD, DDSCAPS_PRIMARYSURFACE,
    DDSCAPS_SYSTEMMEMORY, DDSCAPS_VIDEOMEMORY, DDSCAPS_LOCALVIDMEM, DDSCAPS_NONLOCALVIDMEM,
    DDSCAPS_OFFSCREENPLAIN]
  cases c.testBit 13 <;> decide

/-- Every bit of the capability word that `create` passes on, in terms of the
original word `c` and the bit depth `b` of the display mode. -/
theorem PrimarySurface.createDesc_caps_testBit (desc dm : DDSURFACEDESC2) (i : Nat)
    (hi : i < 32) :
    (PrimarySurface.createDesc desc dm).ddsCaps_dwCaps.testBit i =
      if i = 9 ∨ i = 14 ∨ i = 28 ∨ i = 29 then false
      else if i = 6 then true
      else if i = 13 then
        desc.ddsCaps_dwCaps.testBit 13 && decide (8 < dm.ddpfPixelFormat.dwRGBBitCount)
      else if i = 11 then
        desc.ddsCaps_dwCaps.testBit 13 && decide (dm.ddpfPixelFormat.dwRGBBitCount ≤ 8)
      else desc.ddsCaps_dwCaps.testBit i := by
  unfold PrimarySurface.createDesc
  simp only [stripped_has3DDevice]
  generalize desc.ddsCaps_dwCaps = c
  generalize dm.ddpfPixelFormat.dwRGBBitCount = b
  by_cases hb : b ≤ 8
  · have h8 : decide (8 < b) = false := by simpa using hb
    have h8' : decide (b ≤ 8) = true := by simpa using hb
    cases h13 : c.testBit 13 <;>
      simp only [hb, h13, h8, h8', true_and, false_and, and_true, and_false, if_true, if_false,
        Bool.false_eq_true, Nat.testBit_or, Nat.testBit_and, notDWORD, DDSCAPS_PRIMARYSURFACE,
        DDSCAPS_SYSTEMMEMORY, DDSCAPS_VIDEOMEMORY, DDSCAPS_LOCALVIDMEM, DDSCAPS_NONLOCALVIDMEM,
        DDSCAPS_OFFSCREENPLAIN, DDSCAPS_3DDEVICE] <;>
      interval_cases i <;> (try simp only [h13]) <;>
      first | decide | (generalize c.testBit _ = x; cases x <;> decide)
  · have h8 : decide (8 < b) = true := by simpa using hb
    have h8' : decide (b ≤ 8) = false := by simpa using hb
    cases h13 : c.testBit 13 <;>
      simp only [hb, h13, h8, h8', true_and, false_and, and_true, and_false, if_true, if_false,
        Bool.false_eq_true, Nat.testBit_or, Nat.testBit_and, notDWORD, DDSCAPS_PRIMARYSURFACE,
        DDSCAPS_SYSTEMMEMORY, DDSCAPS_VIDEOMEMORY, DDSCAPS_LOCALVIDMEM, DDSCAPS_NONLOCALVIDMEM,
        DDSCAPS_OFFSCREENPLAIN, DDSCAPS_3DDEVICE] <;>
      interval_cases i <;> (try simp only [h13]) <;>
      first | decide | (generalize c.testBit _ = x; cases x <;> decide)

section PrimaryCreate

variable {W : Type}

theorem PrimarySurface.restore_origCaps (env : PrimaryEnv W) (st : PrimaryState W)
    (m_surface : Nat) :
    (PrimarySurface.restore env st m_surface).globals.g_origCaps = st.globals.g_origCaps := by
  unfold PrimarySurface.restore PrimarySurface.updateFrontResource
  simp only [PrimaryState.call]
  split <;> rfl

/-- Claim C12. Primary-surface capability conversion. For every descriptor
with capability word `c` and every display mode `dm` of bit depth `b`, the word
that `PrimarySurface::create` passes to `Surface::create` (i) has none of
PRIMARYSURFACE, VIDEOMEMORY, LOCALVIDMEM, NONLOCALVIDMEM set, (ii) has
OFFSCREENPLAIN set, (iii) has 3DDEVICE set iff `c` has it and `b > 8`, (iv) has
SYSTEMMEMORY set iff `c` has 3DDEVICE and `b ≤ 8`, and (v) agrees with `c` on
each of the other 32 bits; width, height and pixel format are those of the
display mode; once `RealPrimarySurface::create` succeeded, `Surface::create` is
called with that descriptor for the current display mode, in the world
`RealPrimarySurface::create` left; when it fails, its result is returned, the
unattached private data is destroyed (the five globals are cleared) and
`RealPrimarySurface::release` is called by the destructor and again after the
log; when it succeeds, the original word is stored and `restore` runs in the
world `Surface::create` left; and after a successful `create`, `getOrigCaps`
reports `c`. -/
theorem C12_primary_surface_caps_conversion (env : PrimaryEnv W) (st : PrimaryState W)
    (desc dm : DDSURFACEDESC2) (surface : Nat) :
    (¬ hasCap (PrimarySurface.createDesc desc dm).ddsCaps_dwCaps DDSCAPS_PRIMARYSURFACE ∧
      ¬ hasCap (PrimarySurface.createDesc desc dm).ddsCaps_dwCaps DDSCAPS_VIDEOMEMORY ∧
      ¬ hasCap (PrimarySurface.createDesc desc dm).ddsCaps_dwCaps DDSCAPS_LOCALVIDMEM ∧
      ¬ hasCap (PrimarySurface.createDesc desc dm).ddsCaps_dwCaps DDSCAPS_NONLOCALVIDMEM) ∧
    hasCap (PrimarySurface.createDesc desc dm).ddsCaps_dwCaps DDSCAPS_OFFSCREENPLAIN ∧
    (hasCap (PrimarySurface.createDesc desc dm).ddsCaps_dwCaps DDSCAPS_3DDEVICE ↔
      hasCap desc.ddsCaps_dwCaps DDSCAPS_3DDEVICE ∧ 8 < dm.ddpfPixelFormat.dwRGBBitCount) ∧
    (hasCap (PrimarySurface.createDesc desc dm).ddsCaps_dwCaps DDSCAPS_SYSTEMMEMORY ↔
      hasCap desc.ddsCaps_dwCaps DDSCAPS_3DDEVICE ∧ dm.ddpfPixelFormat.dwRGBBitCount ≤ 8) ∧
    (∀ i, i < 32 → i ∉ convertedCapBits →
      (PrimarySurface.createDesc desc dm).ddsCaps_dwCaps.testBit i =
        desc.ddsCaps_dwCaps.testBit i) ∧
    ((PrimarySurface.createDesc desc dm).dwWidth = dm.dwWidth ∧
      (PrimarySurface.createDesc desc dm).dwHeight = dm.dwHeight ∧
      (PrimarySurface.createDesc desc dm).ddpfPixelFormat = dm.ddpfPixelFormat) ∧
    (FAILED (env.RealPrimarySurface_create st.world).1 = false →
      PrimaryEvent.Surface_create
          (PrimarySurface.createDesc desc
            (env.getDisplayMode (env.RealPrimarySurface_create st.world).2)) ∈
        (PrimarySurface.create env st desc surface).2.2.trace) ∧
    (FAILED (env.RealPrimarySurface_create st.world).1 = false →
      FAILED (env.Surface_create (env.RealPrimarySurface_create st.world).2
        (PrimarySurface.createDesc desc
          (env.getDisplayMode (env.RealPrimarySurface_create st.world).2))).1 = true →
      (PrimarySurface.create env st desc surface).1 =
        (env.Surface_create (env.RealPrimarySurface_create st.world).2
          (PrimarySurface.createDesc desc
            (env.getDisplayMode (env.RealPrimarySurface_create st.world).2))).1 ∧
      (PrimarySurface.create env st desc surface).2.2.globals =
        { g_primarySurface := 0, g_gdiResourceHandle := nullptr, g_frontResource := nullptr,
          g_origCaps := 0, s_palette := 0 } ∧
      (PrimarySurface.create env st desc surface).2.2.trace =
        st.trace ++
          [.RealPrimarySurface_create,
            .Surface_create
              (PrimarySurface.createDesc desc
                (env.getDisplayMode (env.RealPrimarySurface_create st.world).2)),
            .RealPrimarySurface_release,
            .Log
              (env.Surface_create (env.RealPrimarySurface_create st.world).2
                (PrimarySurface.createDesc desc
                  (env.getDisplayMode (env.RealPrimarySurface_create st.world).2))).1,
            .RealPrimarySurface_release] ∧
      (PrimarySurface.create env st desc surface).2.2.world =
        env.RealPrimarySurface_release
          (env.RealPrimarySurface_release
            (env.Surface_create (env.RealPrimarySurface_create st.world).2
              (PrimarySurface.createDesc desc
                (env.getDisplayMode (env.RealPrimarySurface_create st.world).2))).2.2.2)) ∧
    (FAILED (env.RealPrimarySurface_create st.world).1 = false →
      FAILED (env.Surface_create (env.RealPrimarySurface_create st.world).2
        (PrimarySurface.createDesc desc
          (env.getDisplayMode (env.RealPrimarySurface_create st.world).2))).1 = false →
      PrimarySurface.create env st desc surface =
        (DD_OK,
          (env.Surface_create (env.RealPrimarySurface_create st.world).2
            (PrimarySurface.createDesc desc
              (env.getDisplayMode (env.RealPrimarySurface_create st.world).2))).2.1,
          PrimarySurface.restore env
            { globals := { st.globals with g_origCaps := desc.ddsCaps_dwCaps }
              trace := st.trace ++
                [.RealPrimarySurface_create,
                  .Surface_create
                    (PrimarySurface.createDesc desc
                      (env.getDisplayMode (env.RealPrimarySurface_create st.world).2))]
              world :=
                (env.Surface_create (env.RealPrimarySurface_create st.world).2
                  (PrimarySurface.createDesc desc
                    (env.getDisplayMode (env.RealPrimarySurface_create st.world).2))).2.2.2 }
            (env.Surface_create (env.RealPrimarySurface_create st.world).2
              (PrimarySurface.createDesc desc
                (env.getDisplayMode (env.RealPrimarySurface_create st.world).2))).2.2.1)) ∧
    (SUCCEEDED (PrimarySurface.create env st desc surface).1 = true →
      PrimarySurface.getOrigCaps (PrimarySurface.create env st desc surface).2.2 =
        desc.ddsCaps_dwCaps) := by
  have hbit := PrimarySurface.createDesc_caps_testBit desc dm
  have e9 : DDSCAPS_PRIMARYSURFACE = 2 ^ 9 := by decide
  have e14 : DDSCAPS_VIDEOMEMORY = 2 ^ 14 := by decide
  have e28 : DDSCAPS_LOCALVIDMEM = 2 ^ 28 := by decide
  have e29 : DDSCAPS_NONLOCALVIDMEM = 2 ^ 29 := by decide
  have e6 : DDSCAPS_OFFSCREENPLAIN = 2 ^ 6 := by decide
  have e13 : DDSCAPS_3DDEVICE = 2 ^ 13 := by decide
  have e11 : DDSCAPS_SYSTEMMEMORY = 2 ^ 11 := by decide
  refine ⟨⟨?_, ?_, ?_, ?_⟩, ?_, ?_, ?_, ?_, ?_, ?_, ?_, ?_, ?_⟩
  · rw [e9, hasCap_two_pow, hbit 9 (by norm_num)]
    simp
  · rw [e14, hasCap_two_pow, hbit 14 (by norm_num)]
    simp
  · rw [e28, hasCap_two_pow, hbit 28 (by norm_num)]
    simp
  · rw [e29, hasCap_two_pow, hbit 29 (by norm_num)]
    simp
  · rw [e6, hasCap_two_pow, hbit 6 (by norm_num)]
    simp
  · rw [e13, hasCap_two_pow, hasCap_two_pow, hbit 13 (by norm_num)]
    simp
  · rw [e11, e13, hasCap_two_pow, hasCap_two_pow, hbit 11 (by norm_num)]
    simp
  · intro i hi hn
    rw [hbit i hi]
    simp only [convertedCapBits, List.mem_cons, List.mem_singleton, List.not_mem_nil,
      or_false, not_or] at hn
    simp [hn]
  · unfold PrimarySurface.createDesc
    simp only []
    split <;> simp
  · intro hok
    unfold PrimarySurface.create
    simp only [hok, Bool.false_eq_true, if_false]
    split
    · simp [PrimaryState.call, PrimarySurface.destructor]
    · have hmem : ∀ (s : PrimaryState W) (e : PrimaryEvent) (m : Nat), e ∈ s.trace →
          e ∈ (PrimarySurface.restore env s m).trace := by
        intro s e m he
        unfold PrimarySurface.restore PrimarySurface.updateFrontResource
        simp only [PrimaryState.call]
        split <;> simp [he]
      apply hmem
      simp [PrimaryState.call]
  · intro hok hfail
    unfold PrimarySurface.create
    simp only [hok, Bool.false_eq_true, if_false, PrimaryState.call, hfail, if_true,
      PrimarySurface.destructor]
    simp
  · intro hok hfail
    unfold PrimarySurface.create
    simp only [hok, Bool.false_eq_true, if_false, PrimaryState.call, hfail, List.append_assoc,
      List.singleton_append]
  · intro hok
    unfold PrimarySurface.create at hok ⊢
    simp only [] at hok ⊢
    split
    · rename_i hf
      rw [if_pos hf] at hok
      simp only [FAILED, SUCCEEDED, decide_eq_true_eq] at hf hok
      exact absurd hok (not_le.mpr hf)
    · split
      · rename_i hf1 hf2
        rw [if_neg hf1, if_pos hf2] at hok
        simp only [FAILED, SUCCEEDED, decide_eq_true_eq] at hf2 hok
        exact absurd hok (not_le.mpr hf2)
      · simp [PrimarySurface.getOrigCaps, PrimarySurface.restore_origCaps]

/-- Claim C13. Primary-surface release clears everything and is idempotent:
from any state of the globals, the destructor of `PrimarySurface` leaves the
GDI resource handle, the front resource handle, the primary surface reference
and the palette reference null and the original caps 0, and calls
`RealPrimarySurface::release` (once, as its last action); run a second time it
leaves the globals as the first run left them. -/
theorem C13_primary_surface_release_idempotent (env : PrimaryEnv W) (st : PrimaryState W) :
    (PrimarySurface.destructor env st).globals =
      { g_primarySurface := 0, g_gdiResourceHandle := nullptr, g_frontResource := nullptr,
        g_origCaps := 0, s_palette := 0 } ∧
    (PrimarySurface.destructor env st).trace = st.trace ++ [.RealPrimarySurface_release] ∧
    (PrimarySurface.destructor env st).world = env.RealPrimarySurface_release st.world ∧
    (PrimarySurface.destructor env (PrimarySurface.destructor env st)).globals =
      (PrimarySurface.destructor env st).globals :=
  ⟨rfl, rfl, rfl, rfl⟩

end PrimaryCreate

/-- Witness of C12: a primary 3D surface in local video memory is asked for.
On an 8 bit display the word passed on is OFFSCREENPLAIN | SYSTEMMEMORY, on a
32 bit display it is OFFSCREENPLAIN | 3DDEVICE; after the successful create
the original word is reported; a second create, in the state the first one
left, whose `Surface::create` fails clears the globals the first one set and
releases the real primary surface twice. -/
theorem C12_primary_surface_caps_conversion_witness :
    (PrimarySurface.createDesc primaryDesc
      ((simPrimaryEnv 8 false).getDisplayMode ())).ddsCaps_dwCaps = 0x840 ∧
    (PrimarySurface.createDesc primaryDesc
      ((simPrimaryEnv 32 false).getDisplayMode ())).ddsCaps_dwCaps = 0x2040 ∧
    PrimarySurface.getOrigCaps
      (PrimarySurface.create (simPrimaryEnv 8 false) initialPrimaryState primaryDesc 0).2.2 =
        0x10006200 ∧
    (PrimarySurface.create (simPrimaryEnv 8 true)
      (PrimarySurface.create (simPrimaryEnv 8 false) initialPrimaryState primaryDesc 0).2.2
      primaryDesc 0).2.2.globals = initialPrimaryState.globals ∧
    ((PrimarySurface.create (simPrimaryEnv 8 true)
      (PrimarySurface.create (simPrimaryEnv 8 false) initialPrimaryState primaryDesc 0).2.2
      primaryDesc 0).2.2.trace.drop 7) =
      [.RealPrimarySurface_release, .Log D3dDdi.E_FAIL, .RealPrimarySurface_release] := by
  have h := (C12_primary_surface_caps_conversion (simPrimaryEnv 8 false) initialPrimaryState
    primaryDesc ((simPrimaryEnv 8 false).getDisplayMode ()) 0).2.2.2.2.2.2.2.2.2 (by decide)
  have hf := (C12_primary_surface_caps_conversion (simPrimaryEnv 8 true)
    (PrimarySurface.create (simPrimaryEnv 8 false) initialPrimaryState primaryDesc 0).2.2
    primaryDesc ((simPrimaryEnv 8 true).getDisplayMode ()) 0).2.2.2.2.2.2.2.1 (by decide)
    (by decide)
  refine ⟨by decide, by decide, ?_, hf.2.1, by decide⟩
  rw [h]
  decide

/-- Witness of C13: after a successful create the globals are set; the
destructor clears them, and a second run changes nothing more. -/
theorem C13_primary_surface_release_idempotent_witness :
    (PrimarySurface.create (simPrimaryEnv 8 false) initialPrimaryState primaryDesc 0).2.2.globals =
      { g_primarySurface := 0x7000, g_gdiResourceHandle := 0x7001, g_frontResource := 0x7002,
        g_origCaps := 0x10006200, s_palette := 0 } ∧
    (PrimarySurface.destructor (simPrimaryEnv 8 false)
      (PrimarySurface.create (simPrimaryEnv 8 false) initialPrimaryState primaryDesc
        0).2.2).globals = initialPrimaryState.globals ∧
    (PrimarySurface.destructor (simPrimaryEnv 8 false)
      (PrimarySurface.destructor (simPrimaryEnv 8 false)
        (PrimarySurface.create (simPrimaryEnv 8 false) initialPrimaryState primaryDesc
          0).2.2)).globals = initialPrimaryState.globals :=
  ⟨by decide,
    (C13_primary_surface_release_idempotent (simPrimaryEnv 8 false)
      (PrimarySurface.create (simPrimaryEnv 8 false) initialPrimaryState primaryDesc 0).2.2).1,
    ((C13_primary_surface_release_idempotent (simPrimaryEnv 8 false)
      (PrimarySurface.create (simPrimaryEnv 8 false) initialPrimaryState primaryDesc
        0).2.2).2.2.2).trans
      (C13_primary_surface_release_idempotent (simPrimaryEnv 8 false)
        (PrimarySurface.create (simPrimaryEnv 8 false) initialPrimaryState primaryDesc
          0).2.2).1⟩

end DDraw

namespace Direct3d

/-! ## C14: the `IDirect3DMaterial` family -/

/-- Counterexample to C14 as stated: with the three members of `IUnknown`, the
list visited for `IDirect3DMaterialVtbl` (9 members, `Initialize` fourth) is not
a prefix of the list visited for the later `IDirect3DMaterial2Vtbl` (6 members,
`SetMaterial` fourth). -/
theorem C14_counterexample :
    VtableForEach_IDirect3DMaterialVtbl iUnknownMembers =
      ["QueryInterface", "AddRef", "Release", "Initialize", "SetMaterial", "GetMaterial",
        "GetHandle", "Reserve", "Unreserve"] ∧
    VtableForEach_IDirect3DMaterial2Vtbl iUnknownMembers =
      ["QueryInterface", "AddRef", "Release", "SetMaterial", "GetMaterial", "GetHandle"] ∧
    ¬ (VtableForEach_IDirect3DMaterialVtbl iUnknownMembers <+:
        VtableForEach_IDirect3DMaterial2Vtbl iUnknownMembers) := by
  refine ⟨rfl, rfl, ?_⟩
  intro h
  have hl := h.length_le
  revert hl
  decide

/-- Claim C14, amended. In the `IDirect3DMaterial` family the list visited for
`IDirect3DMaterial3Vtbl` is the list visited for `IDirect3DMaterial2Vtbl`
followed by no further member; the lists of `IDirect3DMaterialVtbl` and of
`IDirect3DMaterial2Vtbl` both start with the `IUnknown` members, followed by
Initialize, SetMaterial, GetMaterial, GetHandle, Reserve, Unreserve and by
SetMaterial, GetMaterial, GetHandle respectively; the list of
`IDirect3DMaterialVtbl` is not a prefix of that of `IDirect3DMaterial2Vtbl`. -/
theorem C14_material_vtable_family (iUnknown : List String) :
    VtableForEach_IDirect3DMaterial2Vtbl iUnknown <+:
      VtableForEach_IDirect3DMaterial3Vtbl iUnknown ∧
    VtableForEach_IDirect3DMaterial3Vtbl iUnknown =
      VtableForEach_IDirect3DMaterial2Vtbl iUnknown ++ [] ∧
    iUnknown <+: VtableForEach_IDirect3DMaterialVtbl iUnknown ∧
    iUnknown <+: VtableForEach_IDirect3DMaterial2Vtbl iUnknown ∧
    VtableForEach_IDirect3DMaterialVtbl iUnknown =
      iUnknown ++
        ["Initialize", "SetMaterial", "GetMaterial", "GetHandle", "Reserve", "Unreserve"] ∧
    VtableForEach_IDirect3DMaterial2Vtbl iUnknown =
      iUnknown ++ ["SetMaterial", "GetMaterial", "GetHandle"] ∧
    ¬ (VtableForEach_IDirect3DMaterialVtbl iUnknown <+:
        VtableForEach_IDirect3DMaterial2Vtbl iUnknown) := by
  refine ⟨List.prefix_refl _, (List.append_nil _).symm, List.prefix_append _ _,
    List.prefix_append _ _, rfl, rfl, ?_⟩
  intro h
  have hl := h.length_le
  simp [VtableForEach_IDirect3DMaterialVtbl, VtableForEach_IDirect3DMaterial2Vtbl] at hl

end Direct3d

namespace Gdi

/-! ## C18: indices into the palette tables -/

theorem exactMatch_scan_accesses (table : List PALETTEENTRY) (entry : PALETTEENTRY)
    (l : List Nat) : ∀ i ∈ (exactMatch_scan table entry l).2, i ∈ l := by
  induction l with
  | nil => simp [exactMatch_scan]
  | cons j rest ih =>
    intro i hi
    unfold exactMatch_scan at hi
    split at hi
    · simp only [List.mem_singleton] at hi
      simp [hi]
    · simp only [List.mem_cons] at hi
      rcases hi with hi | hi
      · simp [hi]
      · exact List.mem_cons_of_mem _ (ih i hi)

theorem indexRange_mem (start count i : Nat) (hi : i ∈ indexRange start count) :
    start ≤ i ∧ i < start + count := by
  simp only [indexRange, List.mem_map, List.mem_range] at hi
  obtain ⟨k, hk, rfl⟩ := hi
  omega

theorem subUINT_256 (b : Nat) (hb : b ≤ 256) : subUINT 256 b = 256 - b := by
  unfold subUINT
  omega

theorem addUINT_one (a : Nat) (h : a < 256) : addUINT a 1 = a + 1 := by
  unfold addUINT
  omega

theorem exactMatch_inv (st : PaletteState) (entry : PALETTEENTRY) (h : st.inv) :
    (exactMatch st entry).2.inv ∧
    (exactMatch st entry).2.g_systemPaletteFirstUnusedIndex =
      st.g_systemPaletteFirstUnusedIndex ∧
    (exactMatch st entry).2.g_systemPaletteLastNonReservedIndex =
      st.g_systemPaletteLastNonReservedIndex ∧
    (exactMatch st entry).2.g_systemPaletteFirstNonReservedIndex =
      st.g_systemPaletteFirstNonReservedIndex ∧
    (exactMatch st entry).2.g_systemPalette = st.g_systemPalette := by
  obtain ⟨hu, hfu, hf, hl, ha⟩ := h
  have h1 : ∀ i ∈ (exactMatch_scan st.g_systemPalette entry
      (List.range st.g_systemPaletteFirstUnusedIndex)).2, i < 256 := by
    intro i hi
    have := exactMatch_scan_accesses _ _ _ i hi
    rw [List.mem_range] at this
    omega
  have h2 : ∀ i ∈ (exactMatch_scan st.g_systemPalette entry
      ((List.range 256).drop (addUINT st.g_systemPaletteLastNonReservedIndex 1))).2,
      i < 256 := by
    intro i hi
    have := List.mem_of_mem_drop (exactMatch_scan_accesses _ _ _ i hi)
    rwa [List.mem_range] at this
  unfold exactMatch
  simp only []
  split
  · refine ⟨⟨hu, hfu, hf, hl, ?_⟩, rfl, rfl, rfl, rfl⟩
    intro i hi
    rcases List.mem_append.mp hi with hi | hi
    · exact ha i hi
    · exact h1 i hi
  · refine ⟨⟨hu, hfu, hf, hl, ?_⟩, rfl, rfl, rfl, rfl⟩
    intro i hi
    rcases List.mem_append.mp hi with hi | hi
    · rcases List.mem_append.mp hi with hi | hi
      · exact ha i hi
      · exact h1 i hi
    · exact h2 i hi

theorem Palette.setSystemPalette_store_inv (st : PaletteState) (entry : PALETTEENTRY)
    (h : st.inv)
    (hle : st.g_systemPaletteFirstUnusedIndex ≤ st.g_systemPaletteLastNonReservedIndex) :
    (Palette.setSystemPalette_store st entry).inv := by
  obtain ⟨hu, hfu, hf, hl, ha⟩ := h
  have hlt : st.g_systemPaletteFirstUnusedIndex < 256 := by omega
  refine ⟨hu, ?_, hf, hl, ?_⟩
  · show addUINT st.g_systemPaletteFirstUnusedIndex 1 ≤ 256
    rw [addUINT_one _ hlt]
    omega
  · intro i hi
    have hi' : i ∈ st.accesses ++ [st.g_systemPaletteFirstUnusedIndex] := hi
    rcases List.mem_append.mp hi' with hi' | hi'
    · exact ha i hi'
    · rw [List.mem_singleton] at hi'
      omega

theorem Palette.setSystemPalette_loop_inv (entries : List PALETTEENTRY) (st : PaletteState)
    (h : st.inv) : (Palette.setSystemPalette_loop st entries).inv := by
  induction entries generalizing st with
  | nil => exact h
  | cons entry rest ih =>
    unfold Palette.setSystemPalette_loop
    split
    · rename_i hle
      split
      · exact ih st h
      · split
        · split
          · exact ih _ (exactMatch_inv st entry h).1
          · refine ih _ (Palette.setSystemPalette_store_inv _ entry (exactMatch_inv st entry h).1 ?_)
            rw [(exactMatch_inv st entry h).2.1, (exactMatch_inv st entry h).2.2.1]
            exact hle
        · exact ih _ (Palette.setSystemPalette_store_inv st entry h hle)
    · exact h

theorem Palette.setHardwarePalette_fields (st : PaletteState) (entries : List PALETTEENTRY) :
    (Palette.setHardwarePalette st entries).g_systemPaletteUse = st.g_systemPaletteUse ∧
    (Palette.setHardwarePalette st entries).g_systemPalette = st.g_systemPalette := by
  unfold Palette.setHardwarePalette
  generalize memcpyEntries st.g_hardwarePalette entries 0 0 256 = hw
  exact ⟨rfl, rfl⟩

theorem VirtualScreen_updatePalette_inv_fields (st : PaletteState)
    (entries : List PALETTEENTRY) :
    (VirtualScreen_updatePalette st entries).g_systemPaletteUse = st.g_systemPaletteUse ∧
    (VirtualScreen_updatePalette st entries).g_systemPalette = st.g_systemPalette :=
  ⟨rfl, rfl⟩

theorem Palette.setHardwarePalette_inv (st : PaletteState) (entries : List PALETTEENTRY)
    (h : st.inv) :
    (Palette.setHardwarePalette st entries).inv ∧
    (Palette.setHardwarePalette st entries).g_systemPaletteUse = st.g_systemPaletteUse ∧
    (Palette.setHardwarePalette st entries).g_systemPalette = st.g_systemPalette := by
  unfold Palette.setHardwarePalette
  generalize memcpyEntries st.g_hardwarePalette entries 0 0 256 = hw
  exact ⟨h, rfl, rfl⟩

theorem VirtualScreen_updatePalette_inv (st : PaletteState) (entries : List PALETTEENTRY)
    (h : st.inv) :
    (VirtualScreen_updatePalette st entries).inv ∧
    (VirtualScreen_updatePalette st entries).g_systemPaletteUse = st.g_systemPaletteUse ∧
    (VirtualScreen_updatePalette st entries).g_systemPalette = st.g_systemPalette :=
  ⟨h, rfl, rfl⟩

theorem Palette.setSystemPalette_inv (st : PaletteState) (entries : List PALETTEENTRY)
    (count : Nat) (forceBackground : Bool) (h : st.inv) :
    (Palette.setSystemPalette st entries count forceBackground).inv := by
  have h0 : (if !forceBackground then
      { st with g_systemPaletteFirstUnusedIndex := st.g_systemPaletteFirstNonReservedIndex }
      else st).inv := by
    split
    · obtain ⟨hu, hfu, hf, hl, ha⟩ := h
      exact ⟨hu, by show st.g_systemPaletteFirstNonReservedIndex ≤ 256; omega, hf, hl, ha⟩
    · exact h
  unfold Palette.setSystemPalette
  exact (VirtualScreen_updatePalette_inv _ _
    (Palette.setHardwarePalette_inv _ _
      (Palette.setSystemPalette_loop_inv (entries.take count) _ h0)).1).1

theorem updateStaticSysPalEntries_inv (st : PaletteState) (h : st.inv) :
    (updateStaticSysPalEntries st).inv ∧
    (updateStaticSysPalEntries st).g_systemPaletteUse = st.g_systemPaletteUse := by
  obtain ⟨hu, hfu, hf, hl, ha⟩ := h
  unfold updateStaticSysPalEntries
  simp only []
  split
  · exact ⟨⟨hu, hfu, hf, hl, ha⟩, rfl⟩
  · generalize hs1 : memcpyEntries st.g_systemPalette st.g_defaultPalette 0 0
      st.g_systemPaletteFirstNonReservedIndex = s1
    generalize hs2 : memcpyEntries s1 st.g_defaultPalette
      (subUINT 256 st.g_systemPaletteFirstNonReservedIndex)
      (subUINT 256 st.g_systemPaletteFirstNonReservedIndex)
      st.g_systemPaletteFirstNonReservedIndex = s2
    have hcopied : PaletteState.inv
        { st with
          g_systemPalette := s2
          accesses := st.accesses ++ indexRange 0 st.g_systemPaletteFirstNonReservedIndex ++
            indexRange (subUINT 256 st.g_systemPaletteFirstNonReservedIndex)
              st.g_systemPaletteFirstNonReservedIndex } := by
      refine ⟨hu, hfu, hf, hl, ?_⟩
      intro i hi
      have hi' : i ∈ st.accesses ++ indexRange 0 st.g_systemPaletteFirstNonReservedIndex ++
          indexRange (subUINT 256 st.g_systemPaletteFirstNonReservedIndex)
            st.g_systemPaletteFirstNonReservedIndex := hi
      rcases List.mem_append.mp hi' with hi' | hi'
      · rcases List.mem_append.mp hi' with hi' | hi'
        · exact ha i hi'
        · have := indexRange_mem _ _ _ hi'
          omega
      · have := indexRange_mem _ _ _ hi'
        rw [subUINT_256 _ (by omega)] at this
        omega
    have h1 := Palette.setHardwarePalette_inv _ s2 hcopied
    have h2 := VirtualScreen_updatePalette_inv _ s2 h1.1
    exact ⟨h2.1, h2.2.1.trans h1.2.1⟩

theorem updateStaticSysPalEntries_switch_inv (st : PaletteState) (u f l : Nat)
    (hu : u = SYSPAL_STATIC ∨ u = SYSPAL_NOSTATIC ∨ u = SYSPAL_NOSTATIC256) (hf : f ≤ 10)
    (hl : l ≤ 255) (h : st.inv) :
    (updateStaticSysPalEntries
      { st with
        g_systemPaletteFirstNonReservedIndex := f
        g_systemPaletteLastNonReservedIndex := l
        g_systemPaletteUse := u }).inv :=
  (updateStaticSysPalEntries_inv
    { st with
      g_systemPaletteFirstNonReservedIndex := f
      g_systemPaletteLastNonReservedIndex := l
      g_systemPaletteUse := u } ⟨hu, h.2.1, hf, hl, h.2.2.2.2⟩).1

theorem setSystemPaletteUse_inv (isDisplayDc : HDC → Bool) (st : PaletteState) (hdc : HDC)
    (uUsage : Nat) (h : st.inv) : (setSystemPaletteUse isDisplayDc st hdc uUsage).2.inv := by
  unfold setSystemPaletteUse
  simp only []
  split
  · exact h
  · split
    · exact h
    · split
      · rename_i hs
        exact updateStaticSysPalEntries_switch_inv st uUsage 10 245 (Or.inl hs) (by norm_num)
          (by norm_num) h
      · split
        · rename_i hs
          exact updateStaticSysPalEntries_switch_inv st uUsage 1 254 (Or.inr (Or.inl hs))
            (by norm_num) (by norm_num) h
        · split
          · rename_i hs
            exact updateStaticSysPalEntries_switch_inv st uUsage 0 255 (Or.inr (Or.inr hs))
              (by norm_num) (by norm_num) h
          · exact h

theorem getSystemPaletteEntries_inv (isDisplayDc : HDC → Bool) (st : PaletteState) (hdc : HDC)
    (iStartIndex nEntries : Nat) (lppe : Bool) (h : st.inv) :
    (getSystemPaletteEntries isDisplayDc st hdc iStartIndex nEntries lppe).2.2.inv := by
  obtain ⟨hu, hfu, hf, hl, ha⟩ := h
  unfold getSystemPaletteEntries
  simp only []
  split
  · exact ⟨hu, hfu, hf, hl, ha⟩
  · split
    · exact ⟨hu, hfu, hf, hl, ha⟩
    · split
      · exact ⟨hu, hfu, hf, hl, ha⟩
      · rename_i hlt
        have hlt' : iStartIndex < 256 := by omega
        refine ⟨hu, hfu, hf, hl, ?_⟩
        intro i hi
        have hi' : i ∈ st.accesses ++ indexRange iStartIndex
            (if nEntries > subUINT 256 iStartIndex then subUINT 256 iStartIndex
              else nEntries) := hi
        rcases List.mem_append.mp hi' with hi' | hi'
        · exact ha i hi'
        · have := indexRange_mem _ _ _ hi'
          rw [subUINT_256 _ (by omega)] at this
          split at this <;> omega

theorem PaletteOp.exec_inv (isDisplayDc : HDC → Bool) (st : PaletteState) (op : PaletteOp)
    (h : st.inv) : (op.exec isDisplayDc st).inv := by
  cases op with
  | setSystemPaletteUse hdc uUsage => exact setSystemPaletteUse_inv isDisplayDc st hdc uUsage h
  | setSystemPalette entries count forceBackground =>
    exact Palette.setSystemPalette_inv st entries count forceBackground h
  | getSystemPaletteEntries hdc iStartIndex nEntries lppe =>
    exact getSystemPaletteEntries_inv isDisplayDc st hdc iStartIndex nEntries lppe h

theorem Reachable.inv (isDisplayDc : HDC → Bool) (st : PaletteState)
    (h : Reachable isDisplayDc st) : st.inv := by
  induction h with
  | init st hi =>
    obtain ⟨hu, hfu, hf, hl, _, _, _, ha⟩ := hi
    refine ⟨Or.inl hu, by omega, by omega, by omega, ?_⟩
    rw [ha]
    intro i hi
    cases hi
  | step st op _ _ ih => exact PaletteOp.exec_inv isDisplayDc st op ih

theorem Reachable.runPaletteOps (isDisplayDc : HDC → Bool) (ops : List PaletteOp)
    (st : PaletteState) (h : Reachable isDisplayDc st) (hw : ∀ op ∈ ops, op.wellFormed) :
    Reachable isDisplayDc (runPaletteOps isDisplayDc st ops) := by
  induction ops generalizing st with
  | nil => exact h
  | cons op rest ih =>
    exact ih _ (Reachable.step st op h (hw op (List.mem_cons_self _ _)))
      (fun o ho => hw o (List.mem_cons_of_mem _ ho))

/-- Claim C18. Palette table index safety: in every state reachable from the
initial palette state by `setSystemPaletteUse`, `Gdi::Palette::setSystemPalette`
(with `count` within the entry array) and `getSystemPaletteEntries` calls with
arbitrary arguments, every index that was used to read or write the system and
default palette tables (by `setSystemPalette`, `exactMatch`,
`updateStaticSysPalEntries` and the clamped copy range of
`getSystemPaletteEntries`) is less than 256. -/
theorem C18_palette_index_safety (isDisplayDc : HDC → Bool) (st : PaletteState)
    (h : Reachable isDisplayDc st) : ∀ i ∈ st.accesses, i < 256 :=
  (Reachable.inv isDisplayDc st h).2.2.2.2

theorem initialPaletteState_isInitial : initialPaletteState.isInitial := by
  refine ⟨rfl, rfl, rfl, rfl, ?_, ?_, ?_, rfl⟩ <;> exact List.length_replicate _ _

theorem C19_ops_reachable :
    Reachable allDisplayDc (runPaletteOps allDisplayDc initialPaletteState C19_ops) := by
  apply Reachable.runPaletteOps
  · exact Reachable.init _ initialPaletteState_isInitial
  · intro op hop
    simp only [C19_ops, List.mem_cons, List.mem_singleton, List.not_mem_nil, or_false] at hop
    rcases hop with rfl | rfl | rfl
    · trivial
    · show 5 ≤ 5
      exact Nat.le_refl _
    · trivial

/-- Witness of C18: after two usage switches and a realization the log holds
indices up to 255, all below 256. -/
theorem C18_palette_index_safety_witness :
    Reachable allDisplayDc (runPaletteOps allDisplayDc initialPaletteState C19_ops) ∧
    (runPaletteOps allDisplayDc initialPaletteState C19_ops).accesses =
      [0, 1, 2, 3, 4, 0, 1, 2, 3, 4, 5, 6, 7, 8, 9, 246, 247, 248, 249, 250, 251, 252, 253,
        254, 255] ∧
    ∀ i ∈ (runPaletteOps allDisplayDc initialPaletteState C19_ops).accesses, i < 256 :=
  ⟨C19_ops_reachable, by decide,
    C18_palette_index_safety allDisplayDc _ C19_ops_reachable⟩

/-! ## C19: what a realization overwrites -/

/-- What does hold of the loop of `setSystemPalette`: it leaves every entry below
the first unused index it starts from, and every entry above the last
non-reserved index, as it is. -/
theorem Palette.setSystemPalette_loop_frame (entries : List PALETTEENTRY) (st : PaletteState)
    (hl : st.g_systemPaletteLastNonReservedIndex ≤ 255) (i : Nat)
    (hi : i < st.g_systemPaletteFirstUnusedIndex ∨ st.g_systemPaletteLastNonReservedIndex < i) :
    (Palette.setSystemPalette_loop st entries).g_systemPalette.getD i zeroEntry =
      st.g_systemPalette.getD i zeroEntry := by
  have hstore : ∀ (s : PaletteState) (e : PALETTEENTRY),
      s.g_systemPaletteLastNonReservedIndex ≤ 255 →
      s.g_systemPaletteFirstUnusedIndex ≤ s.g_systemPaletteLastNonReservedIndex →
      (i < s.g_systemPaletteFirstUnusedIndex ∨ s.g_systemPaletteLastNonReservedIndex < i) →
      (Palette.setSystemPalette_store s e).g_systemPaletteLastNonReservedIndex ≤ 255 ∧
      (i < (Palette.setSystemPalette_store s e).g_systemPaletteFirstUnusedIndex ∨
        (Palette.setSystemPalette_store s e).g_systemPaletteLastNonReservedIndex < i) ∧
      (Palette.setSystemPalette_store s e).g_systemPalette.getD i zeroEntry =
        s.g_systemPalette.getD i zeroEntry := by
    intro s e hl' hle hi'
    have hne : s.g_systemPaletteFirstUnusedIndex ≠ i := by omega
    refine ⟨hl', ?_, ?_⟩
    · show i < addUINT s.g_systemPaletteFirstUnusedIndex 1 ∨ _
      rw [addUINT_one _ (by omega)]
      rcases hi' with h | h
      · exact Or.inl (by omega)
      · exact Or.inr h
    · show (s.g_systemPalette.set _ _).getD i zeroEntry = _
      rw [List.getD_eq_getElem?_getD, List.getD_eq_getElem?_getD, List.getElem?_set_ne hne]
  induction entries generalizing st with
  | nil => rfl
  | cons entry rest ih =>
    unfold Palette.setSystemPalette_loop
    split
    · rename_i hle
      split
      · exact ih st hl hi
      · split
        · have hx : (exactMatch st entry).2 = { st with accesses := (exactMatch st entry).2.accesses } := by
            unfold exactMatch
            simp only []
            split <;> rfl
          split
          · rw [ih _ (by rw [hx]; exact hl) (by rw [hx]; exact hi), hx]
          · have hs := hstore (exactMatch st entry).2 entry (by rw [hx]; exact hl)
              (by rw [hx]; exact hle) (by rw [hx]; exact hi)
            rw [ih _ hs.1 hs.2.1, hs.2.2, hx]
        · have hs := hstore st entry hl hle hi
          rw [ih _ hs.1 hs.2.1, hs.2.2]
    · rfl

/-- What does hold of `setSystemPalette`: a foreground realization changes
entries of the non-reserved range only; a background realization changes no
entry below the first unused index or above the last non-reserved index. -/
theorem Palette.setSystemPalette_frame (st : PaletteState) (entries : List PALETTEENTRY)
    (count : Nat) (forceBackground : Bool)
    (hl : st.g_systemPaletteLastNonReservedIndex ≤ 255) (i : Nat)
    (hi : i < (if forceBackground then st.g_systemPaletteFirstUnusedIndex
        else st.g_systemPaletteFirstNonReservedIndex) ∨
      st.g_systemPaletteLastNonReservedIndex < i) :
    (Palette.setSystemPalette st entries count forceBackground).g_systemPalette.getD i
        zeroEntry = st.g_systemPalette.getD i zeroEntry := by
  unfold Palette.setSystemPalette
  simp only []
  rw [(VirtualScreen_updatePalette_inv_fields _ _).2, (Palette.setHardwarePalette_fields _ _).2]
  cases forceBackground
  · simp only [Bool.not_false, if_true, Bool.false_eq_true, if_false] at hi ⊢
    exact Palette.setSystemPalette_loop_frame _
      { st with g_systemPaletteFirstUnusedIndex := st.g_systemPaletteFirstNonReservedIndex }
      hl i hi
  · simp only [Bool.not_true, Bool.false_eq_true, if_false, if_true] at hi ⊢
    exact Palette.setSystemPalette_loop_frame _ st hl i hi

/-- Claim C19 fails on the code. The state after `C19_ops` is reachable; its
usage is `SYSPAL_STATIC` with non-reserved range 10..245, but its first unused
index is still 5, because `setSystemPaletteUse` does not reset it. A background
realization (`forceBackground = true`) of one colour then overwrites entry 5 of
the system palette, which lies below the non-reserved range. -/
theorem C19_reserved_entry_overwritten :
    Reachable allDisplayDc (runPaletteOps allDisplayDc initialPaletteState C19_ops) ∧
    (runPaletteOps allDisplayDc initialPaletteState C19_ops).g_systemPaletteUse =
      SYSPAL_STATIC ∧
    (runPaletteOps allDisplayDc initialPaletteState C19_ops).g_systemPaletteFirstNonReservedIndex
      = 10 ∧
    (runPaletteOps allDisplayDc initialPaletteState C19_ops).g_systemPaletteLastNonReservedIndex
      = 245 ∧
    (runPaletteOps allDisplayDc initialPaletteState C19_ops).g_systemPaletteFirstUnusedIndex
      = 5 ∧
    (runPaletteOps allDisplayDc initialPaletteState C19_ops).g_systemPalette.getD 5 zeroEntry =
      zeroEntry ∧
    (Palette.setSystemPalette (runPaletteOps allDisplayDc initialPaletteState C19_ops)
      [colour 9 9 9] 1 true).g_systemPalette.getD 5 zeroEntry =
        { peRed := 9, peGreen := 9, peBlue := 9, peFlags := 0 } := by
  refine ⟨C19_ops_reachable, ?_, ?_, ?_, ?_, ?_, ?_⟩ <;> decide

/-! ## C20: `setSystemPaletteUse` -/

/-- What `setSystemPaletteUse` returns and leaves, case by case, when the
stored usage is valid. -/
theorem setSystemPaletteUse_cases (isDisplayDc : HDC → Bool) (st : PaletteState) (hdc : HDC)
    (uUsage : Nat)
    (hu : st.g_systemPaletteUse = SYSPAL_STATIC ∨ st.g_systemPaletteUse = SYSPAL_NOSTATIC ∨
      st.g_systemPaletteUse = SYSPAL_NOSTATIC256) :
    ((isDisplayDc hdc = false ∨
        (uUsage ≠ SYSPAL_STATIC ∧ uUsage ≠ SYSPAL_NOSTATIC ∧ uUsage ≠ SYSPAL_NOSTATIC256)) ∧
      setSystemPaletteUse isDisplayDc st hdc uUsage = (SYSPAL_ERROR, st)) ∨
    ((isDisplayDc hdc = true ∧
        (uUsage = SYSPAL_STATIC ∨ uUsage = SYSPAL_NOSTATIC ∨ uUsage = SYSPAL_NOSTATIC256)) ∧
      (setSystemPaletteUse isDisplayDc st hdc uUsage).1 = st.g_systemPaletteUse ∧
      (setSystemPaletteUse isDisplayDc st hdc uUsage).2.g_systemPaletteUse = uUsage) := by
  have hsw : ∀ f l : Nat,
      (updateStaticSysPalEntries
        { st with
          g_systemPaletteFirstNonReservedIndex := f
          g_systemPaletteLastNonReservedIndex := l
          g_systemPaletteUse := uUsage }).g_systemPaletteUse = uUsage := by
    intro f l
    unfold updateStaticSysPalEntries
    simp only []
    split
    · rfl
    · unfold VirtualScreen_updatePalette Palette.setHardwarePalette
      rfl
  unfold setSystemPaletteUse
  cases hd : isDisplayDc hdc
  · left
    exact ⟨Or.inl rfl, by simp⟩
  · simp only [Bool.not_true, Bool.false_eq_true, if_false]
    by_cases he : uUsage = st.g_systemPaletteUse
    · right
      rw [if_pos he]
      exact ⟨⟨trivial, he ▸ hu⟩, rfl, he.symm⟩
    · rw [if_neg he]
      by_cases h1 : uUsage = SYSPAL_STATIC
      · right
        rw [if_pos h1]
        exact ⟨⟨trivial, Or.inl h1⟩, rfl, hsw 10 245⟩
      · rw [if_neg h1]
        by_cases h2 : uUsage = SYSPAL_NOSTATIC
        · right
          rw [if_pos h2]
          exact ⟨⟨trivial, Or.inr (Or.inl h2)⟩, rfl, hsw 1 254⟩
        · rw [if_neg h2]
          by_cases h3 : uUsage = SYSPAL_NOSTATIC256
          · right
            rw [if_pos h3]
            exact ⟨⟨trivial, Or.inr (Or.inr h3)⟩, rfl, hsw 0 255⟩
          · left
            rw [if_neg h3]
            exact ⟨Or.inr ⟨h1, h2, h3⟩, rfl⟩

/-- Claim C20. `setSystemPaletteUse` fails iff its input is invalid, atomically:
in every reachable palette state the hook returns `SYSPAL_ERROR` if and only if
the DC is not a display DC or `uUsage` is none of `SYSPAL_STATIC`,
`SYSPAL_NOSTATIC`, `SYSPAL_NOSTATIC256`; in that case the state (stored usage,
bounds of the reserved range, system palette) is unchanged; otherwise it
returns the usage in effect before the call, and `getSystemPaletteUse` on a
display DC then returns `uUsage`. -/
theorem C20_setSystemPaletteUse_fails_iff_invalid (isDisplayDc : HDC → Bool)
    (st : PaletteState) (h : Reachable isDisplayDc st) (hdc : HDC) (uUsage : Nat) :
    ((setSystemPaletteUse isDisplayDc st hdc uUsage).1 = SYSPAL_ERROR ↔
      (isDisplayDc hdc = false ∨
        (uUsage ≠ SYSPAL_STATIC ∧ uUsage ≠ SYSPAL_NOSTATIC ∧ uUsage ≠ SYSPAL_NOSTATIC256))) ∧
    ((setSystemPaletteUse isDisplayDc st hdc uUsage).1 = SYSPAL_ERROR →
      (setSystemPaletteUse isDisplayDc st hdc uUsage).2 = st ∧
      (setSystemPaletteUse isDisplayDc st hdc uUsage).2.g_systemPaletteUse =
        st.g_systemPaletteUse ∧
      (setSystemPaletteUse isDisplayDc st hdc uUsage).2.g_systemPaletteFirstNonReservedIndex =
        st.g_systemPaletteFirstNonReservedIndex ∧
      (setSystemPaletteUse isDisplayDc st hdc uUsage).2.g_systemPaletteLastNonReservedIndex =
        st.g_systemPaletteLastNonReservedIndex ∧
      (setSystemPaletteUse isDisplayDc st hdc uUsage).2.g_systemPalette = st.g_systemPalette) ∧
    ((setSystemPaletteUse isDisplayDc st hdc uUsage).1 ≠ SYSPAL_ERROR →
      (setSystemPaletteUse isDisplayDc st hdc uUsage).1 = st.g_systemPaletteUse ∧
      ∀ hdc', isDisplayDc hdc' = true →
        getSystemPaletteUse isDisplayDc (setSystemPaletteUse isDisplayDc st hdc uUsage).2 hdc' =
          uUsage) := by
  have hinv := Reachable.inv isDisplayDc st h
  have hu := hinv.1
  have hne : st.g_systemPaletteUse ≠ SYSPAL_ERROR := by
    rcases hu with hu | hu | hu <;> rw [hu] <;> decide
  rcases setSystemPaletteUse_cases isDisplayDc st hdc uUsage hu with
    ⟨hbad, heq⟩ | ⟨hgood, hret, huse⟩
  · refine ⟨⟨fun _ => hbad, fun _ => by rw [heq]⟩, fun _ => ?_, fun hn => ?_⟩
    · rw [heq]
      exact ⟨rfl, rfl, rfl, rfl, rfl⟩
    · rw [heq] at hn
      exact absurd rfl hn
  · have hnot : ¬ (isDisplayDc hdc = false ∨
        (uUsage ≠ SYSPAL_STATIC ∧ uUsage ≠ SYSPAL_NOSTATIC ∧ uUsage ≠ SYSPAL_NOSTATIC256)) := by
      rintro (hd | ⟨h1, h2, h3⟩)
      · rw [hgood.1] at hd
        cases hd
      · rcases hgood.2 with hg | hg | hg
        · exact h1 hg
        · exact h2 hg
        · exact h3 hg
    have hr : (setSystemPaletteUse isDisplayDc st hdc uUsage).1 ≠ SYSPAL_ERROR := by
      rw [hret]
      exact hne
    refine ⟨⟨fun he => absurd he hr, fun hb => absurd hb hnot⟩, fun he => absurd he hr,
      fun _ => ⟨hret, fun hdc' hd' => ?_⟩⟩
    simp [getSystemPaletteUse, hd', huse]

/-- Witness of C20 on the reachable state after `C19_ops` (usage
`SYSPAL_STATIC`): the invalid usage 7 is refused and changes nothing, the valid
`SYSPAL_NOSTATIC` is accepted, returns `SYSPAL_STATIC` and is reported next. -/
theorem C20_setSystemPaletteUse_fails_iff_invalid_witness :
    (setSystemPaletteUse allDisplayDc
      (runPaletteOps allDisplayDc initialPaletteState C19_ops) 1 7).1 = SYSPAL_ERROR ∧
    (setSystemPaletteUse allDisplayDc
      (runPaletteOps allDisplayDc initialPaletteState C19_ops) 1 7).2 =
        runPaletteOps allDisplayDc initialPaletteState C19_ops ∧
    (setSystemPaletteUse allDisplayDc
      (runPaletteOps allDisplayDc initialPaletteState C19_ops) 1 SYSPAL_NOSTATIC).1 =
        SYSPAL_STATIC ∧
    getSystemPaletteUse allDisplayDc
      (setSystemPaletteUse allDisplayDc
        (runPaletteOps allDisplayDc initialPaletteState C19_ops) 1 SYSPAL_NOSTATIC).2 1 =
        SYSPAL_NOSTATIC := by
  have hbad := C20_setSystemPaletteUse_fails_iff_invalid allDisplayDc _ C19_ops_reachable 1 7
  have hgood := C20_setSystemPaletteUse_fails_iff_invalid allDisplayDc _ C19_ops_reachable 1
    SYSPAL_NOSTATIC
  have he : (setSystemPaletteUse allDisplayDc
      (runPaletteOps allDisplayDc initialPaletteState C19_ops) 1 7).1 = SYSPAL_ERROR :=
    hbad.1.mpr (Or.inr (by decide))
  have hn : (setSystemPaletteUse allDisplayDc
      (runPaletteOps allDisplayDc initialPaletteState C19_ops) 1 SYSPAL_NOSTATIC).1 ≠
        SYSPAL_ERROR := by
    intro hc
    rcases hgood.1.mp hc with hd | ⟨_, h2, _⟩
    · cases hd
    · exact h2 rfl
  refine ⟨he, (hbad.2.1 he).1, ?_, (hgood.2.2 hn).2 1 rfl⟩
  rw [(hgood.2.2 hn).1]
  decide

end Gdi
